import Mathlib

/-!
# WSA80422 weather sensor assembly: event accumulator and windowed aggregator

A shallow embedding of `WSA80422.h` / `WSA80422.cpp`.

* Machine integers are `Nat` / `Int`; every C++ operation that can wrap is
  followed by an explicit reduction (`u8`, `u16`, `u32`, `i16`).
* A C array `T a[n]` is a function `Nat → T`; a function that indexes an array
  checks the index against the declared size and returns `none` when the
  access would leave the array (undefined behaviour in C++).
* `millis()` and `analogRead()` are inputs of the functions that call them.
* The locals `avg_x`, `avg_y`, `avg_spd` of `wind_calcs_per_second` are declared
  without an initialiser; the values they hold when the summing loop starts are
  inputs of the embedding.
-/

/-! ## Fixed-width arithmetic -/

/-- Truncation to `uint8_t`. -/
def u8 (n : Nat) : Nat := n % 256

/-- Truncation to `uint16_t`. -/
def u16 (n : Nat) : Nat := n % 65536

/-- Truncation to `uint32_t`. -/
def u32 (n : Nat) : Nat := n % 4294967296

/-- Truncation to `int16_t` (two's complement). -/
def i16 (z : Int) : Int := (z + 32768) % 65536 - 32768

/-- Subtraction of two `uint32_t` values, modulo `2^32`. -/
def sub32 (a b : Nat) : Nat :=
  (a % 4294967296 + 4294967296 - b % 4294967296) % 4294967296

/-- Assignment `a[i] = v` on an array seen as a function of the index. -/
def arrSet {α : Type} (a : Nat → α) (i : Nat) (v : α) : Nat → α :=
  fun j => if j = i then v else a j

/-! ## Data model (`WSA80422.h`) -/

/-- The enumeration `WINDDIR` of `WSA80422.h`, in declaration order. -/
inductive WINDDIR where
  | WDIR_N | WDIR_NNW | WDIR_NW | WDIR_WNW
  | WDIR_W | WDIR_WSW | WDIR_SW | WDIR_SSW
  | WDIR_S | WDIR_SSE | WDIR_SE | WDIR_ESE
  | WDIR_E | WDIR_ENE | WDIR_NE | WDIR_NNE
  | WDIR_ERR
  deriving DecidableEq

/-- The integer value of each enumerator (`WDIR_N = 0`, ..., `WDIR_ERR = 16`). -/
def WINDDIR.toNat : WINDDIR → Nat
  | .WDIR_N => 0 | .WDIR_NNW => 1 | .WDIR_NW => 2 | .WDIR_WNW => 3
  | .WDIR_W => 4 | .WDIR_WSW => 5 | .WDIR_SW => 6 | .WDIR_SSW => 7
  | .WDIR_S => 8 | .WDIR_SSE => 9 | .WDIR_SE => 10 | .WDIR_ESE => 11
  | .WDIR_E => 12 | .WDIR_ENE => 13 | .WDIR_NE => 14 | .WDIR_NNE => 15
  | .WDIR_ERR => 16

/-- The table `wind_vector_ary` of `WSA80422.cpp`: 17 rows of
(direction, x, y), flattened as in the source. -/
def wind_vector_ary : List Int :=
  [ 0, 0, 1000,
    1, 383, 924,
    2, 707, 707,
    3, 924, 383,
    4, 1000, 0,
    5, 924, -383,
    6, 707, -707,
    7, 382, -924,
    8, 0, -1000,
    9, -383, -924,
    10, -707, -707,
    11, -924, -383,
    12, -1000, 0,
    13, -924, 383,
    14, -707, 707,
    15, -383, 924,
    16, 0, 0 ]

/-- The private members of class `WSA80422` that the accumulator and the
aggregator use. -/
structure WSA80422 where
  /-- Member `uint16_t rain_fall_acc`. -/
  rain_fall_acc : Nat
  /-- Member `uint16_t acc_rain_1m[60]`. -/
  acc_rain_1m : Nat → Nat
  /-- Member `uint16_t acc_rain_1hr[24]`. -/
  acc_rain_1hr : Nat → Nat
  /-- Member `uint16_t wind_count`. -/
  wind_count : Nat
  /-- Member `uint8_t winddir_pin`. -/
  winddir_pin : Nat
  /-- Member `uint32_t time_of_last_wind_read`. -/
  time_of_last_wind_read : Nat
  /-- Member `uint32_t time_of_last_rain_read`. -/
  time_of_last_rain_read : Nat
  /-- Member `uint8_t wind_input_debounce_period`. -/
  wind_input_debounce_period : Nat
  /-- Member `uint8_t rain_input_debounce_period`. -/
  rain_input_debounce_period : Nat
  /-- Member `int16_t w_dir_5s_x[5]`. -/
  w_dir_5s_x : Nat → Int
  /-- Member `int16_t w_dir_5s_y[5]`. -/
  w_dir_5s_y : Nat → Int
  /-- Member `int16_t w_dir_2m_x[24]`. -/
  w_dir_2m_x : Nat → Int
  /-- Member `int16_t w_dir_2m_y[24]`. -/
  w_dir_2m_y : Nat → Int
  /-- Member `uint32_t w_spd_5s[5]`. -/
  w_spd_5s : Nat → Nat
  /-- Member `uint32_t w_spd_2m[24]`. -/
  w_spd_2m : Nat → Nat
  /-- Member `uint8_t idx5s`. -/
  idx5s : Nat
  /-- Member `uint8_t idx2m`. -/
  idx2m : Nat
  /-- Member `uint8_t rf_idx1m`. -/
  rf_idx1m : Nat
  /-- Member `uint8_t rf_idx1hr`. -/
  rf_idx1hr : Nat

namespace WSA80422

/-! ## Event accumulator -/

/-- Method `getWindDir`, as a function of the raw reading `getWindDirRaw()`. -/
def getWindDir (adc : Nat) : WINDDIR :=
  if adc < 380 then .WDIR_ESE
  else if adc < 393 then .WDIR_ENE
  else if adc < 414 then .WDIR_E
  else if adc < 456 then .WDIR_SSE
  else if adc < 508 then .WDIR_SE
  else if adc < 551 then .WDIR_SSW
  else if adc < 615 then .WDIR_S
  else if adc < 680 then .WDIR_NNE
  else if adc < 746 then .WDIR_NE
  else if adc < 801 then .WDIR_WSW
  else if adc < 833 then .WDIR_SW
  else if adc < 878 then .WDIR_NNW
  else if adc < 913 then .WDIR_N
  else if adc < 940 then .WDIR_WNW
  else if adc < 967 then .WDIR_NW
  else if adc < 990 then .WDIR_W
  else .WDIR_ERR

/-- Method `getWindAcc`. -/
def getWindAcc (s : WSA80422) : Nat := s.wind_count

/-- Method `resetWindAcc`. -/
def resetWindAcc (s : WSA80422) : WSA80422 := { s with wind_count := 0 }

/-- Method `getRainFall`. -/
def getRainFall (s : WSA80422) : Nat := s.rain_fall_acc

/-- Method `resetRainFallAcc`. -/
def resetRainFallAcc (s : WSA80422) : WSA80422 := { s with rain_fall_acc := 0 }

/-- The test of `rainIRQ_CB`, with `now_ms` the value of `millis()`. -/
def rainIRQ_accepts (now_ms : Nat) (s : WSA80422) : Bool :=
  decide (sub32 now_ms s.time_of_last_rain_read > s.rain_input_debounce_period)

/-- Method `rainIRQ_CB`, with `now_ms` the value of `millis()`. -/
def rainIRQ_CB (now_ms : Nat) (s : WSA80422) : WSA80422 :=
  if rainIRQ_accepts now_ms s then
    { s with time_of_last_rain_read := now_ms
             rain_fall_acc := u16 (s.rain_fall_acc + 11) }
  else s

/-- The test of `windIRQ_CB`, with `now_ms` the value of `millis()`. -/
def windIRQ_accepts (now_ms : Nat) (s : WSA80422) : Bool :=
  decide (sub32 now_ms s.time_of_last_wind_read > s.wind_input_debounce_period)

/-- Method `windIRQ_CB`, with `now_ms` the value of `millis()`. -/
def windIRQ_CB (now_ms : Nat) (s : WSA80422) : WSA80422 :=
  if windIRQ_accepts now_ms s then
    { s with time_of_last_wind_read := now_ms
             wind_count := u16 (s.wind_count + 1) }
  else s

/-! ## Windowed aggregator, rain path -/

/-- The loop `for (i = 0; i < 60; i++)` of `rain_calcs_per_minute`: the pair
(`total_rf`, `acc_rain_1m`) after the loop, `total_rf` starting at 0. -/
def rain_hour_loop (a : Nat → Nat) : Nat × (Nat → Nat) :=
  (List.range 60).foldl
    (fun (st : Nat × (Nat → Nat)) i => (u16 (st.1 + st.2 i), arrSet st.2 i 0)) (0, a)

/-- Method `rain_calcs_per_minute`. The local `total_rf` is computed by the
loop and goes out of scope without being stored. -/
def rain_calcs_per_minute (s : WSA80422) : Option WSA80422 :=
  if s.rf_idx1m < 60 then
    let s1 := { s with acc_rain_1m := arrSet s.acc_rain_1m s.rf_idx1m (getRainFall s) }
    let s2 := resetRainFallAcc s1
    let s3 := { s2 with rf_idx1m := u8 (s2.rf_idx1m + 1) }
    if s3.rf_idx1m = 60 then
      let s4 := { s3 with acc_rain_1m := (rain_hour_loop s3.acc_rain_1m).2 }
      let s5 := { s4 with rf_idx1hr := u8 (s4.rf_idx1hr + 1) }
      if s5.rf_idx1hr = 24 then some { s5 with rf_idx1hr := 0 } else some s5
    else some s3
  else none

/-- Method `get_last_a1hr_24hr_rain`: the pair (`*rain_1hr`, `*rain_day`). -/
def get_last_a1hr_24hr_rain (s : WSA80422) : Option (Nat × Nat) :=
  let previous_idx := if s.rf_idx1hr = 0 then 23 else u8 (s.rf_idx1hr - 1)
  if previous_idx < 24 then
    some (s.acc_rain_1hr previous_idx,
          (List.range 24).foldl (fun acc i => u16 (acc + s.acc_rain_1hr i)) 0)
  else none

/-- Method `get_last_a1m_rain`: the value of `*rain`. -/
def get_last_a1m_rain (s : WSA80422) : Option Nat :=
  let previous_idx := if s.rf_idx1m = 0 then 59 else u8 (s.rf_idx1m - 1)
  if previous_idx < 60 then some (s.acc_rain_1m previous_idx) else none

/-! ## Windowed aggregator, wind path -/

/-- The loop `for (i = 0; i < 5; i++)` of `wind_calcs_per_second` over the
arrays `w_dir_5s_x`, `w_dir_5s_y`, `w_spd_5s`: the triple (`avg_x`, `avg_y`,
`avg_spd`) after the loop, when the three locals hold `avg_x0`, `avg_y0`,
`avg_spd0` on entry. -/
def wind_avg_loop (xs ys : Nat → Int) (spd : Nat → Nat) (avg_x0 avg_y0 : Int) (avg_spd0 : Nat) :
    Int × Int × Nat :=
  (List.range 5).foldl
    (fun (st : Int × Int × Nat) i =>
      (i16 (st.1 + xs i), i16 (st.2.1 + ys i), u32 (st.2.2 + spd i)))
    (avg_x0, avg_y0, avg_spd0)

/-- Method `wind_calcs_per_second`. `adc` is the reading `getWindDirRaw()`;
`avg_x0`, `avg_y0`, `avg_spd0` are the values held by the uninitialised locals
`avg_x`, `avg_y`, `avg_spd` when the summing loop starts. -/
def wind_calcs_per_second (adc : Nat) (avg_x0 avg_y0 : Int) (avg_spd0 : Nat)
    (s : WSA80422) : Option WSA80422 :=
  let wind_dir := getWindDir adc
  let wind_spd_pls := getWindAcc s
  let s1 := resetWindAcc s
  let speed := u32 (wind_spd_pls * 1492)
  match wind_vector_ary[3 * wind_dir.toNat + 1]?, wind_vector_ary[3 * wind_dir.toNat + 2]? with
  | some x, some y =>
    if s1.idx5s < 5 then
      let s2 := { s1 with w_dir_5s_x := arrSet s1.w_dir_5s_x s1.idx5s x
                          w_dir_5s_y := arrSet s1.w_dir_5s_y s1.idx5s y
                          w_spd_5s := arrSet s1.w_spd_5s s1.idx5s speed
                          idx5s := u8 (s1.idx5s + 1) }
      if s2.idx5s = 5 then
        let sums := wind_avg_loop s2.w_dir_5s_x s2.w_dir_5s_y s2.w_spd_5s avg_x0 avg_y0 avg_spd0
        let avg_y := i16 (Int.tdiv sums.2.1 5)
        let avg_x := i16 (Int.tdiv sums.1 5)
        let avg_spd := sums.2.2 / 5
        if s2.idx2m < 24 then
          let s3 := { s2 with w_dir_2m_x := arrSet s2.w_dir_2m_x s2.idx2m avg_x
                              w_dir_2m_y := arrSet s2.w_dir_2m_y s2.idx2m avg_y
                              w_spd_2m := arrSet s2.w_spd_2m s2.idx2m avg_spd
                              idx2m := u8 (s2.idx2m + 1) }
          let s4 := if s3.idx2m = 24 then { s3 with idx2m := 0 } else s3
          some { s4 with idx5s := 0 }
        else none
      else some s2
    else none
  | _, _ => none

/-- Method `get_last_a5s_wind`: the triple (`*x`, `*y`, `*spd`). -/
def get_last_a5s_wind (s : WSA80422) : Option (Int × Int × Nat) :=
  let previous_idx := if s.idx2m = 0 then 23 else u8 (s.idx2m - 1)
  if previous_idx < 24 then
    some (s.w_dir_2m_x previous_idx, s.w_dir_2m_y previous_idx, s.w_spd_2m previous_idx)
  else none

end WSA80422

/-! ## Runs: sequences of interrupts and scheduler ticks -/

/-- An event of the rain subsystem: a bucket-tip closure delivered to
`rainIRQ_CB` at time `now_ms`, or a call of `rain_calcs_per_minute`. -/
inductive RainEvent where
  | closure (now_ms : Nat)
  | tick

/-- An event of the wind subsystem: an anemometer closure delivered to
`windIRQ_CB` at time `now_ms`, or a call of `wind_calcs_per_second` with the
vane reading `adc` and the entry values of its three uninitialised locals. -/
inductive WindEvent where
  | closure (now_ms : Nat)
  | tick (adc : Nat) (avg_x0 avg_y0 : Int) (avg_spd0 : Nat)

namespace WSA80422

/-- One event of the rain subsystem. -/
def rain_step : RainEvent → WSA80422 → Option WSA80422
  | .closure now_ms, s => some (rainIRQ_CB now_ms s)
  | .tick, s => rain_calcs_per_minute s

/-- The events of a list, in order, on the rain subsystem. -/
def rain_run : List RainEvent → WSA80422 → Option WSA80422
  | [], s => some s
  | e :: es, s => (rain_step e s).bind (rain_run es)

/-- One event of the wind subsystem. -/
def wind_step : WindEvent → WSA80422 → Option WSA80422
  | .closure now_ms, s => some (windIRQ_CB now_ms s)
  | .tick adc avg_x0 avg_y0 avg_spd0, s => wind_calcs_per_second adc avg_x0 avg_y0 avg_spd0 s

/-- The events of a list, in order, on the wind subsystem. -/
def wind_run : List WindEvent → WSA80422 → Option WSA80422
  | [], s => some s
  | e :: es, s => (wind_step e s).bind (wind_run es)

/-- Closures delivered one after the other to `windIRQ_CB`. -/
def wind_closures : List Nat → WSA80422 → WSA80422
  | [], s => s
  | t :: ts, s => wind_closures ts (windIRQ_CB t s)

/-- The number of closures of the list that `windIRQ_CB` accepts. -/
def wind_accepted : List Nat → WSA80422 → Nat
  | [], _ => 0
  | t :: ts, s => (if windIRQ_accepts t s then 1 else 0) + wind_accepted ts (windIRQ_CB t s)

/-- Closures delivered one after the other to `rainIRQ_CB`. -/
def rain_closures : List Nat → WSA80422 → WSA80422
  | [], s => s
  | t :: ts, s => rain_closures ts (rainIRQ_CB t s)

/-- The number of closures of the list that `rainIRQ_CB` accepts. -/
def rain_accepted : List Nat → WSA80422 → Nat
  | [], _ => 0
  | t :: ts, s => (if rainIRQ_accepts t s then 1 else 0) + rain_accepted ts (rainIRQ_CB t s)

/-- The timestamps `t + d`, `t + 2 * d`, ..., `t + n * d`. -/
def spaced (t d : Nat) : Nat → List Nat
  | 0 => []
  | n + 1 => (t + d) :: spaced (t + d) d n

/-- A state whose counters, timestamps, indices and ring slots are all zero,
with the given debounce periods. -/
def zeroState (wind_period rain_period : Nat) : WSA80422 where
  rain_fall_acc := 0
  acc_rain_1m := fun _ => 0
  acc_rain_1hr := fun _ => 0
  wind_count := 0
  winddir_pin := 0
  time_of_last_wind_read := 0
  time_of_last_rain_read := 0
  wind_input_debounce_period := wind_period
  rain_input_debounce_period := rain_period
  w_dir_5s_x := fun _ => 0
  w_dir_5s_y := fun _ => 0
  w_dir_2m_x := fun _ => 0
  w_dir_2m_y := fun _ => 0
  w_spd_5s := fun _ => 0
  w_spd_2m := fun _ => 0
  idx5s := 0
  idx2m := 0
  rf_idx1m := 0
  rf_idx1hr := 0

/-- One minute of the end-to-end rain example: ten closures 6000 ms apart,
the first at `t + 6000`, then the minute tick. -/
def rain_minute (t : Nat) : List RainEvent :=
  (spaced t 6000 10).map RainEvent.closure ++ [RainEvent.tick]

/-- The end-to-end rain example: `n` consecutive minutes starting at time `t`. -/
def rain_minutes (t : Nat) : Nat → List RainEvent
  | 0 => []
  | n + 1 => rain_minute t ++ rain_minutes (t + 60000) n

/-- A state in which the wind pulse counter holds the largest 16-bit value. -/
def windCountFull : WSA80422 := { zeroState 10 10 with wind_count := 65535 }

/-- Calls of `rain_calcs_per_minute`, one per element of the list; the element
is the value held by `rain_fall_acc` when the call is made. -/
def rain_ticks : List Nat → WSA80422 → Option WSA80422
  | [], s => some s
  | v :: vs, s => (rain_calcs_per_minute { s with rain_fall_acc := v }).bind (rain_ticks vs)

/-- A 5-second window from the zero state: two anemometer closures, then
five wind ticks with the vane reading 900 (north); the uninitialised locals of
the fifth tick, the one that runs the summing loop, hold the given values. -/
def northWindow (avg_x0 avg_y0 : Int) (avg_spd0 : Nat) : List WindEvent :=
  [.closure 100, .closure 200, .tick 900 0 0 0, .tick 900 0 0 0, .tick 900 0 0 0,
   .tick 900 0 0 0, .tick 900 avg_x0 avg_y0 avg_spd0]

/-- A 5-second window of five wind ticks whose vane readings alternate between
`first` and `second`; the uninitialised locals of the fifth tick hold the
given values. -/
def nearNorthWindow (first second : Nat) (avg_x0 avg_y0 : Int) (avg_spd0 : Nat) :
    List WindEvent :=
  [.tick first 0 0 0, .tick second 0 0 0, .tick first 0 0 0, .tick second 0 0 0,
   .tick first avg_x0 avg_y0 avg_spd0]

/-- The x component stored in the table row of a direction. -/
def table_x (d : WINDDIR) : Int := wind_vector_ary.getD (3 * d.toNat + 1) 0

/-- The y component stored in the table row of a direction. -/
def table_y (d : WINDDIR) : Int := wind_vector_ary.getD (3 * d.toNat + 2) 0

/-! ## Ranges of the threshold ladder -/

/-- The lower end of the range of raw readings that resolve to a direction. -/
def rangeLo : WINDDIR → Nat
  | .WDIR_ESE => 0 | .WDIR_ENE => 380 | .WDIR_E => 393 | .WDIR_SSE => 414
  | .WDIR_SE => 456 | .WDIR_SSW => 508 | .WDIR_S => 551 | .WDIR_NNE => 615
  | .WDIR_NE => 680 | .WDIR_WSW => 746 | .WDIR_SW => 801 | .WDIR_NNW => 833
  | .WDIR_N => 878 | .WDIR_WNW => 913 | .WDIR_NW => 940 | .WDIR_W => 967
  | .WDIR_ERR => 990

/-- The upper end (excluded) of the range of raw readings of a valid direction. -/
def rangeHi : WINDDIR → Nat
  | .WDIR_ESE => 380 | .WDIR_ENE => 393 | .WDIR_E => 414 | .WDIR_SSE => 456
  | .WDIR_SE => 508 | .WDIR_SSW => 551 | .WDIR_S => 615 | .WDIR_NNE => 680
  | .WDIR_NE => 746 | .WDIR_WSW => 801 | .WDIR_SW => 833 | .WDIR_NNW => 878
  | .WDIR_N => 913 | .WDIR_WNW => 940 | .WDIR_NW => 967 | .WDIR_W => 990
  | .WDIR_ERR => 990

/-! ## Sample states -/

/-- A state whose 1-hour ring holds 65000 in slot 0, 600 in slot 5 and 0
elsewhere, with write index 6. -/
def hourRingSample : WSA80422 :=
  { zeroState 10 10 with
    acc_rain_1hr := arrSet (arrSet (fun _ => 0) 0 65000) 5 600
    rf_idx1hr := 6 }

/-- A state about to complete a 5-second window whose first four slots hold
the north vector, with the 2-minute write index at its last slot. -/
def windowAlmostDone : WSA80422 :=
  { zeroState 10 10 with
    w_dir_5s_y := fun _ => 1000
    idx5s := 4
    idx2m := 23 }

/-! ## Initialisation -/

/-- Method `init`; the result is the pair (`config_success`, state after the
call). `millis_rain` and `millis_wind` are the values of the two calls of
`millis()`. The statements `uint8_t wind_input_debounce_period = 10;` and
`uint8_t rain_input_debounce_period = 10;` declare locals of the method, so
they assign no member. `pinMode`, `attachInterrupt` and `interrupts` act on the
hardware only. -/
def init (rain_pin wspd_pin wdir_pin : Nat) (millis_rain millis_wind : Nat) (s : WSA80422) :
    Bool × WSA80422 :=
  let config_success := true
  let _wind_input_debounce_period : Nat := 10
  let _rain_input_debounce_period : Nat := 10
  let config_success :=
    if wspd_pin = 2 then config_success
    else if wspd_pin = 3 then config_success
    else false
  let config_success :=
    if rain_pin = 2 then config_success
    else if rain_pin = 3 then config_success
    else false
  let s1 := { s with rain_fall_acc := 0 }
  let s2 := { s1 with wind_count := 0 }
  let s3 := { s2 with winddir_pin := wdir_pin }
  let s4 := { s3 with time_of_last_rain_read := millis_rain }
  let s5 := { s4 with time_of_last_wind_read := millis_wind }
  (config_success, s5)

/-! ## Windows of wind ticks -/

/-- One call of `wind_calcs_per_second` per vane reading of the list; the
uninitialised locals of every call hold the given values. -/
def windowTicks (adcs : List Nat) (avg_x0 avg_y0 : Int) (avg_spd0 : Nat) : List WindEvent :=
  adcs.map (fun adc => WindEvent.tick adc avg_x0 avg_y0 avg_spd0)

/-- The number of calls of `wind_calcs_per_second` in a list of events. -/
def wind_tick_count : List WindEvent → Nat
  | [] => 0
  | .closure _ :: es => wind_tick_count es
  | .tick _ _ _ _ :: es => wind_tick_count es + 1

/-- The vane readings of a window that resolve to a valid direction. -/
def validReadings (adcs : List Nat) : List Nat :=
  adcs.filter (fun adc => decide (getWindDir adc ≠ WINDDIR.WDIR_ERR))

/-- The sum of the table x components over the valid-direction readings. -/
def validSumX (adcs : List Nat) : Int :=
  ((validReadings adcs).map (fun adc => table_x (getWindDir adc))).sum

/-- The sum of the table y components over the valid-direction readings. -/
def validSumY (adcs : List Nat) : Int :=
  ((validReadings adcs).map (fun adc => table_y (getWindDir adc))).sum

/-- The truncated mean over the valid-direction readings only, as the
specification words the average: the valid sums divided by the number of
valid readings. -/
def validMean (adcs : List Nat) : Int × Int :=
  (Int.tdiv (validSumX adcs) (validReadings adcs).length,
   Int.tdiv (validSumY adcs) (validReadings adcs).length)

/-- A state in which the rain accumulator is within one tip of the largest
16-bit value. -/
def rainAccFull : WSA80422 := { zeroState 10 10 with rain_fall_acc := 65530 }

end WSA80422

/-! ## HTU21D humidity and temperature driver (`drv_htu21d.cpp`)

The I2C transactions are inputs of the functions that perform them: the number
of bytes returned by `Wire.requestFrom` and the values of the calls of
`Wire.read`. The `float` results are modelled by exact rationals. -/

/-- The members of class `DRV_HTU21D`. -/
structure DRV_HTU21D where
  /-- Member `uint8_t user_register`. -/
  user_register : Nat
  /-- Member `bool config_changed`. -/
  config_changed : Bool

namespace DRV_HTU21D

/-- The constant `CRC8_POLYNOMINAL`, `x^8 + x^5 + x^4 + 1`. -/
def CRC8_POLYNOMINAL : Nat := 0b100110001

/-- The constants `DRV_HTU21D_MAXRES`, `DRV_HTU21D_LORES`, `DRV_HTU21D_MIDRES`
and `DRV_HTU21D_HIRES`. -/
def DRV_HTU21D_MAXRES : Nat := 0

/-- See `DRV_HTU21D_MAXRES`. -/
def DRV_HTU21D_LORES : Nat := 1

/-- See `DRV_HTU21D_MAXRES`. -/
def DRV_HTU21D_MIDRES : Nat := 2

/-- See `DRV_HTU21D_MAXRES`. -/
def DRV_HTU21D_HIRES : Nat := 3

/-- The `for` loop of `check_crc8`, entered with the given values of
`bit_pos`, `polynominal` and `data`: the value of `data` when the loop exits.
The loop ends because `bit_pos` is halved on every iteration. -/
def check_crc8_loop (term_bit_pos : Nat) (bit_pos polynominal data : Nat) : Nat :=
  if bit_pos > term_bit_pos then
    check_crc8_loop term_bit_pos (bit_pos >>> 1) (polynominal >>> 1)
      (if bit_pos &&& data ≠ 0 then data ^^^ polynominal else data)
  else data
termination_by bit_pos
decreasing_by
  simp only [Nat.shiftRight_eq_div_pow]
  omega

/-- Method `check_crc8`. -/
def check_crc8 (in_data check : Nat) : Nat :=
  let crc_bit_len := 8
  let term_bit_pos := 1 <<< (crc_bit_len - 1)
  let polynominal := CRC8_POLYNOMINAL
  let data := u32 (in_data <<< crc_bit_len)
  let data := data ||| check
  let polynominal := u32 (polynominal <<< (32 - 9))
  u8 (check_crc8_loop term_bit_pos 0x80000000 polynominal data)

/-- Method `getTemp_C`. `bytes_rxd` is the value of `Wire.requestFrom`; `b0`,
`b1` and `crc` are the values of the three calls of `Wire.read`. -/
def getTemp_C (bytes_rxd b0 b1 crc : Nat) : ℚ :=
  let tempC_f : ℚ := -999
  if 2 < bytes_rxd then
    let tempC_f : ℚ := -998
    let raw_tempC := u16 b0
    let raw_tempC := u16 (raw_tempC <<< 8)
    let raw_tempC := u16 (raw_tempC ||| b1)
    let crc := u8 crc
    if 0 = check_crc8 raw_tempC crc then
      if raw_tempC &&& 0x02 ≠ 0 then
        -990
      else
        let raw_tempC := raw_tempC &&& 0xFFFC
        let tempC_f : ℚ := (raw_tempC : ℚ)
        ((17572 / 100) * tempC_f) / 65536 - 4685 / 100
    else tempC_f
  else tempC_f

/-- Method `getHumidity`. `rxd_bytes` is the value of `Wire.requestFrom`;
`b0`, `b1` and `crc` are the values of the three calls of `Wire.read`. -/
def getHumidity (rxd_bytes b0 b1 crc : Nat) : ℚ :=
  let hum_f : ℚ := -999
  if 2 < rxd_bytes then
    let hum_f : ℚ := -998
    let raw_hum := u16 b0
    let raw_hum := u16 (raw_hum <<< 8)
    let raw_hum := u16 (raw_hum ||| b1)
    let crc := u8 crc
    if 0 = check_crc8 raw_hum crc then
      let hum_f : ℚ := -990
      if raw_hum &&& 0x02 ≠ 0 then
        let raw_hum := raw_hum &&& 0xFFFC
        let hum_f : ℚ := (raw_hum : ℚ)
        (125 * hum_f) / 65536 - 6
      else hum_f
    else hum_f
  else hum_f

/-- Method `setResolution`. -/
def setResolution (opt : Nat) (s : DRV_HTU21D) : DRV_HTU21D :=
  let s1 := { s with user_register := s.user_register &&& 0b01111110 }
  let s2 :=
    if DRV_HTU21D_LORES = opt then { s1 with user_register := s1.user_register ||| 1 }
    else if DRV_HTU21D_MIDRES = opt then { s1 with user_register := s1.user_register ||| 0x80 }
    else if DRV_HTU21D_HIRES = opt then { s1 with user_register := s1.user_register ||| 0x81 }
    else s1
  { s2 with config_changed := true }

/-- The 16-bit word that `getTemp_C` and `getHumidity` assemble from the two
data bytes: `raw = Wire.read(); raw <<= 8; raw |= Wire.read();`. -/
def rawWord (b0 b1 : Nat) : Nat := u16 (u16 (u16 b0 <<< 8) ||| b1)

/-- The loop of `check_crc8` with an explicit bound on the number of
iterations, for evaluation; it agrees with `check_crc8_loop` as soon as the
bound exceeds the bit length of `bit_pos`. -/
def crcLoopFuel : Nat → Nat → Nat → Nat → Nat → Nat
  | 0, _, _, _, data => data
  | fuel + 1, term_bit_pos, bit_pos, polynominal, data =>
    if bit_pos > term_bit_pos then
      crcLoopFuel fuel term_bit_pos (bit_pos >>> 1) (polynominal >>> 1)
        (if bit_pos &&& data ≠ 0 then data ^^^ polynominal else data)
    else data

/-- The GF(2) polynomial `p` times the polynomial with one term `x^j` for each
`j` of the list, polynomials being encoded by their coefficient bits and
added with XOR. -/
def gf2Multiple (p : Nat) : List Nat → Nat
  | [] => 0
  | j :: js => (p <<< j) ^^^ gf2Multiple p js

/-- One bit step of the CRC-8 with polynomial 0x31, most significant bit
first, on an 8-bit register. -/
def crc8_shift (crc : Nat) : Nat :=
  if crc &&& 0x80 ≠ 0 then ((crc <<< 1) ^^^ 0x31) % 256 else (crc <<< 1) % 256

/-- The CRC-8 register after one more byte of the message. -/
def crc8_byte (crc byte : Nat) : Nat :=
  crc8_shift (crc8_shift (crc8_shift (crc8_shift (crc8_shift (crc8_shift (crc8_shift
    (crc8_shift (crc ^^^ byte))))))))

/-- The CRC-8 of a message as the specification names it: polynomial 0x31,
initial value 0, most significant bit first. -/
def crc8_msb (bytes : List Nat) : Nat := bytes.foldl crc8_byte 0

end DRV_HTU21D

/-! ## MPL3115A2 pressure driver (`MPL3115A2.cpp`) -/

namespace MPL3115A2

/-- The constant `MPL3115A2_REGISTER_STATUS_PDR`. -/
def MPL3115A2_REGISTER_STATUS_PDR : Nat := 0x04

/-- The loop `while (!(sta & mask)) { sta = i2c_read(STATUS); delay(10); }`,
`sta` starting at 0: `statuses` are the successive values of the status
register; the result tells whether the loop exits. -/
def poll_status (mask : Nat) : List Nat → Bool
  | [] => false
  | sta :: rest => if sta &&& mask ≠ 0 then true else poll_status mask rest

/-- Method `getPressure`; the result is the pair (`valid_pressure`, `*pressure`),
or `none` when the status loop never exits. `b0`, `b1`, `b2` are the values of
the three calls of `Wire.read`. -/
def getPressure (statuses : List Nat) (b0 b1 b2 : Nat) : Option (Bool × Nat) :=
  if poll_status MPL3115A2_REGISTER_STATUS_PDR statuses then
    let pressure := u32 b0
    let pressure := u32 (pressure <<< 8)
    let pressure := pressure ||| b1
    let pressure := u32 (pressure <<< 8)
    let pressure := pressure ||| b2
    let pressure := pressure >>> 4
    some (true, pressure)
  else none

/-- Method `getAltitude`; the result is the pair (`valid_altitude`, `*altitude`
after the call), or `none` when the status loop never exits. `altitude` is
`*altitude` before the call, `bytes_rxd` the value of `Wire.requestFrom`. -/
def getAltitude (statuses : List Nat) (bytes_rxd b0 b1 b2 : Nat) (altitude : Nat) :
    Option (Bool × Nat) :=
  if poll_status MPL3115A2_REGISTER_STATUS_PDR statuses then
    if 2 < bytes_rxd then
      let altitude := u32 b0
      let altitude := u32 (altitude <<< 8)
      let altitude := altitude ||| b1
      let altitude := u32 (altitude <<< 8)
      let altitude := altitude ||| b2
      let altitude := altitude >>> 4
      let altitude := if altitude &&& 0x80000 ≠ 0 then altitude ||| 0xFFF00000 else altitude
      some (true, altitude)
    else some (false, altitude)
  else none

/-- A 32-bit word read as a two's-complement signed integer. -/
def toInt32 (w : Nat) : Int := if w < 2147483648 then (w : Int) else (w : Int) - 4294967296

end MPL3115A2

/-! ## Frames of the two subsystems, the documented records, table rows -/

namespace WSA80422

/-- The store `acc_rain_1m[i] = v` at the place the member declarations of
class `WSA80422` give it. The declarations `uint16_t acc_rain_1m[60];
uint16_t acc_rain_1hr[24]; uint16_t wind_count;` follow one another, so
element `60 + j` of `acc_rain_1m` is `acc_rain_1hr[j]` for `j < 24` and
element 84 is `wind_count`; no result is given beyond 84. -/
def store_acc_rain_1m (i v : Nat) (s : WSA80422) : Option WSA80422 :=
  if i < 60 then some { s with acc_rain_1m := arrSet s.acc_rain_1m i v }
  else if i < 84 then some { s with acc_rain_1hr := arrSet s.acc_rain_1hr (i - 60) v }
  else if i = 84 then some { s with wind_count := v }
  else none

/-- Method `rain_calcs_per_minute` with its first store placed by
`store_acc_rain_1m` instead of being refused outside the array. -/
def rain_calcs_per_minute_layout (s : WSA80422) : Option WSA80422 :=
  (store_acc_rain_1m s.rf_idx1m (getRainFall s) s).bind fun s1 =>
    let s2 := resetRainFallAcc s1
    let s3 := { s2 with rf_idx1m := u8 (s2.rf_idx1m + 1) }
    if s3.rf_idx1m = 60 then
      let s4 := { s3 with acc_rain_1m := (rain_hour_loop s3.acc_rain_1m).2 }
      let s5 := { s4 with rf_idx1hr := u8 (s4.rf_idx1hr + 1) }
      if s5.rf_idx1hr = 24 then some { s5 with rf_idx1hr := 0 } else some s5
    else some s3

/-- Calls of `rain_calcs_per_minute_layout`, one per element of the list; the
element is the value held by `rain_fall_acc` when the call is made. -/
def rain_ticks_layout : List Nat → WSA80422 → Option WSA80422
  | [], s => some s
  | v :: vs, s =>
    (rain_calcs_per_minute_layout { s with rain_fall_acc := v }).bind (rain_ticks_layout vs)

/-- The rain fields of two states agree. -/
def same_rain_fields (s s' : WSA80422) : Prop :=
  s'.rain_fall_acc = s.rain_fall_acc ∧ s'.time_of_last_rain_read = s.time_of_last_rain_read ∧
  s'.acc_rain_1m = s.acc_rain_1m ∧ s'.acc_rain_1hr = s.acc_rain_1hr ∧
  s'.rf_idx1m = s.rf_idx1m ∧ s'.rf_idx1hr = s.rf_idx1hr ∧
  s'.rain_input_debounce_period = s.rain_input_debounce_period

/-- The wind fields of two states agree. -/
def same_wind_fields (s s' : WSA80422) : Prop :=
  s'.wind_count = s.wind_count ∧ s'.time_of_last_wind_read = s.time_of_last_wind_read ∧
  s'.winddir_pin = s.winddir_pin ∧
  s'.wind_input_debounce_period = s.wind_input_debounce_period ∧
  s'.w_dir_5s_x = s.w_dir_5s_x ∧ s'.w_dir_5s_y = s.w_dir_5s_y ∧ s'.w_spd_5s = s.w_spd_5s ∧
  s'.w_dir_2m_x = s.w_dir_2m_x ∧ s'.w_dir_2m_y = s.w_dir_2m_y ∧ s'.w_spd_2m = s.w_spd_2m ∧
  s'.idx5s = s.idx5s ∧ s'.idx2m = s.idx2m

/-- A state whose 1-hour ring holds the documented 24-hour record of 71.9 in:
five hours at the documented 1-hour record of 12000 thousandths and one hour
of 11900, with write index 6. -/
def recordDayRing : WSA80422 :=
  { zeroState 10 10 with
    acc_rain_1hr := fun i => if i < 5 then 12000 else if i = 5 then 11900 else 0
    rf_idx1hr := 6 }

/-- The table row of direction index `dir`, read as `wind_calcs_per_second`
reads it: (`wind_vector_ary[3 * dir + 1]`, `wind_vector_ary[3 * dir + 2]`). -/
def table_vec (dir : Nat) : Int × Int :=
  (wind_vector_ary.getD (3 * dir + 1) 0, wind_vector_ary.getD (3 * dir + 2) 0)

/-- The quarter turn that takes the vector of a compass point to the vector
of the point four steps further in the enumeration. -/
def quarter_turn (v : Int × Int) : Int × Int := (v.2, -v.1)

end WSA80422

/-! ## Debounce (`windIRQ_CB`, `rainIRQ_CB`) -/

namespace WSA80422

/-- The unsigned 32-bit difference of two in-range timestamps. -/
theorem sub32_eq (a b : Nat) (ha : a < 4294967296) (hb : b < 4294967296) :
    sub32 a b = if b ≤ a then a - b else a + 4294967296 - b := by
  unfold sub32
  split <;> omega

/-- C1 (as amended): `windIRQ_CB` accepts a closure exactly when the unsigned
32-bit difference `now_ms - time_of_last_wind_read` is strictly greater than
the wind debounce period. On acceptance `wind_count` becomes
`(wind_count + 1) mod 2^16`, which is `wind_count + 1` whenever
`wind_count < 65535`, and `time_of_last_wind_read` becomes `now_ms`. On
rejection the state is unchanged. -/
theorem windIRQ_CB_debounce (s : WSA80422) (now_ms : Nat)
    (hnow : now_ms < 4294967296) (hlast : s.time_of_last_wind_read < 4294967296) :
    (windIRQ_accepts now_ms s = true ↔
      s.wind_input_debounce_period <
        (if s.time_of_last_wind_read ≤ now_ms then now_ms - s.time_of_last_wind_read
         else now_ms + 4294967296 - s.time_of_last_wind_read)) ∧
    (windIRQ_accepts now_ms s = true →
      (windIRQ_CB now_ms s).wind_count = (s.wind_count + 1) % 65536 ∧
      (s.wind_count < 65535 → (windIRQ_CB now_ms s).wind_count = s.wind_count + 1) ∧
      (windIRQ_CB now_ms s).time_of_last_wind_read = now_ms) ∧
    (windIRQ_accepts now_ms s = false → windIRQ_CB now_ms s = s) := by
  refine ⟨?_, ?_, ?_⟩
  · unfold windIRQ_accepts
    rw [sub32_eq now_ms _ hnow hlast]
    simp
  · intro h
    simp only [windIRQ_CB, h, if_true, u16, true_and, and_true]
    intro hc
    omega
  · intro h
    simp [windIRQ_CB, h]

/-- Witness for C1: a closure at 100 ms in the zero state with debounce
period 10. -/
theorem windIRQ_CB_debounce_witness :
    (100 < 4294967296 ∧ (zeroState 10 10).time_of_last_wind_read < 4294967296) ∧
    (windIRQ_accepts 100 (zeroState 10 10) = true ∧
      (windIRQ_CB 100 (zeroState 10 10)).wind_count = 1 ∧
      (windIRQ_CB 100 (zeroState 10 10)).time_of_last_wind_read = 100) :=
  have h := windIRQ_CB_debounce (zeroState 10 10) 100 (by decide) (by decide)
  ⟨⟨by decide, by decide⟩, by decide, (h.2.1 (by decide)).2.1 (by decide),
    (h.2.1 (by decide)).2.2⟩

/-- C1 (as stated) fails when the 16-bit counter is full: the closure is
accepted and `wind_count` goes from 65535 to 0, not to 65536. -/
theorem windIRQ_CB_count_wraps :
    windIRQ_accepts 100 windCountFull = true ∧
    windCountFull.wind_count = 65535 ∧
    (windIRQ_CB 100 windCountFull).wind_count = 0 ∧
    (windIRQ_CB 100 windCountFull).wind_count ≠ windCountFull.wind_count + 1 := by
  decide

/-- C2 (as stated) fails at the boundary: with debounce period 10 and a first
closure accepted at 100 ms, a second closure exactly one period later, at
110 ms, is rejected by both handlers: the wind counter is raised by one in
total and the rain accumulator by one tip (11), although the two closures are
at the debounce boundary. One millisecond later the second closure counts. -/
theorem debounce_boundary_rejected :
    windIRQ_accepts 100 (zeroState 10 10) = true ∧
    rainIRQ_accepts 100 (zeroState 10 10) = true ∧
    (windIRQ_CB 110 (windIRQ_CB 100 (zeroState 10 10))).wind_count = 1 ∧
    (rainIRQ_CB 110 (rainIRQ_CB 100 (zeroState 10 10))).rain_fall_acc = 11 ∧
    (windIRQ_CB 111 (windIRQ_CB 100 (zeroState 10 10))).wind_count = 2 ∧
    (rainIRQ_CB 111 (rainIRQ_CB 100 (zeroState 10 10))).rain_fall_acc = 22 := by
  decide

/-- C2 (as amended): for every debounce period and every pair of closures at
32-bit times `t0 ≤ t1` of which the first is accepted: when `t1 - t0` is at
most the period (the boundary included) the second closure is rejected and the
two closures raise the counter by one in total; when `t1 - t0` is strictly
greater than the period they raise it by two. The counters are 16-bit, so the
totals are modulo `2^16` and exact below the wrap. This holds for `windIRQ_CB`
(`wind_count`, steps of 1) and for `rainIRQ_CB` (`rain_fall_acc`, steps of one
tip, 11). -/
theorem two_closures_debounce (s : WSA80422) (t0 t1 : Nat) (h01 : t0 ≤ t1)
    (h1 : t1 < 4294967296) :
    (windIRQ_accepts t0 s = true →
      (t1 - t0 ≤ s.wind_input_debounce_period →
        (windIRQ_CB t1 (windIRQ_CB t0 s)).wind_count = (s.wind_count + 1) % 65536) ∧
      (s.wind_input_debounce_period < t1 - t0 →
        (windIRQ_CB t1 (windIRQ_CB t0 s)).wind_count = (s.wind_count + 2) % 65536 ∧
        (s.wind_count < 65534 →
          (windIRQ_CB t1 (windIRQ_CB t0 s)).wind_count = s.wind_count + 2))) ∧
    (rainIRQ_accepts t0 s = true →
      (t1 - t0 ≤ s.rain_input_debounce_period →
        (rainIRQ_CB t1 (rainIRQ_CB t0 s)).rain_fall_acc = (s.rain_fall_acc + 11) % 65536) ∧
      (s.rain_input_debounce_period < t1 - t0 →
        (rainIRQ_CB t1 (rainIRQ_CB t0 s)).rain_fall_acc = (s.rain_fall_acc + 22) % 65536 ∧
        (s.rain_fall_acc < 65514 →
          (rainIRQ_CB t1 (rainIRQ_CB t0 s)).rain_fall_acc = s.rain_fall_acc + 22))) := by
  have hsub : sub32 t1 t0 = t1 - t0 := by
    rw [sub32_eq t1 t0 h1 (by omega), if_pos h01]
  constructor
  · intro h0
    have e0 : windIRQ_CB t0 s = { s with time_of_last_wind_read := t0
                                         wind_count := u16 (s.wind_count + 1) } := by
      simp only [windIRQ_CB, h0, if_true]
    have hacc : windIRQ_accepts t1 (windIRQ_CB t0 s) =
        decide (t1 - t0 > s.wind_input_debounce_period) := by
      rw [e0]
      simp only [windIRQ_accepts, hsub]
    constructor
    · intro hle
      have hrej : windIRQ_accepts t1 (windIRQ_CB t0 s) = false := by
        rw [hacc]
        exact decide_eq_false (by omega)
      have e1 : ∀ r : WSA80422, windIRQ_accepts t1 r = false → windIRQ_CB t1 r = r :=
        fun r hr => by simp [windIRQ_CB, hr]
      rw [e1 _ hrej, e0]
      rfl
    · intro hgt
      have hok : windIRQ_accepts t1 (windIRQ_CB t0 s) = true := by
        rw [hacc]
        exact decide_eq_true hgt
      have e1 : ∀ r : WSA80422, windIRQ_accepts t1 r = true →
          (windIRQ_CB t1 r).wind_count = u16 (r.wind_count + 1) :=
        fun r hr => by simp only [windIRQ_CB, hr, if_true]
      rw [e1 _ hok, e0]
      simp only [u16]
      constructor
      · omega
      · intro hc
        omega
  · intro h0
    have e0 : rainIRQ_CB t0 s = { s with time_of_last_rain_read := t0
                                         rain_fall_acc := u16 (s.rain_fall_acc + 11) } := by
      simp only [rainIRQ_CB, h0, if_true]
    have hacc : rainIRQ_accepts t1 (rainIRQ_CB t0 s) =
        decide (t1 - t0 > s.rain_input_debounce_period) := by
      rw [e0]
      simp only [rainIRQ_accepts, hsub]
    constructor
    · intro hle
      have hrej : rainIRQ_accepts t1 (rainIRQ_CB t0 s) = false := by
        rw [hacc]
        exact decide_eq_false (by omega)
      have e1 : ∀ r : WSA80422, rainIRQ_accepts t1 r = false → rainIRQ_CB t1 r = r :=
        fun r hr => by simp [rainIRQ_CB, hr]
      rw [e1 _ hrej, e0]
      rfl
    · intro hgt
      have hok : rainIRQ_accepts t1 (rainIRQ_CB t0 s) = true := by
        rw [hacc]
        exact decide_eq_true hgt
      have e1 : ∀ r : WSA80422, rainIRQ_accepts t1 r = true →
          (rainIRQ_CB t1 r).rain_fall_acc = u16 (r.rain_fall_acc + 11) :=
        fun r hr => by simp only [rainIRQ_CB, hr, if_true]
      rw [e1 _ hok, e0]
      simp only [u16]
      constructor
      · omega
      · intro hc
        omega

/-- Witness for C2: period 10, closures at 100 ms and 110 ms (the boundary)
count once; closures at 100 ms and 111 ms count twice. -/
theorem two_closures_debounce_witness :
    ((100 : Nat) ≤ 110 ∧ (110 : Nat) < 4294967296 ∧ windIRQ_accepts 100 (zeroState 10 10) = true ∧
      rainIRQ_accepts 100 (zeroState 10 10) = true ∧
      110 - 100 ≤ (zeroState 10 10).wind_input_debounce_period ∧
      (zeroState 10 10).rain_input_debounce_period < 111 - 100) ∧
    (windIRQ_CB 110 (windIRQ_CB 100 (zeroState 10 10))).wind_count = 1 ∧
    (rainIRQ_CB 111 (rainIRQ_CB 100 (zeroState 10 10))).rain_fall_acc = 22 :=
  ⟨⟨by decide, by decide, by decide, by decide, by decide, by decide⟩,
   ((two_closures_debounce (zeroState 10 10) 100 110 (by decide) (by decide)).1
      (by decide)).1 (by decide),
   (((two_closures_debounce (zeroState 10 10) 100 111 (by decide) (by decide)).2
      (by decide)).2 (by decide)).2 (by decide)⟩

end WSA80422

/-! ## The scheduler ticks, case by case -/

namespace WSA80422

/-- The table read at `3 * wind_dir + 1` is inside the table. -/
theorem table_x_lookup (d : WINDDIR) : wind_vector_ary[3 * d.toNat + 1]? = some (table_x d) := by
  cases d <;> rfl

/-- The table read at `3 * wind_dir + 2` is inside the table. -/
theorem table_y_lookup (d : WINDDIR) : wind_vector_ary[3 * d.toNat + 2]? = some (table_y d) := by
  cases d <;> rfl

/-- A wind tick that does not complete the 5-second ring. -/
theorem wind_tick_lt4 (adc : Nat) (jx jy : Int) (js : Nat) (s : WSA80422) (h : s.idx5s < 4) :
    wind_calcs_per_second adc jx jy js s =
      some { resetWindAcc s with
        w_dir_5s_x := arrSet s.w_dir_5s_x s.idx5s (table_x (getWindDir adc))
        w_dir_5s_y := arrSet s.w_dir_5s_y s.idx5s (table_y (getWindDir adc))
        w_spd_5s := arrSet s.w_spd_5s s.idx5s (u32 (getWindAcc s * 1492))
        idx5s := s.idx5s + 1 } := by
  have h5 : s.idx5s < 5 := by omega
  have hu : u8 (s.idx5s + 1) = s.idx5s + 1 := by unfold u8; omega
  have hne : ¬ (s.idx5s + 1 = 5) := by omega
  simp only [wind_calcs_per_second, table_x_lookup, table_y_lookup, resetWindAcc, h5, if_true, hu, hne, if_false]

/-- A wind tick that completes the 5-second ring. -/
theorem wind_tick_eq4 (adc : Nat) (jx jy : Int) (js : Nat) (s : WSA80422) (h : s.idx5s = 4)
    (h2 : s.idx2m < 24) :
    wind_calcs_per_second adc jx jy js s =
      some { s with
        wind_count := 0
        w_dir_5s_x := arrSet s.w_dir_5s_x 4 (table_x (getWindDir adc))
        w_dir_5s_y := arrSet s.w_dir_5s_y 4 (table_y (getWindDir adc))
        w_spd_5s := arrSet s.w_spd_5s 4 (u32 (getWindAcc s * 1492))
        w_dir_2m_x := arrSet s.w_dir_2m_x s.idx2m
          (i16 (Int.tdiv (wind_avg_loop (arrSet s.w_dir_5s_x 4 (table_x (getWindDir adc)))
            (arrSet s.w_dir_5s_y 4 (table_y (getWindDir adc)))
            (arrSet s.w_spd_5s 4 (u32 (getWindAcc s * 1492))) jx jy js).1 5))
        w_dir_2m_y := arrSet s.w_dir_2m_y s.idx2m
          (i16 (Int.tdiv (wind_avg_loop (arrSet s.w_dir_5s_x 4 (table_x (getWindDir adc)))
            (arrSet s.w_dir_5s_y 4 (table_y (getWindDir adc)))
            (arrSet s.w_spd_5s 4 (u32 (getWindAcc s * 1492))) jx jy js).2.1 5))
        w_spd_2m := arrSet s.w_spd_2m s.idx2m
          ((wind_avg_loop (arrSet s.w_dir_5s_x 4 (table_x (getWindDir adc)))
            (arrSet s.w_dir_5s_y 4 (table_y (getWindDir adc)))
            (arrSet s.w_spd_5s 4 (u32 (getWindAcc s * 1492))) jx jy js).2.2 / 5)
        idx2m := (s.idx2m + 1) % 24
        idx5s := 0 } := by
  have hu : u8 (4 + 1) = 5 := by decide
  by_cases h24 : s.idx2m = 23
  · have hu2 : u8 (23 + 1) = 24 := by decide
    have hm : (23 + 1) % 24 = 0 := by decide
    simp only [wind_calcs_per_second, table_x_lookup, table_y_lookup, resetWindAcc, h, hu, hu2,
      h24, hm, if_true]
    simp
  · have hu2 : u8 (s.idx2m + 1) = s.idx2m + 1 := by unfold u8; omega
    have hm : (s.idx2m + 1) % 24 = s.idx2m + 1 := by omega
    have hne : ¬ (s.idx2m + 1 = 24) := by omega
    simp only [wind_calcs_per_second, table_x_lookup, table_y_lookup, resetWindAcc, h, hu, hu2,
      h2, hne, hm, if_true, if_false]
    simp

/-- After `n` iterations the summing loop has zeroed the slots below `n` and left the others. -/
theorem rain_loop_zeroes_below (a : Nat → Nat) (n : Nat) :
    ∀ i, ((List.range n).foldl
      (fun (st : Nat × (Nat → Nat)) i => (u16 (st.1 + st.2 i), arrSet st.2 i 0)) (0, a)).2 i =
      if i < n then 0 else a i := by
  induction n with
  | zero => intro i; simp
  | succ n ih =>
    intro i
    rw [List.range_succ, List.foldl_append]
    simp only [List.foldl_cons, List.foldl_nil, arrSet]
    by_cases h : i = n
    · subst h; simp
    · rw [if_neg h, ih i]
      by_cases h2 : i < n
      · have : i < n + 1 := by omega
        simp [h2, this]
      · have : ¬ i < n + 1 := by omega
        simp [h2, this]

/-- The summing loop zeroes every slot of the 1-minute ring. -/
theorem rain_hour_loop_clears (a : Nat → Nat) (i : Nat) (h : i < 60) :
    (rain_hour_loop a).2 i = 0 := by
  unfold rain_hour_loop
  rw [rain_loop_zeroes_below a 60 i, if_pos h]

/-- A rain tick that does not complete the 1-minute ring. -/
theorem rain_tick_lt59 (s : WSA80422) (h : s.rf_idx1m < 59) :
    rain_calcs_per_minute s =
      some { s with
        acc_rain_1m := arrSet s.acc_rain_1m s.rf_idx1m (getRainFall s)
        rain_fall_acc := 0
        rf_idx1m := s.rf_idx1m + 1 } := by
  have h60 : s.rf_idx1m < 60 := by omega
  have hu : u8 (s.rf_idx1m + 1) = s.rf_idx1m + 1 := by unfold u8; omega
  have hne : ¬ (s.rf_idx1m + 1 = 60) := by omega
  simp only [rain_calcs_per_minute, resetRainFallAcc, h60, hu, hne, if_true, if_false]

/-- A rain tick that completes the 1-minute ring. -/
theorem rain_tick_eq59 (s : WSA80422) (h : s.rf_idx1m = 59) :
    rain_calcs_per_minute s =
      some { s with
        acc_rain_1m := (rain_hour_loop (arrSet s.acc_rain_1m 59 (getRainFall s))).2
        rain_fall_acc := 0
        rf_idx1m := 60
        rf_idx1hr := if u8 (s.rf_idx1hr + 1) = 24 then 0 else u8 (s.rf_idx1hr + 1) } := by
  have hu : u8 (59 + 1) = 60 := by decide
  have h60 : (59 : Nat) < 60 := by decide
  by_cases h24 : u8 (s.rf_idx1hr + 1) = 24
  · simp only [rain_calcs_per_minute, resetRainFallAcc, h, hu, h60, h24, if_true]
  · simp only [rain_calcs_per_minute, resetRainFallAcc, h, hu, h60, h24, if_true, if_false]

end WSA80422

/-! ## Single wind tick and rollover of the 1-minute rain ring -/

namespace WSA80422

/-- C10: a call of `wind_calcs_per_second` with `idx5s = i < 4` and pulse count
`wind_count = c` returns normally, writes slot `i` of the 5-second ring with
the table vector of `getWindDir adc` and the speed `c * 1492`, sets
`wind_count` to 0, advances `idx5s` to `i + 1`, and leaves every other
5-second slot, the whole 2-minute ring and `idx2m` unchanged. -/
theorem wind_tick_writes_one_slot (s : WSA80422) (adc : Nat) (avg_x0 avg_y0 : Int)
    (avg_spd0 : Nat) (hi : s.idx5s < 4) (hc : s.wind_count < 65536) :
    ∃ s', wind_calcs_per_second adc avg_x0 avg_y0 avg_spd0 s = some s' ∧
      wind_vector_ary[3 * (getWindDir adc).toNat + 1]? = some (s'.w_dir_5s_x s.idx5s) ∧
      wind_vector_ary[3 * (getWindDir adc).toNat + 2]? = some (s'.w_dir_5s_y s.idx5s) ∧
      s'.w_spd_5s s.idx5s = s.wind_count * 1492 ∧
      s'.wind_count = 0 ∧
      s'.idx5s = s.idx5s + 1 ∧
      (∀ j, j ≠ s.idx5s →
        s'.w_dir_5s_x j = s.w_dir_5s_x j ∧ s'.w_dir_5s_y j = s.w_dir_5s_y j ∧
        s'.w_spd_5s j = s.w_spd_5s j) ∧
      s'.w_dir_2m_x = s.w_dir_2m_x ∧ s'.w_dir_2m_y = s.w_dir_2m_y ∧
      s'.w_spd_2m = s.w_spd_2m ∧ s'.idx2m = s.idx2m := by
  refine ⟨_, wind_tick_lt4 adc avg_x0 avg_y0 avg_spd0 s hi, ?_, ?_, ?_, rfl, rfl, ?_, rfl, rfl,
    rfl, rfl⟩
  · simp [arrSet, table_x_lookup]
  · simp [arrSet, table_y_lookup]
  · simp only [arrSet, if_true, getWindAcc, u32]
    omega
  · intro j hj
    simp [arrSet, hj, resetWindAcc]

/-- Witness for C10: three pulses, vane reading 900 (north), write index 0. -/
theorem wind_tick_writes_one_slot_witness :
    ((zeroState 10 10).idx5s < 4 ∧ ({ zeroState 10 10 with wind_count := 3 }).wind_count < 65536) ∧
    ∃ s', wind_calcs_per_second 900 0 0 0 { zeroState 10 10 with wind_count := 3 } = some s' ∧
      s'.w_dir_5s_x 0 = 0 ∧ s'.w_dir_5s_y 0 = 1000 ∧ s'.w_spd_5s 0 = 4476 ∧
      s'.wind_count = 0 ∧ s'.idx5s = 1 := by
  refine ⟨⟨by decide, by decide⟩, ?_⟩
  obtain ⟨s', h, hx, hy, hs, hc, hi, _⟩ :=
    wind_tick_writes_one_slot { zeroState 10 10 with wind_count := 3 } 900 0 0 0
      (by decide) (by decide)
  refine ⟨s', h, ?_, ?_, hs, hc, hi⟩
  · have : wind_vector_ary[3 * (getWindDir 900).toNat + 1]? = some 0 := by decide
    rw [this] at hx
    exact (Option.some.inj hx).symm
  · have : wind_vector_ary[3 * (getWindDir 900).toNat + 2]? = some 1000 := by decide
    rw [this] at hy
    exact (Option.some.inj hy).symm

/-- Ticks that fill the 1-minute ring from write index `rf_idx1m` up to its
last slot leave every slot zero. -/
theorem rain_ticks_to_rollover (vs : List Nat) :
    ∀ s : WSA80422, vs ≠ [] → s.rf_idx1m + vs.length = 60 →
      ∃ s', rain_ticks vs s = some s' ∧ ∀ i, i < 60 → s'.acc_rain_1m i = 0 := by
  induction vs with
  | nil => intro s h; exact absurd rfl h
  | cons v rest ih =>
    intro s _ hlen
    simp only [List.length_cons] at hlen
    by_cases hrest : rest = []
    · subst hrest
      simp only [List.length_nil] at hlen
      have h59 : ({ s with rain_fall_acc := v } : WSA80422).rf_idx1m = 59 := by
        show s.rf_idx1m = 59
        omega
      simp only [rain_ticks, rain_tick_eq59 _ h59, Option.some_bind]
      refine ⟨_, rfl, ?_⟩
      intro i hi
      exact rain_hour_loop_clears _ i hi
    · have hpos : 0 < rest.length := List.length_pos.mpr hrest
      have hlt : ({ s with rain_fall_acc := v } : WSA80422).rf_idx1m < 59 := by
        show s.rf_idx1m < 59
        omega
      simp only [rain_ticks, rain_tick_lt59 _ hlt, Option.some_bind]
      apply ih _ hrest
      show s.rf_idx1m + 1 + rest.length = 60
      omega

/-- C7: starting with `rf_idx1m = 0`, the 60th call of `rain_calcs_per_minute`
returns normally and leaves every one of the 60 slots of `acc_rain_1m` at 0,
whatever the values `vs` drained by the 60 calls and whatever the ring held. -/
theorem rain_ring_cleared_after_60 (s : WSA80422) (vs : List Nat)
    (h0 : s.rf_idx1m = 0) (hlen : vs.length = 60) :
    ∃ s', rain_ticks vs s = some s' ∧ ∀ i, i < 60 → s'.acc_rain_1m i = 0 := by
  apply rain_ticks_to_rollover vs s
  · intro h
    rw [h] at hlen
    simp at hlen
  · omega

/-- Witness for C7: sixty minutes draining 110 each. -/
theorem rain_ring_cleared_after_60_witness :
    ((zeroState 10 10).rf_idx1m = 0 ∧ (List.replicate 60 110).length = 60) ∧
    ∃ s', rain_ticks (List.replicate 60 110) (zeroState 10 10) = some s' ∧
      ∀ i, i < 60 → s'.acc_rain_1m i = 0 :=
  ⟨⟨by decide, by decide⟩,
    rain_ring_cleared_after_60 (zeroState 10 10) (List.replicate 60 110) (by decide) (by decide)⟩

end WSA80422

/-! ## Draining the counters -/

namespace WSA80422

/-- The wind handler touches only `wind_count` and `time_of_last_wind_read`. -/
theorem windIRQ_CB_frame (t : Nat) (s : WSA80422) :
    (windIRQ_CB t s).idx5s = s.idx5s ∧ (windIRQ_CB t s).idx2m = s.idx2m := by
  unfold windIRQ_CB
  split <;> exact ⟨rfl, rfl⟩

/-- The rain handler touches only `rain_fall_acc` and `time_of_last_rain_read`. -/
theorem rainIRQ_CB_frame (t : Nat) (s : WSA80422) :
    (rainIRQ_CB t s).rf_idx1m = s.rf_idx1m := by
  unfold rainIRQ_CB
  split <;> rfl

/-- Wind closures leave the ring indices alone. -/
theorem wind_closures_frame (ts : List Nat) :
    ∀ s : WSA80422, (wind_closures ts s).idx5s = s.idx5s ∧ (wind_closures ts s).idx2m = s.idx2m := by
  induction ts with
  | nil => intro s; exact ⟨rfl, rfl⟩
  | cons t ts ih =>
    intro s
    simp only [wind_closures]
    rw [(ih _).1, (ih _).2]
    exact windIRQ_CB_frame t s

/-- Rain closures leave the ring index alone. -/
theorem rain_closures_frame (ts : List Nat) :
    ∀ s : WSA80422, (rain_closures ts s).rf_idx1m = s.rf_idx1m := by
  induction ts with
  | nil => intro s; rfl
  | cons t ts ih =>
    intro s
    simp only [rain_closures]
    rw [ih _]
    exact rainIRQ_CB_frame t s

/-- The wind counter after a sequence of closures: the accepted ones, modulo `2^16`. -/
theorem wind_closures_count (ts : List Nat) :
    ∀ s : WSA80422, s.wind_count < 65536 →
      (wind_closures ts s).wind_count = (s.wind_count + wind_accepted ts s) % 65536 := by
  induction ts with
  | nil =>
    intro s h
    simp only [wind_closures, wind_accepted]
    omega
  | cons t ts ih =>
    intro s h
    simp only [wind_closures, wind_accepted]
    by_cases hacc : windIRQ_accepts t s = true
    · have hc : (windIRQ_CB t s).wind_count = (s.wind_count + 1) % 65536 := by
        simp [windIRQ_CB, hacc, u16]
      rw [ih _ (by rw [hc]; omega), hc]
      simp only [hacc, if_true]
      omega
    · have hc : windIRQ_CB t s = s := by simp [windIRQ_CB, hacc]
      rw [hc, ih _ h]
      simp [hacc]

/-- The rain accumulator after a sequence of closures: 11 per accepted one,
modulo `2^16`. -/
theorem rain_closures_acc (ts : List Nat) :
    ∀ s : WSA80422, s.rain_fall_acc < 65536 →
      (rain_closures ts s).rain_fall_acc = (s.rain_fall_acc + 11 * rain_accepted ts s) % 65536 := by
  induction ts with
  | nil =>
    intro s h
    simp only [rain_closures, rain_accepted]
    omega
  | cons t ts ih =>
    intro s h
    simp only [rain_closures, rain_accepted]
    by_cases hacc : rainIRQ_accepts t s = true
    · have hc : (rainIRQ_CB t s).rain_fall_acc = (s.rain_fall_acc + 11) % 65536 := by
        simp [rainIRQ_CB, hacc, u16]
      rw [ih _ (by rw [hc]; omega), hc]
      simp only [hacc, if_true]
      omega
    · have hc : rainIRQ_CB t s = s := by simp [rainIRQ_CB, hacc]
      rw [hc, ih _ h]
      simp [hacc]

/-- A wind tick inside both rings returns normally, stores the speed of the
drained count in the current 5-second slot and leaves `wind_count` at 0 and
both indices inside their rings. -/
theorem wind_tick_ok (adc : Nat) (jx jy : Int) (js : Nat) (s : WSA80422)
    (h5 : s.idx5s < 5) (h2 : s.idx2m < 24) :
    ∃ s', wind_calcs_per_second adc jx jy js s = some s' ∧
      s'.w_spd_5s s.idx5s = u32 (s.wind_count * 1492) ∧ s'.wind_count = 0 ∧
      s'.idx5s < 5 ∧ s'.idx2m < 24 := by
  by_cases h4 : s.idx5s < 4
  · refine ⟨_, wind_tick_lt4 adc jx jy js s h4, ?_, rfl, ?_, h2⟩
    · simp [arrSet, getWindAcc]
    · show s.idx5s + 1 < 5
      omega
  · have he : s.idx5s = 4 := by omega
    refine ⟨_, wind_tick_eq4 adc jx jy js s he h2, ?_, rfl, ?_, ?_⟩
    · simp [arrSet, getWindAcc, he]
    · show 0 < 5
      decide
    · show (s.idx2m + 1) % 24 < 24
      omega

/-- A rain tick inside the ring returns normally and leaves `rain_fall_acc` at 0. -/
theorem rain_tick_ok (s : WSA80422) (h : s.rf_idx1m < 60) :
    ∃ s', rain_calcs_per_minute s = some s' ∧ s'.rain_fall_acc = 0 ∧
      s'.rf_idx1m = s.rf_idx1m + 1 ∧
      (s.rf_idx1m < 59 → s'.acc_rain_1m s.rf_idx1m = s.rain_fall_acc) ∧
      (s.rf_idx1m = 59 → ∀ i, i < 60 → s'.acc_rain_1m i = 0) := by
  by_cases h59 : s.rf_idx1m < 59
  · refine ⟨_, rain_tick_lt59 s h59, rfl, rfl, ?_, ?_⟩
    · intro _
      simp [arrSet, getRainFall]
    · intro he
      omega
  · have he : s.rf_idx1m = 59 := by omega
    refine ⟨_, rain_tick_eq59 s he, rfl, ?_, ?_, ?_⟩
    · show 60 = s.rf_idx1m + 1
      omega
    · intro hlt
      omega
    · intro _ i hi
      exact rain_hour_loop_clears _ i hi

/-- Closures spaced by more than the debounce period are all accepted by
`windIRQ_CB`. -/
theorem wind_accepted_spaced (d n : Nat) :
    ∀ (t : Nat) (s : WSA80422), s.time_of_last_wind_read = t →
      s.wind_input_debounce_period < d → t + d * n < 4294967296 →
      wind_accepted (spaced t d n) s = n := by
  induction n with
  | zero => intro t s _ _ _; rfl
  | succ n ih =>
    intro t s ht hp hb
    rw [Nat.mul_succ] at hb
    have hacc : windIRQ_accepts (t + d) s = true := by
      unfold windIRQ_accepts
      rw [ht, sub32_eq (t + d) t (by omega) (by omega)]
      simp only [decide_eq_true_eq]
      split <;> omega
    have hs : (windIRQ_CB (t + d) s).time_of_last_wind_read = t + d ∧
        (windIRQ_CB (t + d) s).wind_input_debounce_period = s.wind_input_debounce_period := by
      simp [windIRQ_CB, hacc]
    simp only [spaced, wind_accepted, hacc, if_true]
    rw [ih (t + d) _ hs.1 (by rw [hs.2]; exact hp) (by omega)]
    omega

/-- Closures spaced by more than the debounce period are all accepted by
`rainIRQ_CB`. -/
theorem rain_accepted_spaced (d n : Nat) :
    ∀ (t : Nat) (s : WSA80422), s.time_of_last_rain_read = t →
      s.rain_input_debounce_period < d → t + d * n < 4294967296 →
      rain_accepted (spaced t d n) s = n := by
  induction n with
  | zero => intro t s _ _ _; rfl
  | succ n ih =>
    intro t s ht hp hb
    rw [Nat.mul_succ] at hb
    have hacc : rainIRQ_accepts (t + d) s = true := by
      unfold rainIRQ_accepts
      rw [ht, sub32_eq (t + d) t (by omega) (by omega)]
      simp only [decide_eq_true_eq]
      split <;> omega
    have hs : (rainIRQ_CB (t + d) s).time_of_last_rain_read = t + d ∧
        (rainIRQ_CB (t + d) s).rain_input_debounce_period = s.rain_input_debounce_period := by
      simp [rainIRQ_CB, hacc]
    simp only [spaced, rain_accepted, hacc, if_true]
    rw [ih (t + d) _ hs.1 (by rw [hs.2]; exact hp) (by omega)]
    omega

/-- C3 (as amended): after a drain (`wind_count = 0`, `rain_fall_acc = 0`) and
any sequence of closures of which `N` are accepted, the next wind tick reads
the pulse count `N mod 2^16` (which is `N` when `N < 65536`), stores its speed
and resets the counter, and a following wind tick with no closure in between
reads 0. Likewise the next rain tick reads `(11 * N) mod 2^16` (which is
`11 * N` when `11 * N < 65536`) and resets the accumulator, and, when both
ticks write inside the 1-minute ring, the following rain tick reads and
stores 0. -/
theorem drain_is_exact (s : WSA80422) (ws rs : List Nat)
    (hw : s.wind_count = 0) (hr : s.rain_fall_acc = 0)
    (h5 : s.idx5s < 5) (h2 : s.idx2m < 24) (h1 : s.rf_idx1m < 60) :
    (getWindAcc (wind_closures ws s) = wind_accepted ws s % 65536 ∧
      (wind_accepted ws s < 65536 → getWindAcc (wind_closures ws s) = wind_accepted ws s) ∧
      ∀ (adc : Nat) (x0 y0 : Int) (v0 : Nat),
        ∃ s1, wind_calcs_per_second adc x0 y0 v0 (wind_closures ws s) = some s1 ∧
          s1.w_spd_5s s.idx5s = (wind_accepted ws s % 65536) * 1492 ∧
          getWindAcc s1 = 0 ∧
          ∀ (adc' : Nat) (x1 y1 : Int) (v1 : Nat),
            ∃ s2, wind_calcs_per_second adc' x1 y1 v1 s1 = some s2 ∧
              s2.w_spd_5s s1.idx5s = 0 ∧ getWindAcc s2 = 0) ∧
    (getRainFall (rain_closures rs s) = (11 * rain_accepted rs s) % 65536 ∧
      (11 * rain_accepted rs s < 65536 →
        getRainFall (rain_closures rs s) = 11 * rain_accepted rs s) ∧
      ∃ r1, rain_calcs_per_minute (rain_closures rs s) = some r1 ∧
        getRainFall r1 = 0 ∧
        (s.rf_idx1m < 59 →
          r1.acc_rain_1m s.rf_idx1m = (11 * rain_accepted rs s) % 65536 ∧
          ∃ r2, rain_calcs_per_minute r1 = some r2 ∧
            r2.acc_rain_1m r1.rf_idx1m = 0 ∧ getRainFall r2 = 0)) := by
  have hwc : (wind_closures ws s).wind_count = wind_accepted ws s % 65536 := by
    rw [wind_closures_count ws s (by omega), hw, Nat.zero_add]
  have hrc : (rain_closures rs s).rain_fall_acc = (11 * rain_accepted rs s) % 65536 := by
    rw [rain_closures_acc rs s (by omega), hr, Nat.zero_add]
  refine ⟨⟨hwc, ?_, ?_⟩, hrc, ?_, ?_⟩
  · intro hN
    show (wind_closures ws s).wind_count = _
    rw [hwc]
    omega
  · intro adc x0 y0 v0
    obtain ⟨s1, e1, hs1, hc1, h51, h21⟩ := wind_tick_ok adc x0 y0 v0 (wind_closures ws s)
      (by rw [(wind_closures_frame ws s).1]; exact h5)
      (by rw [(wind_closures_frame ws s).2]; exact h2)
    refine ⟨s1, e1, ?_, hc1, ?_⟩
    · rw [(wind_closures_frame ws s).1] at hs1
      rw [hs1, hwc]
      unfold u32
      omega
    · intro adc' x1 y1 v1
      obtain ⟨s2, e2, hs2, hc2, _, _⟩ := wind_tick_ok adc' x1 y1 v1 s1 h51 h21
      refine ⟨s2, e2, ?_, hc2⟩
      rw [hs2, hc1]
      rfl
  · intro hN
    show (rain_closures rs s).rain_fall_acc = _
    rw [hrc]
    omega
  · have hidx := rain_closures_frame rs s
    obtain ⟨r1, e1, ha1, hi1, hslot, _⟩ := rain_tick_ok (rain_closures rs s) (by rw [hidx]; exact h1)
    refine ⟨r1, e1, ha1, ?_⟩
    intro h59
    rw [hidx] at hslot hi1
    refine ⟨by rw [hslot h59, hrc], ?_⟩
    obtain ⟨r2, e2, ha2, _, hslot2, hclr⟩ := rain_tick_ok r1 (by omega)
    refine ⟨r2, e2, ?_, ha2⟩
    by_cases h58 : r1.rf_idx1m < 59
    · rw [hslot2 h58, ha1]
    · have he : r1.rf_idx1m = 59 := by omega
      exact hclr he _ (by omega)

/-- Witness for C3: three wind closures (one of them a bounce) and two rain
tips after a drain. -/
theorem drain_is_exact_witness :
    ((zeroState 10 10).wind_count = 0 ∧ (zeroState 10 10).rain_fall_acc = 0 ∧
      (zeroState 10 10).idx5s < 5 ∧ (zeroState 10 10).idx2m < 24 ∧
      (zeroState 10 10).rf_idx1m < 60) ∧
    getWindAcc (wind_closures [100, 105, 200] (zeroState 10 10)) = 2 ∧
    getRainFall (rain_closures [100, 200] (zeroState 10 10)) = 22 := by
  have h := drain_is_exact (zeroState 10 10) [100, 105, 200] [100, 200]
    (by decide) (by decide) (by decide) (by decide) (by decide)
  exact ⟨by decide, h.1.1.trans (by decide), h.2.1.trans (by decide)⟩

/-- C3 (as stated) fails for long sequences: 65536 accepted wind closures after
a drain leave the 16-bit counter `wind_count`, which the next tick reads, at 0,
and 5958 accepted rain tips leave the 16-bit accumulator `rain_fall_acc` at 2,
not at 65538. -/
theorem drain_count_wraps :
    (zeroState 10 10).wind_count = 0 ∧
    wind_accepted (spaced 0 11 65536) (zeroState 10 10) = 65536 ∧
    (wind_closures (spaced 0 11 65536) (zeroState 10 10)).wind_count = 0 ∧
    (zeroState 10 10).rain_fall_acc = 0 ∧
    rain_accepted (spaced 0 11 5958) (zeroState 10 10) = 5958 ∧
    (rain_closures (spaced 0 11 5958) (zeroState 10 10)).rain_fall_acc = 2 := by
  have hw : wind_accepted (spaced 0 11 65536) (zeroState 10 10) = 65536 :=
    wind_accepted_spaced 11 65536 0 (zeroState 10 10) rfl (by decide) (by decide)
  have hr : rain_accepted (spaced 0 11 5958) (zeroState 10 10) = 5958 :=
    rain_accepted_spaced 11 5958 0 (zeroState 10 10) rfl (by decide) (by decide)
  refine ⟨rfl, hw, ?_, rfl, hr, ?_⟩
  · rw [wind_closures_count _ _ (by decide), hw]
    rfl
  · rw [rain_closures_acc _ _ (by decide), hr]
    rfl

end WSA80422

/-! ## Rollover of the rings, evaluated -/

namespace WSA80422

set_option maxRecDepth 100000 in
/-- C4 (code at the failing input): from the zero state, five wind ticks with
samples x = 0, y = 1000 and speeds 2984, 0, 0, 0, 0 leave `idx5s = 0` and
`idx2m = 1` and write 2-minute slot 0; when the locals `avg_x`, `avg_y`,
`avg_spd` hold 100, -200, 7 on entry to the summing loop the slot is
(20, 960, 598), not the truncated mean (0, 1000, 596), which is what is
written when the three locals happen to hold 0. -/
theorem wind_mean_starts_from_uninitialised :
    (wind_run (northWindow 100 (-200) 7) (zeroState 10 10)).map
        (fun s => (s.w_dir_2m_x 0, s.w_dir_2m_y 0, s.w_spd_2m 0, s.idx5s, s.idx2m)) =
      some (20, 960, 598, 0, 1) ∧
    (wind_run (northWindow 0 0 0) (zeroState 10 10)).map
        (fun s => (s.w_dir_2m_x 0, s.w_dir_2m_y 0, s.w_spd_2m 0, s.idx5s, s.idx2m)) =
      some (0, 1000, 596, 0, 1) := by
  decide

set_option maxRecDepth 1000000 in
/-- C5 (code at the failing input): from the zero state, 60 calls of
`rain_calcs_per_minute` that each drain 110 leave slot 0 of the 1-hour ring
at 0, and `get_last_a1hr_24hr_rain` then returns `rain_1hr = 0`; the loop of
the 60th call did compute `total_rf = 6600`. -/
theorem hourly_total_not_stored :
    (rain_ticks (List.replicate 60 110) (zeroState 10 10)).map (fun s => s.acc_rain_1hr 0) =
      some 0 ∧
    (rain_ticks (List.replicate 60 110) (zeroState 10 10)).bind get_last_a1hr_24hr_rain =
      some (0, 0) ∧
    (rain_hour_loop (arrSet (fun _ => 110) 59 110)).1 = 6600 := by
  decide

set_option maxRecDepth 1000000 in
/-- C6 (code at the failing input): from `rf_idx1m = 0`, `rf_idx1hr = 0`, after
59 calls of `rain_calcs_per_minute` the indices are (59, 0); after 60 calls
they are (60, 1), so the 1-minute index is 60 and not 60 mod 60 = 0; and the
61st call indexes `acc_rain_1m[60]`, outside the 60-slot ring. -/
theorem minute_index_not_reset :
    (rain_ticks (List.replicate 59 0) (zeroState 10 10)).map
        (fun s => (s.rf_idx1m, s.rf_idx1hr)) = some (59, 0) ∧
    (rain_ticks (List.replicate 60 0) (zeroState 10 10)).map
        (fun s => (s.rf_idx1m, s.rf_idx1hr)) = some (60, 1) ∧
    (rain_ticks (List.replicate 61 0) (zeroState 10 10)).isSome = false := by
  decide

set_option maxRecDepth 1000000 in
/-- C8 (code at the failing input): in the end-to-end example (debounce period
10, closures every 6000 ms, a tick after every tenth closure) the first 59
ticks store 110 in slots 0..58 of the 1-minute ring and the ten closures of
the last minute again accumulate 110, so every closure is accepted; after the
60th tick `get_last_a1hr_24hr_rain` returns `rain_1hr = 0` and
`rain_day = 0`, not 6600. -/
theorem end_to_end_hour_reads_zero :
    (rain_run (rain_minutes 0 59) (zeroState 10 10)).map
        (fun s => (List.range 59).map s.acc_rain_1m) = some (List.replicate 59 110) ∧
    ((rain_run (rain_minutes 0 59) (zeroState 10 10)).map
        (rain_closures (spaced 3540000 6000 10))).map getRainFall = some 110 ∧
    (rain_run (rain_minutes 0 60) (zeroState 10 10)).bind get_last_a1hr_24hr_rain =
      some (0, 0) := by
  decide

set_option maxRecDepth 100000 in
/-- C9 (code at the failing input): readings 850 and 650 resolve to `WDIR_NNW`
and `WDIR_NNE`; five ticks alternating between them, with the local `avg_y`
holding -10000 on entry to the summing loop, write a 2-minute sample with
y = -1076 (pointing south) in either starting order; with the locals holding
0 the sample is (76, 924). -/
theorem near_north_average_can_point_south :
    getWindDir 850 = .WDIR_NNW ∧ getWindDir 650 = .WDIR_NNE ∧
    (wind_run (nearNorthWindow 850 650 0 (-10000) 0) (zeroState 10 10)).map
        (fun s => (s.w_dir_2m_x 0, s.w_dir_2m_y 0)) = some (76, -1076) ∧
    (wind_run (nearNorthWindow 650 850 0 (-10000) 0) (zeroState 10 10)).map
        (fun s => (s.w_dir_2m_x 0, s.w_dir_2m_y 0)) = some (-76, -1076) ∧
    (wind_run (nearNorthWindow 850 650 0 0 0) (zeroState 10 10)).map
        (fun s => (s.w_dir_2m_x 0, s.w_dir_2m_y 0)) = some (76, 924) := by
  decide

end WSA80422

/-! ## The threshold ladder of `getWindDir` -/

namespace WSA80422

/-- Case analysis on an `if` under a predicate. -/
theorem ite_cases {α : Type} (P : α → Prop) {c : Prop} {inst : Decidable c} {a b : α}
    (ha : c → P a) (hb : ¬c → P b) : P (@ite α c inst a b) := by
  by_cases h : c
  · rw [if_pos h]; exact ha h
  · rw [if_neg h]; exact hb h

/-- Every raw reading lies in the range of the direction it resolves to. -/
theorem getWindDir_range (adc : Nat) :
    rangeLo (getWindDir adc) ≤ adc ∧
      ((getWindDir adc).toNat = 16 ∨ adc < rangeHi (getWindDir adc)) := by
  unfold getWindDir
  repeat'
    refine ite_cases (fun d => rangeLo d ≤ adc ∧ (d.toNat = 16 ∨ adc < rangeHi d))
      (fun _ => ?_) (fun _ => ?_)
  all_goals
    refine ⟨by simp only [rangeLo]; omega, ?_⟩
    first | exact Or.inl rfl | (right; simp only [rangeHi]; omega)

/-- Two valid directions whose ranges meet are the same direction. -/
theorem ranges_disjoint (d e : WINDDIR) (adc : Nat)
    (hd : rangeLo d ≤ adc ∧ (d.toNat = 16 ∨ adc < rangeHi d))
    (he : rangeLo e ≤ adc ∧ (e.toNat = 16 ∨ adc < rangeHi e)) : d = e := by
  cases d <;> cases e <;> first | rfl |
    (simp only [rangeLo, rangeHi, WINDDIR.toNat] at hd he; omega)

/-- C11: `getWindDir` is a total function of the raw reading; every one of
the 16 valid directions is returned exactly on a non-empty interval
`lo ≤ adc < hi` lying below 990 (so the 16 ranges are contiguous sets, disjoint
because each reading has one direction, and together they cover the readings
below 990), and `WDIR_ERR` is returned exactly when `adc ≥ 990`. -/
theorem getWindDir_partition :
    (∀ d : WINDDIR, d = .WDIR_ERR ∨ ∃ lo hi : Nat, lo < hi ∧ hi ≤ 990 ∧
      ∀ adc : Nat, getWindDir adc = d ↔ lo ≤ adc ∧ adc < hi) ∧
    (∀ adc : Nat, getWindDir adc = .WDIR_ERR ↔ 990 ≤ adc) := by
  constructor
  · intro d
    by_cases hd : d = .WDIR_ERR
    · exact Or.inl hd
    · refine Or.inr ⟨rangeLo d, rangeHi d, ?_, ?_, fun adc => ⟨?_, ?_⟩⟩
      · cases d <;> first | exact absurd rfl hd | decide
      · cases d <;> first | exact absurd rfl hd | decide
      · intro h
        have hr := getWindDir_range adc
        rw [h] at hr
        refine ⟨hr.1, ?_⟩
        rcases hr.2 with h16 | hlt
        · cases d <;> first | exact absurd rfl hd | (simp only [WINDDIR.toNat] at h16; omega)
        · exact hlt
      · intro h
        exact ranges_disjoint _ _ adc (getWindDir_range adc) ⟨h.1, Or.inr h.2⟩
  · intro adc
    constructor
    · intro h
      have hr := getWindDir_range adc
      rw [h] at hr
      exact hr.1
    · intro h
      exact ranges_disjoint _ _ adc (getWindDir_range adc) ⟨h, Or.inl rfl⟩

end WSA80422

/-! ## The direction table, the rain handler and `init` -/

namespace WSA80422

/-- C13: in `wind_vector_ary` the first column of the row of direction `d` is
`d`, so the reads at `3 * d + 1` and `3 * d + 2` are the x and y of that row;
the row of `WDIR_ERR` is (0, 0), and the row of each of the 16 valid
directions satisfies `|x * x + y * y - 1000000| ≤ 1000`. -/
theorem table_rows_on_unit_circle (d : WINDDIR) :
    wind_vector_ary[3 * d.toNat]? = some (d.toNat : Int) ∧
    wind_vector_ary[3 * d.toNat + 1]? = some (table_x d) ∧
    wind_vector_ary[3 * d.toNat + 2]? = some (table_y d) ∧
    (if d = .WDIR_ERR then table_x d = 0 ∧ table_y d = 0
     else (table_x d * table_x d + table_y d * table_y d - 1000000).natAbs ≤ 1000) := by
  cases d <;> decide

/-- C18 (as amended): `rainIRQ_CB` accepts a closure exactly when the unsigned
32-bit difference `now_ms - time_of_last_rain_read` is strictly greater than
`rain_input_debounce_period`. On acceptance `rain_fall_acc` becomes
`(rain_fall_acc + 11) mod 2^16`, which is `rain_fall_acc + 11` whenever
`rain_fall_acc < 65525`, and `time_of_last_rain_read` becomes `now_ms`; the
wind timestamp, the wind period and the wind counter are not involved. On
rejection the state is unchanged. -/
theorem rainIRQ_CB_debounce (s : WSA80422) (now_ms : Nat)
    (hnow : now_ms < 4294967296) (hlast : s.time_of_last_rain_read < 4294967296) :
    (rainIRQ_accepts now_ms s = true ↔
      s.rain_input_debounce_period <
        (if s.time_of_last_rain_read ≤ now_ms then now_ms - s.time_of_last_rain_read
         else now_ms + 4294967296 - s.time_of_last_rain_read)) ∧
    (rainIRQ_accepts now_ms s = true →
      (rainIRQ_CB now_ms s).rain_fall_acc = (s.rain_fall_acc + 11) % 65536 ∧
      (s.rain_fall_acc < 65525 → (rainIRQ_CB now_ms s).rain_fall_acc = s.rain_fall_acc + 11) ∧
      (rainIRQ_CB now_ms s).time_of_last_rain_read = now_ms ∧
      (rainIRQ_CB now_ms s).time_of_last_wind_read = s.time_of_last_wind_read ∧
      (rainIRQ_CB now_ms s).wind_count = s.wind_count) ∧
    (rainIRQ_accepts now_ms s = false → rainIRQ_CB now_ms s = s) := by
  refine ⟨?_, ?_, ?_⟩
  · unfold rainIRQ_accepts
    rw [sub32_eq now_ms _ hnow hlast]
    simp
  · intro h
    simp only [rainIRQ_CB, h, if_true, u16, true_and, and_true]
    intro hc
    omega
  · intro h
    simp [rainIRQ_CB, h]

/-- Witness for C18: a tip at 100 ms in the zero state with debounce period 10. -/
theorem rainIRQ_CB_debounce_witness :
    (100 < 4294967296 ∧ (zeroState 10 10).time_of_last_rain_read < 4294967296) ∧
    (rainIRQ_accepts 100 (zeroState 10 10) = true ∧
      (rainIRQ_CB 100 (zeroState 10 10)).rain_fall_acc = 11 ∧
      (rainIRQ_CB 100 (zeroState 10 10)).time_of_last_rain_read = 100) :=
  have h := rainIRQ_CB_debounce (zeroState 10 10) 100 (by decide) (by decide)
  ⟨⟨by decide, by decide⟩, by decide, (h.2.1 (by decide)).2.1 (by decide),
    (h.2.1 (by decide)).2.2.1⟩

/-- C18 (as stated) fails when the 16-bit accumulator is within one tip of its
largest value: the tip is accepted and `rain_fall_acc` goes from 65530 to 5,
not to 65541. -/
theorem rainIRQ_CB_acc_wraps :
    rainIRQ_accepts 100 rainAccFull = true ∧
    rainAccFull.rain_fall_acc = 65530 ∧
    (rainIRQ_CB 100 rainAccFull).rain_fall_acc = 5 ∧
    (rainIRQ_CB 100 rainAccFull).rain_fall_acc ≠ rainAccFull.rain_fall_acc + 11 := by
  decide

/-- C19 (code at the failing input): `init` leaves the members
`wind_input_debounce_period` and `rain_input_debounce_period` as they were,
for all arguments and every prior state. From a state in which both hold 0,
`init(2, 3, 14)` leaves them at 0, not 10, and two wind closures 1 ms apart
are then both counted. -/
theorem init_leaves_debounce_periods :
    (∀ (rain_pin wspd_pin wdir_pin millis_rain millis_wind : Nat) (s : WSA80422),
      (init rain_pin wspd_pin wdir_pin millis_rain millis_wind s).2.wind_input_debounce_period =
        s.wind_input_debounce_period ∧
      (init rain_pin wspd_pin wdir_pin millis_rain millis_wind s).2.rain_input_debounce_period =
        s.rain_input_debounce_period) ∧
    (init 2 3 14 0 0 (zeroState 0 0)).1 = true ∧
    (init 2 3 14 0 0 (zeroState 0 0)).2.wind_input_debounce_period = 0 ∧
    (init 2 3 14 0 0 (zeroState 0 0)).2.rain_input_debounce_period = 0 ∧
    (windIRQ_CB 2 (windIRQ_CB 1 (init 2 3 14 0 0 (zeroState 0 0)).2)).wind_count = 2 := by
  refine ⟨fun _ _ _ _ _ _ => ⟨rfl, rfl⟩, ?_, ?_, ?_, ?_⟩ <;> decide

/-- C20: `init` returns true exactly when `wspd_pin` and `rain_pin` are each 2
or 3, and false for any other pin value; in every case it leaves
`wind_count = 0` and `rain_fall_acc = 0` and stores `wdir_pin` in
`winddir_pin`. -/
theorem init_reports_configuration (rain_pin wspd_pin wdir_pin millis_rain millis_wind : Nat)
    (s : WSA80422) :
    ((init rain_pin wspd_pin wdir_pin millis_rain millis_wind s).1 = true ↔
      (wspd_pin = 2 ∨ wspd_pin = 3) ∧ (rain_pin = 2 ∨ rain_pin = 3)) ∧
    ((init rain_pin wspd_pin wdir_pin millis_rain millis_wind s).1 = false ↔
      ¬((wspd_pin = 2 ∨ wspd_pin = 3) ∧ (rain_pin = 2 ∨ rain_pin = 3))) ∧
    (init rain_pin wspd_pin wdir_pin millis_rain millis_wind s).2.wind_count = 0 ∧
    (init rain_pin wspd_pin wdir_pin millis_rain millis_wind s).2.rain_fall_acc = 0 ∧
    (init rain_pin wspd_pin wdir_pin millis_rain millis_wind s).2.winddir_pin = wdir_pin := by
  have key : (init rain_pin wspd_pin wdir_pin millis_rain millis_wind s).1 = true ↔
      (wspd_pin = 2 ∨ wspd_pin = 3) ∧ (rain_pin = 2 ∨ rain_pin = 3) := by
    simp only [init]
    by_cases h2 : wspd_pin = 2 <;> by_cases h3 : wspd_pin = 3 <;>
      by_cases r2 : rain_pin = 2 <;> by_cases r3 : rain_pin = 3 <;> simp [h2, h3, r2, r3]
  refine ⟨key, ?_, rfl, rfl, rfl⟩
  rw [← key]
  cases (init rain_pin wspd_pin wdir_pin millis_rain millis_wind s).1 <;> simp

end WSA80422

/-! ## Hourly and daily rain totals -/

namespace WSA80422

/-- The 16-bit running sum over the first `n` slots is the sum modulo `2^16`. -/
theorem u16_fold_eq_sum (a : Nat → Nat) (n : Nat) :
    (List.range n).foldl (fun acc i => u16 (acc + a i)) 0 =
      ((List.range n).map a).sum % 65536 := by
  induction n with
  | zero => rfl
  | succ n ih =>
    rw [List.range_succ, List.foldl_append, ih]
    simp only [List.foldl_cons, List.foldl_nil, List.map_append, List.sum_append, List.map_cons,
      List.map_nil, List.sum_cons, List.sum_nil, u16]
    omega

/-- Overwriting slot `j` moves the sum of the first `n` slots by the change of
that slot. -/
theorem sum_arrSet (a : Nat → Nat) (j v n : Nat) (h : j < n) :
    ((List.range n).map (arrSet a j v)).sum + a j = ((List.range n).map a).sum + v := by
  induction n with
  | zero => omega
  | succ n ih =>
    simp only [List.range_succ, List.map_append, List.sum_append, List.map_cons, List.map_nil,
      List.sum_cons, List.sum_nil]
    by_cases hj : j = n
    · subst hj
      have hsame : (List.range j).map (arrSet a j v) = (List.range j).map a := by
        apply List.map_congr_left
        intro i hi
        have : i < j := List.mem_range.mp hi
        simp only [arrSet]
        rw [if_neg (by omega)]
      rw [hsame]
      simp only [arrSet, if_true]
      omega
    · have hlt : j < n := by omega
      have := ih hlt
      have hn : arrSet a j v n = a n := by
        simp only [arrSet]
        rw [if_neg (by omega)]
      rw [hn]
      omega

/-- The accessor, in closed form, for a write index inside the 1-hour ring. -/
theorem get_last_a1hr_24hr_rain_eq (s : WSA80422) (h : s.rf_idx1hr < 24) :
    get_last_a1hr_24hr_rain s =
      some (s.acc_rain_1hr ((s.rf_idx1hr + 23) % 24),
        ((List.range 24).map s.acc_rain_1hr).sum % 65536) := by
  unfold get_last_a1hr_24hr_rain
  rw [u16_fold_eq_sum]
  by_cases h0 : s.rf_idx1hr = 0
  · simp [h0]
  · have hu : u8 (s.rf_idx1hr - 1) = s.rf_idx1hr - 1 := by unfold u8; omega
    have hm : (s.rf_idx1hr + 23) % 24 = s.rf_idx1hr - 1 := by omega
    have hlt : s.rf_idx1hr - 1 < 24 := by omega
    simp only [h0, if_false, hu, hm, hlt, if_true]

/-- C14: for every state whose write index is inside the 1-hour ring,
`get_last_a1hr_24hr_rain` (a function of the state only, which it does not
modify) returns as `rain_1hr` the slot at index `(rf_idx1hr + 23) mod 24` and
as `rain_day` the sum of the 24 slots of `acc_rain_1hr` modulo `2^16`; and
overwriting any one slot `j` by `v` changes the reported daily total by
`v - old` modulo `2^16`. -/
theorem daily_total_is_ring_sum (s : WSA80422) (h : s.rf_idx1hr < 24) :
    get_last_a1hr_24hr_rain s =
      some (s.acc_rain_1hr ((s.rf_idx1hr + 23) % 24),
        ((List.range 24).map s.acc_rain_1hr).sum % 65536) ∧
    ∀ j v : Nat, j < 24 →
      ∃ hr day hr' day' : Nat,
        get_last_a1hr_24hr_rain s = some (hr, day) ∧
        get_last_a1hr_24hr_rain { s with acc_rain_1hr := arrSet s.acc_rain_1hr j v } =
          some (hr', day') ∧
        (day' + s.acc_rain_1hr j) % 65536 = (day + v) % 65536 := by
  refine ⟨get_last_a1hr_24hr_rain_eq s h, ?_⟩
  intro j v hj
  refine ⟨_, _, _, _, get_last_a1hr_24hr_rain_eq s h,
    get_last_a1hr_24hr_rain_eq { s with acc_rain_1hr := arrSet s.acc_rain_1hr j v } h, ?_⟩
  have := sum_arrSet s.acc_rain_1hr j v 24 hj
  show (((List.range 24).map (arrSet s.acc_rain_1hr j v)).sum % 65536 + s.acc_rain_1hr j) % 65536
    = (((List.range 24).map s.acc_rain_1hr).sum % 65536 + v) % 65536
  omega

/-- Witness for C14: the last completed hour is slot 5 and the daily total is
65600 mod 65536 = 64. -/
theorem daily_total_is_ring_sum_witness :
    hourRingSample.rf_idx1hr < 24 ∧
    get_last_a1hr_24hr_rain hourRingSample = some (600, 64) :=
  ⟨by decide, (daily_total_is_ring_sum hourRingSample (by decide)).1.trans (by decide)⟩

end WSA80422

/-! ## The last completed minute -/

namespace WSA80422

/-- Ticks one list after the other. -/
theorem rain_ticks_append (vs ws : List Nat) :
    ∀ s : WSA80422, rain_ticks (vs ++ ws) s = (rain_ticks vs s).bind (rain_ticks ws) := by
  induction vs with
  | nil => intro s; rfl
  | cons v rest ih =>
    intro s
    simp only [List.cons_append, rain_ticks]
    cases h : rain_calcs_per_minute { s with rain_fall_acc := v } with
    | none => rfl
    | some s1 =>
      simp only [Option.some_bind]
      exact ih s1

/-- Ticks that stay below the last slot of the 1-minute ring advance the
write index by one each. -/
theorem rain_ticks_index (vs : List Nat) :
    ∀ s : WSA80422, s.rf_idx1m + vs.length ≤ 59 →
      ∃ s', rain_ticks vs s = some s' ∧ s'.rf_idx1m = s.rf_idx1m + vs.length := by
  induction vs with
  | nil => intro s _; exact ⟨s, rfl, rfl⟩
  | cons v rest ih =>
    intro s hlen
    simp only [List.length_cons] at hlen
    have hlt : ({ s with rain_fall_acc := v } : WSA80422).rf_idx1m < 59 := by
      show s.rf_idx1m < 59
      omega
    simp only [rain_ticks, rain_tick_lt59 _ hlt, Option.some_bind]
    obtain ⟨s', e, hi⟩ := ih { s with
      acc_rain_1m := arrSet s.acc_rain_1m s.rf_idx1m v
      rain_fall_acc := 0
      rf_idx1m := s.rf_idx1m + 1 } (by show s.rf_idx1m + 1 + rest.length ≤ 59; omega)
    refine ⟨s', e, ?_⟩
    rw [hi]
    simp only [List.length_cons]
    omega

/-- The accessor after one tick that drains `v`: the drained value below the
last slot, 0 at the last slot, where the tick clears the ring. -/
theorem get_last_a1m_rain_after_tick (s : WSA80422) (v : Nat) (h : s.rf_idx1m < 60) :
    ∃ s', rain_calcs_per_minute { s with rain_fall_acc := v } = some s' ∧
      get_last_a1m_rain s' = some (if s.rf_idx1m < 59 then v else 0) := by
  by_cases hlt : s.rf_idx1m < 59
  · have hlt' : ({ s with rain_fall_acc := v } : WSA80422).rf_idx1m < 59 := hlt
    refine ⟨_, rain_tick_lt59 _ hlt', ?_⟩
    have hu : u8 (s.rf_idx1m + 1 - 1) = s.rf_idx1m := by unfold u8; omega
    have hne : ¬ (s.rf_idx1m + 1 = 0) := by omega
    have h60 : s.rf_idx1m < 60 := h
    simp only [get_last_a1m_rain, hne, if_false, hu, h60, if_true, hlt, arrSet, getRainFall]
  · have he : ({ s with rain_fall_acc := v } : WSA80422).rf_idx1m = 59 := by
      show s.rf_idx1m = 59
      omega
    refine ⟨_, rain_tick_eq59 _ he, ?_⟩
    have hu : u8 (60 - 1) = 59 := by decide
    have hne : ¬ ((60 : Nat) = 0) := by decide
    have h60 : (59 : Nat) < 60 := by decide
    simp only [get_last_a1m_rain, hne, if_false, hu, h60, if_true, hlt]
    rw [rain_hour_loop_clears _ 59 h60]

/-- C15 (as amended): counted from a state with `rf_idx1m = 0`, immediately
after tick number `n = vs.length + 1` of `rain_calcs_per_minute`, which drains
`v`, `get_last_a1m_rain` returns `v` when `n ≤ 59`, and returns 0 when
`n = 60`, the tick that sums and clears the 1-minute ring. -/
theorem last_minute_rain (s : WSA80422) (vs : List Nat) (v : Nat)
    (h0 : s.rf_idx1m = 0) (hn : vs.length + 1 ≤ 60) :
    ∃ s', rain_ticks (vs ++ [v]) s = some s' ∧
      get_last_a1m_rain s' = some (if vs.length + 1 ≤ 59 then v else 0) := by
  obtain ⟨s1, e1, hi⟩ := rain_ticks_index vs s (by omega)
  rw [h0, Nat.zero_add] at hi
  obtain ⟨s2, e2, hg⟩ := get_last_a1m_rain_after_tick s1 v (by omega)
  refine ⟨s2, ?_, ?_⟩
  · rw [rain_ticks_append, e1]
    simp only [Option.some_bind, rain_ticks, e2]
  · rw [hg, hi]
    by_cases hlt : vs.length < 59
    · have : vs.length + 1 ≤ 59 := by omega
      simp only [hlt, this, if_true]
    · have : ¬ (vs.length + 1 ≤ 59) := by omega
      simp only [hlt, this, if_false]

/-- Witness for C15: the third tick, draining 33 after ticks that drained 11
and 22. -/
theorem last_minute_rain_witness :
    ((zeroState 10 10).rf_idx1m = 0 ∧ [11, 22].length + 1 ≤ 60) ∧
    ∃ s', rain_ticks ([11, 22] ++ [33]) (zeroState 10 10) = some s' ∧
      get_last_a1m_rain s' = some 33 :=
  ⟨⟨by decide, by decide⟩, last_minute_rain (zeroState 10 10) [11, 22] 33 (by decide) (by decide)⟩

set_option maxRecDepth 1000000 in
/-- C15 (as stated) fails at tick number 60: from the zero state, after 60
ticks that each drain 110, `get_last_a1m_rain` returns 0, not the 110 drained
by the last call. -/
theorem minute_total_lost_at_rollover :
    (rain_ticks (List.replicate 59 110 ++ [110]) (zeroState 10 10)).bind get_last_a1m_rain =
      some 0 := by
  decide

end WSA80422

/-! ## The last completed wind sample and the wind indices -/

namespace WSA80422

/-- The accessor, in closed form, for a write index inside the 2-minute ring. -/
theorem get_last_a5s_wind_eq (s : WSA80422) (h : s.idx2m < 24) :
    get_last_a5s_wind s =
      some (s.w_dir_2m_x ((s.idx2m + 23) % 24), s.w_dir_2m_y ((s.idx2m + 23) % 24),
        s.w_spd_2m ((s.idx2m + 23) % 24)) := by
  unfold get_last_a5s_wind
  by_cases h0 : s.idx2m = 0
  · simp [h0]
  · have hu : u8 (s.idx2m - 1) = s.idx2m - 1 := by unfold u8; omega
    have hm : (s.idx2m + 23) % 24 = s.idx2m - 1 := by omega
    have hlt : s.idx2m - 1 < 24 := by omega
    simp only [h0, if_false, hu, hm, hlt, if_true]

/-- C16: for every state with `idx2m < 24`, `get_last_a5s_wind` (a function of
the state only, which it does not modify) returns the triple stored at
2-minute ring index `(idx2m + 23) mod 24`; and immediately after a wind tick
that completes a 5-second window (`idx5s = 4`) it returns the triple that
tick wrote in slot `idx2m`, namely the quotients by 5 of the sums its loop
formed over the 5-second ring, also when `idx2m` wraps from 23 to 0. -/
theorem last_wind_sample (s : WSA80422) (h : s.idx2m < 24) :
    get_last_a5s_wind s =
      some (s.w_dir_2m_x ((s.idx2m + 23) % 24), s.w_dir_2m_y ((s.idx2m + 23) % 24),
        s.w_spd_2m ((s.idx2m + 23) % 24)) ∧
    ∀ (adc : Nat) (avg_x0 avg_y0 : Int) (avg_spd0 : Nat), s.idx5s = 4 →
      ∃ s', wind_calcs_per_second adc avg_x0 avg_y0 avg_spd0 s = some s' ∧
        s'.idx2m = (s.idx2m + 1) % 24 ∧
        get_last_a5s_wind s' =
          some (s'.w_dir_2m_x s.idx2m, s'.w_dir_2m_y s.idx2m, s'.w_spd_2m s.idx2m) ∧
        s'.w_dir_2m_x s.idx2m = i16 (Int.tdiv (wind_avg_loop s'.w_dir_5s_x s'.w_dir_5s_y
          s'.w_spd_5s avg_x0 avg_y0 avg_spd0).1 5) ∧
        s'.w_dir_2m_y s.idx2m = i16 (Int.tdiv (wind_avg_loop s'.w_dir_5s_x s'.w_dir_5s_y
          s'.w_spd_5s avg_x0 avg_y0 avg_spd0).2.1 5) ∧
        s'.w_spd_2m s.idx2m = (wind_avg_loop s'.w_dir_5s_x s'.w_dir_5s_y
          s'.w_spd_5s avg_x0 avg_y0 avg_spd0).2.2 / 5 := by
  refine ⟨get_last_a5s_wind_eq s h, ?_⟩
  intro adc avg_x0 avg_y0 avg_spd0 h5
  refine ⟨_, wind_tick_eq4 adc avg_x0 avg_y0 avg_spd0 s h5 h, rfl, ?_, ?_, ?_, ?_⟩
  · rw [get_last_a5s_wind_eq _ (by show (s.idx2m + 1) % 24 < 24; omega)]
    have hm : ((s.idx2m + 1) % 24 + 23) % 24 = s.idx2m := by omega
    simp only [hm]
  · simp only [arrSet, if_true]
  · simp only [arrSet, if_true]
  · simp only [arrSet, if_true]

/-- Witness for C16: the completing tick writes slot 23, the index wraps to 0
and the accessor returns the triple just written. -/
theorem last_wind_sample_witness :
    windowAlmostDone.idx2m < 24 ∧
    ∃ s', wind_calcs_per_second 900 0 0 0 windowAlmostDone = some s' ∧
      s'.idx2m = 0 ∧
      get_last_a5s_wind s' = some (s'.w_dir_2m_x 23, s'.w_dir_2m_y 23, s'.w_spd_2m 23) := by
  refine ⟨by decide, ?_⟩
  obtain ⟨s', e, hi, hg, _⟩ :=
    (last_wind_sample windowAlmostDone (by decide)).2 900 0 0 0 (by decide)
  exact ⟨s', e, hi, hg⟩

/-- One wind tick inside both rings returns normally and moves the indices as
a modulo-5 counter carrying into a modulo-24 counter. -/
theorem wind_tick_indices (adc : Nat) (x0 y0 : Int) (v0 : Nat) (s : WSA80422)
    (h5 : s.idx5s < 5) (h2 : s.idx2m < 24) :
    ∃ s1, wind_calcs_per_second adc x0 y0 v0 s = some s1 ∧
      s1.idx5s = (s.idx5s + 1) % 5 ∧ s1.idx2m = (s.idx2m + (s.idx5s + 1) / 5) % 24 := by
  by_cases h4 : s.idx5s < 4
  · refine ⟨_, wind_tick_lt4 adc x0 y0 v0 s h4, ?_, ?_⟩
    · show s.idx5s + 1 = _
      omega
    · show s.idx2m = _
      omega
  · have he : s.idx5s = 4 := by omega
    refine ⟨_, wind_tick_eq4 adc x0 y0 v0 s he h2, ?_, ?_⟩
    · show 0 = _
      omega
    · show (s.idx2m + 1) % 24 = _
      omega

/-- Wind events keep both indices on the tick count: from indices `a < 5` and
`b < 24`, after `n` ticks the indices are `(a + n) mod 5` and
`(b + (a + n) / 5) mod 24`. -/
theorem wind_run_indices (evs : List WindEvent) :
    ∀ s : WSA80422, s.idx5s < 5 → s.idx2m < 24 →
      ∃ s', wind_run evs s = some s' ∧
        s'.idx5s = (s.idx5s + wind_tick_count evs) % 5 ∧
        s'.idx2m = (s.idx2m + (s.idx5s + wind_tick_count evs) / 5) % 24 := by
  induction evs with
  | nil =>
    intro s h5 h2
    refine ⟨s, rfl, ?_, ?_⟩
    · simp only [wind_tick_count]; omega
    · simp only [wind_tick_count]; omega
  | cons e rest ih =>
    intro s h5 h2
    cases e with
    | closure t =>
      have hf := windIRQ_CB_frame t s
      obtain ⟨s', e', hi5, hi2⟩ := ih (windIRQ_CB t s) (by rw [hf.1]; exact h5)
        (by rw [hf.2]; exact h2)
      refine ⟨s', ?_, ?_, ?_⟩
      · simp only [wind_run, wind_step, Option.some_bind]
        exact e'
      · rw [hi5, hf.1]
        simp only [wind_tick_count]
      · rw [hi2, hf.1, hf.2]
        simp only [wind_tick_count]
    | tick adc x0 y0 v0 =>
      obtain ⟨s1, e1, h15, h12⟩ := wind_tick_indices adc x0 y0 v0 s h5 h2
      obtain ⟨s', e', hi5, hi2⟩ := ih s1 (by rw [h15]; omega) (by rw [h12]; omega)
      refine ⟨s', ?_, ?_, ?_⟩
      · simp only [wind_run, wind_step, e1, Option.some_bind]
        exact e'
      · rw [hi5, h15]
        simp only [wind_tick_count]
        omega
      · rw [hi2, h12, h15]
        simp only [wind_tick_count]
        omega

/-- C17: starting from `idx5s = 0` and `idx2m = 0`, any sequence of events
containing `n` calls of `wind_calcs_per_second` (with any closures in
between) runs without an out-of-bounds access and ends with
`idx5s = n mod 5` and `idx2m = (n / 5) mod 24`, hence `idx5s < 5` and
`idx2m < 24`; and for every direction the table reads at `3 * dir + 1` and
`3 * dir + 2` are inside the 51 entries of `wind_vector_ary`. -/
theorem wind_indices_stay_in_rings (evs : List WindEvent) (s : WSA80422)
    (h5 : s.idx5s = 0) (h2 : s.idx2m = 0) :
    (∃ s', wind_run evs s = some s' ∧
      s'.idx5s = wind_tick_count evs % 5 ∧
      s'.idx2m = wind_tick_count evs / 5 % 24 ∧
      s'.idx5s < 5 ∧ s'.idx2m < 24) ∧
    (∀ d : WINDDIR, 3 * d.toNat + 1 < wind_vector_ary.length ∧
      3 * d.toNat + 2 < wind_vector_ary.length) := by
  constructor
  · obtain ⟨s', e, hi5, hi2⟩ := wind_run_indices evs s (by omega) (by omega)
    rw [h5, Nat.zero_add] at hi5 hi2
    rw [h2, Nat.zero_add] at hi2
    refine ⟨s', e, hi5, hi2, ?_, ?_⟩
    · rw [hi5]; omega
    · rw [hi2]; omega
  · intro d
    cases d <;> decide

set_option maxRecDepth 100000 in
/-- Witness for C17: seven ticks with two closures in between. -/
theorem wind_indices_stay_in_rings_witness :
    ((zeroState 10 10).idx5s = 0 ∧ (zeroState 10 10).idx2m = 0) ∧
    ∃ s', wind_run (.closure 100 :: .closure 200 :: windowTicks [900, 850, 650, 1000, 0, 500, 700]
        5 (-7) 3) (zeroState 10 10) = some s' ∧ s'.idx5s = 2 ∧ s'.idx2m = 1 := by
  refine ⟨⟨by decide, by decide⟩, ?_⟩
  obtain ⟨s', e, hi5, hi2, _⟩ := (wind_indices_stay_in_rings
    (.closure 100 :: .closure 200 :: windowTicks [900, 850, 650, 1000, 0, 500, 700] 5 (-7) 3)
    (zeroState 10 10) (by decide) (by decide)).1
  exact ⟨s', e, hi5.trans (by decide), hi2.trans (by decide)⟩

end WSA80422

/-! ## The error direction in the 5-second mean -/

namespace WSA80422

/-- Truncation to `int16_t` leaves an in-range value alone. -/
theorem i16_of_range (z : Int) (h1 : -32768 ≤ z) (h2 : z < 32768) : i16 z = z := by
  unfold i16
  omega

/-- Truncating division by 5 stays within the bounds of the dividend. -/
theorem tdiv5_bounds (z : Int) (h1 : -5000 ≤ z) (h2 : z ≤ 5000) :
    -1000 ≤ Int.tdiv z 5 ∧ Int.tdiv z 5 ≤ 1000 := by
  by_cases h : 0 ≤ z
  · rw [Int.tdiv_eq_ediv h (by decide)]
    omega
  · have hz : z = -(-z) := by omega
    rw [hz, Int.neg_tdiv, Int.tdiv_eq_ediv (by omega) (by decide)]
    omega

/-- Every x component of the table is within [-1000, 1000]. -/
theorem table_x_bounds (d : WINDDIR) : -1000 ≤ table_x d ∧ table_x d ≤ 1000 := by
  cases d <;> decide

/-- Every y component of the table is within [-1000, 1000]. -/
theorem table_y_bounds (d : WINDDIR) : -1000 ≤ table_y d ∧ table_y d ≤ 1000 := by
  cases d <;> decide

/-- The sum over the valid readings is the sum over all readings, the error
row being (0, 0). -/
theorem validSumX_eq (adcs : List Nat) :
    validSumX adcs = (adcs.map (fun adc => table_x (getWindDir adc))).sum := by
  unfold validSumX validReadings
  induction adcs with
  | nil => rfl
  | cons a rest ih =>
    by_cases h : getWindDir a = WINDDIR.WDIR_ERR
    · simp only [List.filter_cons, h, ne_eq, not_true_eq_false, decide_False, Bool.false_eq_true,
        if_false, List.map_cons, List.sum_cons, ih]
      have : table_x WINDDIR.WDIR_ERR = 0 := by decide
      rw [this]
      omega
    · simp only [List.filter_cons, h, ne_eq, not_false_eq_true, decide_True, if_true,
        List.map_cons, List.sum_cons, ih]

/-- The same for the y components. -/
theorem validSumY_eq (adcs : List Nat) :
    validSumY adcs = (adcs.map (fun adc => table_y (getWindDir adc))).sum := by
  unfold validSumY validReadings
  induction adcs with
  | nil => rfl
  | cons a rest ih =>
    by_cases h : getWindDir a = WINDDIR.WDIR_ERR
    · simp only [List.filter_cons, h, ne_eq, not_true_eq_false, decide_False, Bool.false_eq_true,
        if_false, List.map_cons, List.sum_cons, ih]
      have : table_y WINDDIR.WDIR_ERR = 0 := by decide
      rw [this]
      omega
    · simp only [List.filter_cons, h, ne_eq, not_false_eq_true, decide_True, if_true,
        List.map_cons, List.sum_cons, ih]

/-- The three sums formed by the loop of the fifth tick, written out. -/
theorem wind_avg_loop_eq (xs ys : Nat → Int) (spd : Nat → Nat) (x0 y0 : Int) (v0 : Nat) :
    wind_avg_loop xs ys spd x0 y0 v0 =
      (i16 (i16 (i16 (i16 (i16 (x0 + xs 0) + xs 1) + xs 2) + xs 3) + xs 4),
       i16 (i16 (i16 (i16 (i16 (y0 + ys 0) + ys 1) + ys 2) + ys 3) + ys 4),
       u32 (u32 (u32 (u32 (u32 (v0 + spd 0) + spd 1) + spd 2) + spd 3) + spd 4)) := rfl

/-- Five 16-bit additions of table components starting from 0 do not wrap,
and neither does the quotient by 5. -/
theorem i16_mean_of_five (a b c d e : Int)
    (ha : -1000 ≤ a ∧ a ≤ 1000) (hb : -1000 ≤ b ∧ b ≤ 1000) (hc : -1000 ≤ c ∧ c ≤ 1000)
    (hd : -1000 ≤ d ∧ d ≤ 1000) (he : -1000 ≤ e ∧ e ≤ 1000) :
    i16 (Int.tdiv (i16 (i16 (i16 (i16 (i16 a + b) + c) + d) + e)) 5) =
      Int.tdiv (a + (b + (c + (d + e)))) 5 := by
  have h1 : i16 a = a := i16_of_range _ (by omega) (by omega)
  have h2 : i16 (a + b) = a + b := i16_of_range _ (by omega) (by omega)
  have h3 : i16 (a + b + c) = a + b + c := i16_of_range _ (by omega) (by omega)
  have h4 : i16 (a + b + c + d) = a + b + c + d := i16_of_range _ (by omega) (by omega)
  have h5 : i16 (a + b + c + d + e) = a + b + c + d + e := i16_of_range _ (by omega) (by omega)
  rw [h1, h2, h3, h4, h5]
  have hs : a + (b + (c + (d + e))) = a + b + c + d + e := by omega
  rw [hs]
  have hb := tdiv5_bounds (a + b + c + d + e) (by omega) (by omega)
  exact i16_of_range _ (by omega) (by omega)

/-- A wind tick below the last slot of the 5-second ring, field by field. -/
theorem wind_tick_fields (adc : Nat) (x0 y0 : Int) (v0 : Nat) (s : WSA80422) (h : s.idx5s < 4) :
    ∃ s1, wind_calcs_per_second adc x0 y0 v0 s = some s1 ∧
      s1.idx5s = s.idx5s + 1 ∧ s1.idx2m = s.idx2m ∧
      s1.w_dir_5s_x = arrSet s.w_dir_5s_x s.idx5s (table_x (getWindDir adc)) ∧
      s1.w_dir_5s_y = arrSet s.w_dir_5s_y s.idx5s (table_y (getWindDir adc)) :=
  ⟨_, wind_tick_lt4 adc x0 y0 v0 s h, rfl, rfl, rfl, rfl⟩

/-- A wind tick at the last slot of the 5-second ring: the direction sample
it writes to the 2-minute ring. -/
theorem wind_tick_last_fields (adc : Nat) (x0 y0 : Int) (v0 : Nat) (s : WSA80422)
    (h : s.idx5s = 4) (h2 : s.idx2m < 24) :
    ∃ s1, wind_calcs_per_second adc x0 y0 v0 s = some s1 ∧
      s1.w_dir_2m_x s.idx2m =
        i16 (Int.tdiv (wind_avg_loop (arrSet s.w_dir_5s_x 4 (table_x (getWindDir adc)))
          (arrSet s.w_dir_5s_y 4 (table_y (getWindDir adc)))
          (arrSet s.w_spd_5s 4 (u32 (getWindAcc s * 1492))) x0 y0 v0).1 5) ∧
      s1.w_dir_2m_y s.idx2m =
        i16 (Int.tdiv (wind_avg_loop (arrSet s.w_dir_5s_x 4 (table_x (getWindDir adc)))
          (arrSet s.w_dir_5s_y 4 (table_y (getWindDir adc)))
          (arrSet s.w_spd_5s 4 (u32 (getWindAcc s * 1492))) x0 y0 v0).2.1 5) := by
  refine ⟨_, wind_tick_eq4 adc x0 y0 v0 s h h2, ?_, ?_⟩
  · simp only [arrSet, if_true]
  · simp only [arrSet, if_true]

/-- C12 (as amended): for every 5-second window (five wind ticks from
`idx5s = 0`) whose summing loop starts from accumulators `avg_x = avg_y = 0`,
the (x, y) written to the 2-minute ring is the sum of the table vectors of the
valid-direction ticks divided by 5, truncating toward zero: a tick that
resolves to `WDIR_ERR` adds (0, 0) to the sums and still counts in the
divisor. -/
theorem error_ticks_count_in_the_divisor (s : WSA80422) (a1 a2 a3 a4 a5 : Nat) (avg_spd0 : Nat)
    (h5 : s.idx5s = 0) (h2 : s.idx2m < 24) :
    ∃ s', wind_run (windowTicks [a1, a2, a3, a4, a5] 0 0 avg_spd0) s = some s' ∧
      s'.w_dir_2m_x s.idx2m = Int.tdiv (validSumX [a1, a2, a3, a4, a5]) 5 ∧
      s'.w_dir_2m_y s.idx2m = Int.tdiv (validSumY [a1, a2, a3, a4, a5]) 5 := by
  obtain ⟨s1, e1, i1, m1, x1, y1⟩ := wind_tick_fields a1 0 0 avg_spd0 s (by omega)
  obtain ⟨s2, e2, i2, m2, x2, y2⟩ := wind_tick_fields a2 0 0 avg_spd0 s1 (by omega)
  obtain ⟨s3, e3, i3, m3, x3, y3⟩ := wind_tick_fields a3 0 0 avg_spd0 s2 (by omega)
  obtain ⟨s4, e4, i4, m4, x4, y4⟩ := wind_tick_fields a4 0 0 avg_spd0 s3 (by omega)
  have i4' : s4.idx5s = 4 := by omega
  have m4' : s4.idx2m = s.idx2m := by omega
  obtain ⟨s5, e5, hx, hy⟩ := wind_tick_last_fields a5 0 0 avg_spd0 s4 i4' (by omega)
  rw [m4'] at hx hy
  refine ⟨s5, ?_, ?_, ?_⟩
  · simp only [windowTicks, List.map_cons, List.map_nil, wind_run, wind_step, e1, e2, e3, e4, e5,
      Option.some_bind]
  · rw [hx, wind_avg_loop_eq, x4, x3, x2, x1, i3, i2, i1, h5, validSumX_eq]
    simp only [arrSet, List.map_cons, List.map_nil, List.sum_cons, List.sum_nil]
    norm_num
    exact i16_mean_of_five _ _ _ _ _ (table_x_bounds _) (table_x_bounds _) (table_x_bounds _)
      (table_x_bounds _) (table_x_bounds _)
  · rw [hy, wind_avg_loop_eq, y4, y3, y2, y1, i3, i2, i1, h5, validSumY_eq]
    simp only [arrSet, List.map_cons, List.map_nil, List.sum_cons, List.sum_nil]
    norm_num
    exact i16_mean_of_five _ _ _ _ _ (table_y_bounds _) (table_y_bounds _) (table_y_bounds _)
      (table_y_bounds _) (table_y_bounds _)

/-- Witness for C12: four north ticks and one tick with reading 1000, which
resolves to `WDIR_ERR`; the sample written is (0, 4000 / 5). -/
theorem error_ticks_count_in_the_divisor_witness :
    ((zeroState 10 10).idx5s = 0 ∧ (zeroState 10 10).idx2m < 24) ∧
    ∃ s', wind_run (windowTicks [900, 900, 1000, 900, 900] 0 0 0) (zeroState 10 10) = some s' ∧
      s'.w_dir_2m_x 0 = 0 ∧ s'.w_dir_2m_y 0 = 800 := by
  refine ⟨⟨by decide, by decide⟩, ?_⟩
  obtain ⟨s', e, hx, hy⟩ :=
    error_ticks_count_in_the_divisor (zeroState 10 10) 900 900 1000 900 900 0 (by decide) (by decide)
  exact ⟨s', e, hx.trans (by decide), hy.trans (by decide)⟩

set_option maxRecDepth 100000 in
/-- C12 (as stated) fails: readings 900 resolve to `WDIR_N` and 1000 to
`WDIR_ERR`; with the accumulators starting at 0, a window of four north ticks
and one error tick writes (0, 800) to the 2-minute ring, while the truncated
mean of the vectors of the four valid ticks only is (0, 1000). -/
theorem error_tick_lowers_the_mean :
    getWindDir 900 = WINDDIR.WDIR_N ∧ getWindDir 1000 = WINDDIR.WDIR_ERR ∧
    (wind_run (windowTicks [900, 900, 1000, 900, 900] 0 0 0) (zeroState 10 10)).map
        (fun s => (s.w_dir_2m_x 0, s.w_dir_2m_y 0)) = some (0, 800) ∧
    validMean [900, 900, 1000, 900, 900] = (0, 1000) := by
  decide

end WSA80422

/-! ## The CRC check of the HTU21D frame -/

namespace DRV_HTU21D

/-- The loop of `check_crc8` is the bounded loop once the bound exceeds the
bit length of `bit_pos`. -/
theorem check_crc8_loop_eq_fuel (fuel : Nat) :
    ∀ term bit_pos poly data, bit_pos < 2 ^ fuel →
      check_crc8_loop term bit_pos poly data = crcLoopFuel fuel term bit_pos poly data := by
  induction fuel with
  | zero =>
    intro term bit_pos poly data h
    have h0 : bit_pos = 0 := by omega
    subst h0
    rw [check_crc8_loop]
    simp [crcLoopFuel]
  | succ n ih =>
    intro term bit_pos poly data h
    rw [check_crc8_loop]
    simp only [crcLoopFuel]
    split
    · apply ih
      rw [Nat.shiftRight_eq_div_pow]
      rw [Nat.pow_succ] at h
      omega
    · rfl

/-- The mask test of the loop is a test of one bit. -/
theorem two_pow_and_ne_zero (k x : Nat) : 2 ^ k &&& x ≠ 0 ↔ x.testBit k = true := by
  constructor
  · intro h
    obtain ⟨i, hi⟩ := Nat.ne_zero_implies_bit_true h
    rw [Nat.testBit_and, Nat.testBit_two_pow] at hi
    simp only [Bool.and_eq_true, decide_eq_true_eq] at hi
    rw [hi.1]
    exact hi.2
  · intro h hz
    have : (2 ^ k &&& x).testBit k = true := by
      rw [Nat.testBit_and, Nat.testBit_two_pow_self, h]
      rfl
    rw [hz, Nat.zero_testBit] at this
    exact Bool.noConfusion this

/-- XOR with the same value on both sides cancels. -/
theorem xor_cancel_mid (a b p : Nat) : (a ^^^ p) ^^^ (b ^^^ p) = a ^^^ b := by
  apply Nat.eq_of_testBit_eq
  intro i
  simp only [Nat.testBit_xor]
  cases a.testBit i <;> cases b.testBit i <;> cases p.testBit i <;> rfl

/-- XOR is commutative up to regrouping (left form). -/
theorem xor_move_left (a b p : Nat) : (a ^^^ p) ^^^ b = (a ^^^ b) ^^^ p := by
  apply Nat.eq_of_testBit_eq
  intro i
  simp only [Nat.testBit_xor]
  cases a.testBit i <;> cases b.testBit i <;> cases p.testBit i <;> rfl

/-- XOR is commutative up to regrouping (right form). -/
theorem xor_move_right (a b p : Nat) : a ^^^ (b ^^^ p) = (a ^^^ b) ^^^ p := by
  apply Nat.eq_of_testBit_eq
  intro i
  simp only [Nat.testBit_xor]
  cases a.testBit i <;> cases b.testBit i <;> cases p.testBit i <;> rfl

/-- One iteration of the loop body is XOR-linear in `data`. -/
theorem crc_step_xor (k poly a b : Nat) :
    (if 2 ^ k &&& (a ^^^ b) ≠ 0 then (a ^^^ b) ^^^ poly else a ^^^ b) =
      (if 2 ^ k &&& a ≠ 0 then a ^^^ poly else a) ^^^
        (if 2 ^ k &&& b ≠ 0 then b ^^^ poly else b) := by
  have hab : (2 ^ k &&& (a ^^^ b) ≠ 0) ↔ ((a.testBit k != b.testBit k) = true) := by
    rw [two_pow_and_ne_zero, Nat.testBit_xor]
  by_cases ha : a.testBit k = true <;> by_cases hb : b.testBit k = true
  · have h1 := (two_pow_and_ne_zero k a).mpr ha
    have h2 := (two_pow_and_ne_zero k b).mpr hb
    have h3 : ¬ (2 ^ k &&& (a ^^^ b) ≠ 0) := by rw [hab, ha, hb]; decide
    rw [if_pos h1, if_pos h2, if_neg h3, xor_cancel_mid]
  · have h1 := (two_pow_and_ne_zero k a).mpr ha
    have h2 : ¬ (2 ^ k &&& b ≠ 0) := fun h => hb ((two_pow_and_ne_zero k b).mp h)
    have hb' : b.testBit k = false := by simpa using hb
    have h3 : 2 ^ k &&& (a ^^^ b) ≠ 0 := by rw [hab, ha, hb']; decide
    rw [if_pos h1, if_neg h2, if_pos h3, xor_move_left]
  · have h1 : ¬ (2 ^ k &&& a ≠ 0) := fun h => ha ((two_pow_and_ne_zero k a).mp h)
    have h2 := (two_pow_and_ne_zero k b).mpr hb
    have ha' : a.testBit k = false := by simpa using ha
    have h3 : 2 ^ k &&& (a ^^^ b) ≠ 0 := by rw [hab, ha', hb]; decide
    rw [if_neg h1, if_pos h2, if_pos h3, xor_move_right]
  · have h1 : ¬ (2 ^ k &&& a ≠ 0) := fun h => ha ((two_pow_and_ne_zero k a).mp h)
    have h2 : ¬ (2 ^ k &&& b ≠ 0) := fun h => hb ((two_pow_and_ne_zero k b).mp h)
    have ha' : a.testBit k = false := by simpa using ha
    have hb' : b.testBit k = false := by simpa using hb
    have h3 : ¬ (2 ^ k &&& (a ^^^ b) ≠ 0) := by rw [hab, ha', hb']; decide
    rw [if_neg h1, if_neg h2, if_neg h3]

/-- The bounded loop, entered with a one-bit mask, is XOR-linear in `data`. -/
theorem crcLoopFuel_xor (fuel : Nat) :
    ∀ (term k poly a b : Nat), 1 ≤ term →
      crcLoopFuel fuel term (2 ^ k) poly (a ^^^ b) =
        crcLoopFuel fuel term (2 ^ k) poly a ^^^ crcLoopFuel fuel term (2 ^ k) poly b := by
  induction fuel with
  | zero => intro term k poly a b _; rfl
  | succ n ih =>
    intro term k poly a b ht
    simp only [crcLoopFuel]
    by_cases hg : 2 ^ k > term
    · rw [if_pos hg, if_pos hg, if_pos hg, crc_step_xor]
      cases k with
      | zero => simp at hg; omega
      | succ j =>
        have hs : 2 ^ (j + 1) >>> 1 = 2 ^ j := by
          rw [Nat.shiftRight_eq_div_pow, Nat.pow_succ]
          omega
        rw [hs]
        exact ih term j _ _ _ ht
    · rw [if_neg hg, if_neg hg, if_neg hg]

/-- The 32-bit word the loop starts from, for a 16-bit `in_data` and an 8-bit
`check`: the 24-bit frame `in_data * 256 + check`. -/
theorem crc_frame_eq (d c : Nat) (hd : d < 65536) (hc : c < 256) :
    u32 (d <<< 8) ||| c = d * 256 + c := by
  have h1 : u32 (d <<< 8) = 2 ^ 8 * d := by
    unfold u32
    rw [Nat.shiftLeft_eq]
    omega
  rw [h1, ← Nat.mul_add_lt_is_or (by omega : c < 2 ^ 8) d]
  omega

/-- Bits of an 8-bit value at and above position 8 are clear. -/
theorem testBit_of_lt_256 (c i : Nat) (hc : c < 256) (hi : 8 ≤ i) : c.testBit i = false := by
  apply Nat.testBit_lt_two_pow
  calc c < 2 ^ 8 := hc
    _ ≤ 2 ^ i := Nat.pow_le_pow_right (by decide) hi

/-- The bits of a frame. -/
theorem testBit_frame (d c i : Nat) (hc : c < 256) :
    (d * 256 + c).testBit i = if i < 8 then c.testBit i else d.testBit (i - 8) := by
  have h : d * 256 + c = 2 ^ 8 * d + c := by omega
  rw [h, Nat.testBit_mul_pow_two_add d (by omega : c < 2 ^ 8) i]

/-- Frames compose under XOR componentwise. -/
theorem frame_xor (d1 d2 c1 c2 : Nat) (h1 : c1 < 256) (h2 : c2 < 256) :
    (d1 ^^^ d2) * 256 + (c1 ^^^ c2) = (d1 * 256 + c1) ^^^ (d2 * 256 + c2) := by
  have h3 : c1 ^^^ c2 < 256 := Nat.xor_lt_two_pow (n := 8) h1 h2
  apply Nat.eq_of_testBit_eq
  intro i
  rw [Nat.testBit_xor, testBit_frame _ _ _ h3, testBit_frame _ _ _ h1, testBit_frame _ _ _ h2]
  by_cases hi : i < 8
  · simp only [hi, if_true, Nat.testBit_xor]
  · simp only [hi, if_false, Nat.testBit_xor]

/-- Truncation to 8 bits is XOR-linear. -/
theorem u8_xor (a b : Nat) : u8 (a ^^^ b) = u8 a ^^^ u8 b := by
  unfold u8
  apply Nat.eq_of_testBit_eq
  intro i
  have h : (256 : Nat) = 2 ^ 8 := by decide
  rw [h]
  simp only [Nat.testBit_xor, Nat.testBit_mod_two_pow]
  cases decide (i < 8) <;> simp

/-- The method `check_crc8` on a frame, through the bounded loop. -/
theorem check_crc8_eq (d c : Nat) (hd : d < 65536) (hc : c < 256) :
    check_crc8 d c = u8 (crcLoopFuel 32 128 (2 ^ 31) 2558525440 (d * 256 + c)) := by
  unfold check_crc8
  simp only [CRC8_POLYNOMINAL]
  rw [crc_frame_eq d c hd hc, check_crc8_loop_eq_fuel 32 _ _ _ _ (by decide)]
  rfl

/-- XOR-linearity of `check_crc8` in the frame. -/
theorem check_crc8_xor (d1 d2 c1 c2 : Nat) (hd1 : d1 < 65536) (hd2 : d2 < 65536)
    (hc1 : c1 < 256) (hc2 : c2 < 256) :
    check_crc8 (d1 ^^^ d2) (c1 ^^^ c2) = check_crc8 d1 c1 ^^^ check_crc8 d2 c2 := by
  have hd : d1 ^^^ d2 < 65536 := Nat.xor_lt_two_pow (n := 16) hd1 hd2
  have hc : c1 ^^^ c2 < 256 := Nat.xor_lt_two_pow (n := 8) hc1 hc2
  rw [check_crc8_eq _ _ hd hc, check_crc8_eq _ _ hd1 hc1, check_crc8_eq _ _ hd2 hc2,
    frame_xor _ _ _ _ hc1 hc2, crcLoopFuel_xor 32 128 31 _ _ _ (by decide), u8_xor]

set_option maxRecDepth 100000 in
/-- On a frame without data bits `check_crc8` returns the check byte. -/
theorem check_crc8_zero_data : ∀ c, c < 256 → check_crc8 0 c = c := by
  intro c hc
  rw [check_crc8_eq 0 c (by decide) hc]
  revert c
  decide

/-- A power of two and a smaller number add without carries. -/
theorem two_pow_xor_of_lt (m y : Nat) (h : y < 2 ^ m) : 2 ^ m ^^^ y = 2 ^ m + y := by
  apply Nat.eq_of_testBit_eq
  intro i
  rw [Nat.testBit_xor, Nat.testBit_two_pow]
  rcases Nat.lt_trichotomy i m with hlt | heq | hgt
  · rw [Nat.testBit_two_pow_add_gt hlt]
    have : ¬ (m = i) := by omega
    simp [this]
  · subst heq
    rw [Nat.testBit_two_pow_add_eq, Nat.testBit_lt_two_pow h]
    simp
  · have h1 : y.testBit i = false := by
      apply Nat.testBit_lt_two_pow
      calc y < 2 ^ m := h
        _ ≤ 2 ^ i := Nat.pow_le_pow_right (by decide) (by omega)
    have h2 : (2 ^ m + y).testBit i = false := by
      apply Nat.testBit_lt_two_pow
      calc 2 ^ m + y < 2 ^ m + 2 ^ m := by omega
        _ = 2 ^ (m + 1) := by rw [Nat.pow_succ]; omega
        _ ≤ 2 ^ i := Nat.pow_le_pow_right (by decide) (by omega)
    have : ¬ (m = i) := by omega
    simp [h1, h2, this]

/-- Two XOR-linear functions that agree on the powers of two below `2 ^ n`
agree on every number below `2 ^ n`. -/
theorem xor_linear_ext (n : Nat) (f g : Nat → Nat)
    (hf : ∀ a b, a < 2 ^ n → b < 2 ^ n → f (a ^^^ b) = f a ^^^ f b)
    (hg : ∀ a b, a < 2 ^ n → b < 2 ^ n → g (a ^^^ b) = g a ^^^ g b)
    (hbasis : ∀ i, i < n → f (2 ^ i) = g (2 ^ i)) :
    ∀ x, x < 2 ^ n → f x = g x := by
  have hpos : 0 < 2 ^ n := Nat.two_pow_pos n
  have hf0 : f 0 = 0 := by
    have := hf 0 0 hpos hpos
    rw [Nat.xor_self] at this
    rw [this, Nat.xor_self]
  have hg0 : g 0 = 0 := by
    have := hg 0 0 hpos hpos
    rw [Nat.xor_self] at this
    rw [this, Nat.xor_self]
  have key : ∀ m, m ≤ n → ∀ x, x < 2 ^ m → f x = g x := by
    intro m
    induction m with
    | zero =>
      intro _ x hx
      have : x = 0 := by simpa using hx
      rw [this, hf0, hg0]
    | succ m ih =>
      intro hm x hx
      by_cases hlt : x < 2 ^ m
      · exact ih (by omega) x hlt
      · have hy : x - 2 ^ m < 2 ^ m := by
          rw [Nat.pow_succ] at hx
          omega
        have hx' : x = 2 ^ m ^^^ (x - 2 ^ m) := by
          rw [two_pow_xor_of_lt m _ hy]
          omega
        have hmn : 2 ^ m < 2 ^ n := Nat.pow_lt_pow_right (by decide) (by omega)
        have hyn : x - 2 ^ m < 2 ^ n := by omega
        rw [hx', hf _ _ hmn hyn, hg _ _ hmn hyn, hbasis m (by omega), ih (by omega) _ hy]
  exact key n (Nat.le_refl n)

/-- The loop only XORs shifted copies of the polynomial into `data`. -/
theorem crcLoopFuel_multiple (fuel : Nat) :
    ∀ (j data : Nat), ∃ js : List Nat,
      crcLoopFuel fuel 128 (2 ^ (j + 8)) (305 <<< j) data = data ^^^ gf2Multiple 305 js := by
  induction fuel with
  | zero =>
    intro j data
    exact ⟨[], by simp [crcLoopFuel, gf2Multiple]⟩
  | succ n ih =>
    intro j data
    have hg : 2 ^ (j + 8) > 128 := by
      have : 2 ^ 8 ≤ 2 ^ (j + 8) := Nat.pow_le_pow_right (by decide) (by omega)
      omega
    simp only [crcLoopFuel]
    rw [if_pos hg]
    cases j with
    | zero =>
      have hlast : ∀ x, crcLoopFuel n 128 (2 ^ (0 + 8) >>> 1) ((305 <<< 0) >>> 1) x = x := by
        intro x
        cases n with
        | zero => rfl
        | succ n' =>
          simp only [crcLoopFuel]
          rw [if_neg (by decide)]
      rw [hlast]
      by_cases hb : 2 ^ (0 + 8) &&& data ≠ 0
      · rw [if_pos hb]
        exact ⟨[0], by simp [gf2Multiple]⟩
      · rw [if_neg hb]
        exact ⟨[], by simp [gf2Multiple]⟩
    | succ i =>
      have hs : 2 ^ (i + 1 + 8) >>> 1 = 2 ^ (i + 8) := by
        have he : i + 1 + 8 = (i + 8) + 1 := by omega
        rw [he, Nat.shiftRight_eq_div_pow, Nat.pow_succ]
        omega
      have hp : (305 <<< (i + 1)) >>> 1 = 305 <<< i := by
        rw [Nat.shiftRight_eq_div_pow, Nat.shiftLeft_eq, Nat.shiftLeft_eq, Nat.pow_succ]
        omega
      rw [hs, hp]
      by_cases hb : 2 ^ (i + 1 + 8) &&& data ≠ 0
      · rw [if_pos hb]
        obtain ⟨js, hjs⟩ := ih i (data ^^^ 305 <<< (i + 1))
        refine ⟨(i + 1) :: js, ?_⟩
        rw [hjs]
        simp only [gf2Multiple]
        rw [Nat.xor_assoc]
      · rw [if_neg hb]
        exact ih i data

/-- Shifting left by one is XOR-linear. -/
theorem shiftLeft_one_xor (a b : Nat) : (a ^^^ b) <<< 1 = a <<< 1 ^^^ b <<< 1 := by
  apply Nat.eq_of_testBit_eq
  intro i
  simp only [Nat.testBit_xor, Nat.testBit_shiftLeft]
  cases decide (i ≥ 1) <;> simp

/-- Dividing by 256 is XOR-linear. -/
theorem div_256_xor (a b : Nat) : (a ^^^ b) / 256 = a / 256 ^^^ b / 256 := by
  have h : ∀ x : Nat, x / 256 = x >>> 8 := fun x => by rw [Nat.shiftRight_eq_div_pow]
  rw [h, h, h]
  apply Nat.eq_of_testBit_eq
  intro i
  simp only [Nat.testBit_xor, Nat.testBit_shiftRight]

/-- The two branches of `crc8_shift` differ by the constant 0x31. -/
theorem crc8_shift_eq (x : Nat) :
    crc8_shift x = if 2 ^ 7 &&& x ≠ 0 then u8 (x <<< 1) ^^^ 0x31 else u8 (x <<< 1) := by
  unfold crc8_shift
  have h : x &&& 0x80 = 2 ^ 7 &&& x := by
    rw [Nat.and_comm]
    rfl
  rw [h]
  by_cases hb : 2 ^ 7 &&& x ≠ 0
  · rw [if_pos hb, if_pos hb]
    have := u8_xor (x <<< 1) 0x31
    unfold u8 at this ⊢
    rw [this]
  · rw [if_neg hb, if_neg hb]
    rfl

/-- One bit step of the CRC-8 is XOR-linear. -/
theorem crc8_shift_xor (a b : Nat) : crc8_shift (a ^^^ b) = crc8_shift a ^^^ crc8_shift b := by
  rw [crc8_shift_eq, crc8_shift_eq, crc8_shift_eq, shiftLeft_one_xor, u8_xor]
  have hab : (2 ^ 7 &&& (a ^^^ b) ≠ 0) ↔ ((a.testBit 7 != b.testBit 7) = true) := by
    rw [two_pow_and_ne_zero, Nat.testBit_xor]
  by_cases ha : a.testBit 7 = true <;> by_cases hb : b.testBit 7 = true
  · have h1 := (two_pow_and_ne_zero 7 a).mpr ha
    have h2 := (two_pow_and_ne_zero 7 b).mpr hb
    have h3 : ¬ (2 ^ 7 &&& (a ^^^ b) ≠ 0) := by rw [hab, ha, hb]; decide
    rw [if_pos h1, if_pos h2, if_neg h3, xor_cancel_mid]
  · have h1 := (two_pow_and_ne_zero 7 a).mpr ha
    have h2 : ¬ (2 ^ 7 &&& b ≠ 0) := fun h => hb ((two_pow_and_ne_zero 7 b).mp h)
    have hb' : b.testBit 7 = false := by simpa using hb
    have h3 : 2 ^ 7 &&& (a ^^^ b) ≠ 0 := by rw [hab, ha, hb']; decide
    rw [if_pos h1, if_neg h2, if_pos h3, xor_move_left]
  · have h1 : ¬ (2 ^ 7 &&& a ≠ 0) := fun h => ha ((two_pow_and_ne_zero 7 a).mp h)
    have h2 := (two_pow_and_ne_zero 7 b).mpr hb
    have ha' : a.testBit 7 = false := by simpa using ha
    have h3 : 2 ^ 7 &&& (a ^^^ b) ≠ 0 := by rw [hab, ha', hb]; decide
    rw [if_neg h1, if_pos h2, if_pos h3, xor_move_right]
  · have h1 : ¬ (2 ^ 7 &&& a ≠ 0) := fun h => ha ((two_pow_and_ne_zero 7 a).mp h)
    have h2 : ¬ (2 ^ 7 &&& b ≠ 0) := fun h => hb ((two_pow_and_ne_zero 7 b).mp h)
    have ha' : a.testBit 7 = false := by simpa using ha
    have hb' : b.testBit 7 = false := by simpa using hb
    have h3 : ¬ (2 ^ 7 &&& (a ^^^ b) ≠ 0) := by rw [hab, ha', hb']; decide
    rw [if_neg h1, if_neg h2, if_neg h3]

/-- Regrouping of four XOR operands. -/
theorem xor_regroup (a b c d : Nat) : (a ^^^ b) ^^^ (c ^^^ d) = (a ^^^ c) ^^^ (b ^^^ d) := by
  apply Nat.eq_of_testBit_eq
  intro i
  simp only [Nat.testBit_xor]
  cases a.testBit i <;> cases b.testBit i <;> cases c.testBit i <;> cases d.testBit i <;> rfl

/-- Absorbing one byte into the CRC-8 register is XOR-linear in register and
byte together. -/
theorem crc8_byte_xor (c1 c2 b1 b2 : Nat) :
    crc8_byte (c1 ^^^ c2) (b1 ^^^ b2) = crc8_byte c1 b1 ^^^ crc8_byte c2 b2 := by
  unfold crc8_byte
  rw [xor_regroup c1 c2 b1 b2]
  simp only [crc8_shift_xor]

/-- The CRC-8 register stays below 256. -/
theorem crc8_shift_lt (x : Nat) : crc8_shift x < 256 := by
  unfold crc8_shift
  split <;> omega

/-- The CRC-8 of the two bytes of a 16-bit word is XOR-linear in the word. -/
theorem crc8_msb_xor (a b : Nat) :
    crc8_msb [(a ^^^ b) / 256, (a ^^^ b) % 256] =
      crc8_msb [a / 256, a % 256] ^^^ crc8_msb [b / 256, b % 256] := by
  simp only [crc8_msb, List.foldl_cons, List.foldl_nil]
  have hm := u8_xor a b
  unfold u8 at hm
  rw [div_256_xor, hm]
  have h0 : crc8_byte 0 (a / 256 ^^^ b / 256) = crc8_byte 0 (a / 256) ^^^ crc8_byte 0 (b / 256) := by
    have := crc8_byte_xor 0 0 (a / 256) (b / 256)
    rw [Nat.xor_self] at this
    exact this
  rw [h0, crc8_byte_xor]

set_option maxRecDepth 100000 in
/-- On each of the 24 one-bit frames the loop ends below 256. -/
theorem crc_loop_basis_lt : ∀ i, i < 24 →
    crcLoopFuel 32 128 (2 ^ 31) 2558525440 (2 ^ i) =
      u8 (crcLoopFuel 32 128 (2 ^ 31) 2558525440 (2 ^ i)) := by
  decide

/-- On every 24-bit frame the loop ends below 256: the truncation to
`uint8_t` of the returned value loses nothing. -/
theorem crc_loop_lt (x : Nat) (hx : x < 2 ^ 24) :
    crcLoopFuel 32 128 (2 ^ 31) 2558525440 x < 256 := by
  have h := xor_linear_ext 24 (fun x => crcLoopFuel 32 128 (2 ^ 31) 2558525440 x)
    (fun x => u8 (crcLoopFuel 32 128 (2 ^ 31) 2558525440 x))
    (fun a b _ _ => crcLoopFuel_xor 32 128 31 _ a b (by decide))
    (fun a b _ _ => by
      show u8 (crcLoopFuel 32 128 (2 ^ 31) 2558525440 (a ^^^ b)) = _
      rw [crcLoopFuel_xor 32 128 31 _ a b (by decide), u8_xor])
    crc_loop_basis_lt x hx
  have h' : crcLoopFuel 32 128 (2 ^ 31) 2558525440 x =
      u8 (crcLoopFuel 32 128 (2 ^ 31) 2558525440 x) := h
  rw [h']
  unfold u8
  omega

set_option maxRecDepth 100000 in
/-- On each of the 16 one-bit data words, `check_crc8` with check byte 0 is
the CRC-8 of the two data bytes. -/
theorem crc_basis_eq : ∀ i, i < 16 →
    u8 (crcLoopFuel 32 128 (2 ^ 31) 2558525440 (2 ^ i * 256 + 0)) =
      crc8_msb [2 ^ i / 256, 2 ^ i % 256] := by
  decide

/-- With check byte 0, `check_crc8` returns the CRC-8 of the two data bytes. -/
theorem check_crc8_zero_check (d : Nat) (hd : d < 65536) :
    check_crc8 d 0 = crc8_msb [d / 256, d % 256] := by
  refine xor_linear_ext 16 (fun d => check_crc8 d 0) (fun d => crc8_msb [d / 256, d % 256])
    ?_ ?_ ?_ d hd
  · intro a b ha hb
    have := check_crc8_xor a b 0 0 ha hb (by decide) (by decide)
    rw [Nat.xor_self] at this
    exact this
  · intro a b _ _
    exact crc8_msb_xor a b
  · intro i hi
    have hlt : 2 ^ i < 65536 := Nat.pow_lt_pow_right (by decide) hi
    show check_crc8 (2 ^ i) 0 = _
    rw [check_crc8_eq _ _ hlt (by decide)]
    exact crc_basis_eq i hi

/-- The check is the CRC-8 of the data XOR the check byte. -/
theorem check_crc8_split (d c : Nat) (hd : d < 65536) (hc : c < 256) :
    check_crc8 d c = crc8_msb [d / 256, d % 256] ^^^ c := by
  have h := check_crc8_xor d 0 0 c hd (by decide) (by decide) hc
  rw [Nat.xor_zero, Nat.zero_xor] at h
  rw [h, check_crc8_zero_check d hd, check_crc8_zero_data c hc]

/-- The CRC-8 of a two-byte message is a byte. -/
theorem crc8_msb_lt (h l : Nat) : crc8_msb [h, l] < 256 := by
  simp only [crc8_msb, List.foldl_cons, List.foldl_nil]
  unfold crc8_byte
  exact crc8_shift_lt _

/-- C22: for a 16-bit `d` and a check byte `c`, the loop of `check_crc8` ends
with a value below 256, so the returned byte is that value; the 24-bit frame
`d * x^8 + c` is the returned value plus a GF(2) multiple of
`x^8 + x^5 + x^4 + 1`, i.e. the returned value is the remainder of the
division; it is 0 exactly when `c` is the CRC-8 (polynomial 0x31, initial
value 0, most significant bit first) of the two data bytes; and exactly one
check byte gives 0. -/
theorem check_crc8_is_remainder (d c : Nat) (hd : d < 65536) (hc : c < 256) :
    check_crc8_loop (1 <<< 7) 0x80000000 (u32 (CRC8_POLYNOMINAL <<< 23)) (u32 (d <<< 8) ||| c)
      < 256 ∧
    check_crc8 d c < 256 ∧
    (∃ js : List Nat, d * 256 + c = gf2Multiple CRC8_POLYNOMINAL js ^^^ check_crc8 d c) ∧
    (check_crc8 d c = 0 ↔ c = crc8_msb [d / 256, d % 256]) ∧
    (∃ c0, c0 < 256 ∧ check_crc8 d c0 = 0 ∧
      ∀ c', c' < 256 → check_crc8 d c' = 0 → c' = c0) := by
  have hframe : d * 256 + c < 2 ^ 24 := by omega
  have hlt := crc_loop_lt (d * 256 + c) hframe
  have hu : check_crc8 d c = crcLoopFuel 32 128 (2 ^ 31) 2558525440 (d * 256 + c) := by
    rw [check_crc8_eq d c hd hc]
    unfold u8
    omega
  refine ⟨?_, ?_, ?_, ?_, ?_⟩
  · rw [crc_frame_eq d c hd hc, check_crc8_loop_eq_fuel 32 _ _ _ _ (by decide)]
    exact hlt
  · rw [hu]
    exact hlt
  · obtain ⟨js, hjs⟩ := crcLoopFuel_multiple 32 23 (d * 256 + c)
    refine ⟨js, ?_⟩
    rw [hu]
    have h1 : crcLoopFuel 32 128 (2 ^ 31) 2558525440 (d * 256 + c) =
        (d * 256 + c) ^^^ gf2Multiple CRC8_POLYNOMINAL js := hjs
    rw [h1, Nat.xor_comm (d * 256 + c), ← Nat.xor_assoc, Nat.xor_self, Nat.zero_xor]
  · rw [check_crc8_split d c hd hc, Nat.xor_eq_zero]
    exact eq_comm
  · refine ⟨crc8_msb [d / 256, d % 256], crc8_msb_lt _ _, ?_, ?_⟩
    · rw [check_crc8_split d _ hd (crc8_msb_lt _ _), Nat.xor_self]
    · intro c' hc' h0
      rw [check_crc8_split d c' hd hc', Nat.xor_eq_zero] at h0
      exact h0.symm

/-- Witness for C22: the frame 0x683A with check byte 0x7C. -/
theorem check_crc8_is_remainder_witness :
    ((0x683A : Nat) < 65536 ∧ (0x7C : Nat) < 256) ∧
    check_crc8 0x683A 0x7C = 0 ∧ crc8_msb [0x68, 0x3A] = 0x7C := by
  have h := check_crc8_is_remainder 0x683A 0x7C (by decide) (by decide)
  have hc : (0x7C : Nat) = crc8_msb [0x683A / 256, 0x683A % 256] := by decide
  exact ⟨⟨by decide, by decide⟩, h.2.2.2.1.mpr hc, by decide⟩

set_option maxRecDepth 100000 in
/-- On each one-bit frame the check is non-zero. -/
theorem crc_basis_ne_zero : ∀ i, i < 24 →
    u8 (crcLoopFuel 32 128 (2 ^ 31) 2558525440 (2 ^ i)) ≠ 0 := by
  decide

/-- The check of a one-bit data word is non-zero. -/
theorem check_crc8_data_bit (i : Nat) (hi : i < 16) : check_crc8 (2 ^ i) 0 ≠ 0 := by
  have hlt : 2 ^ i < 65536 := Nat.pow_lt_pow_right (by decide) hi
  rw [check_crc8_eq _ _ hlt (by decide)]
  have h := crc_basis_ne_zero (i + 8) (by omega)
  have he : 2 ^ i * 256 + 0 = 2 ^ (i + 8) := by
    rw [Nat.pow_add]
    omega
  rw [he]
  exact h

/-- The check of a one-bit check byte is non-zero. -/
theorem check_crc8_check_bit (j : Nat) (hj : j < 8) : check_crc8 0 (2 ^ j) ≠ 0 := by
  have hlt : 2 ^ j < 256 := Nat.pow_lt_pow_right (by decide) hj
  rw [check_crc8_eq _ _ (by decide) hlt]
  have h := crc_basis_ne_zero j (by omega)
  have he : 0 * 256 + 2 ^ j = 2 ^ j := by omega
  rw [he]
  exact h

/-- C27: `check_crc8` is XOR-linear on frames of a 16-bit data word and a
check byte, it is non-zero on every frame with exactly one bit set, and so
flipping any single data bit or check bit of a frame on which it returns 0
gives a frame on which it returns a non-zero value. -/
theorem check_crc8_detects_single_bit_flips :
    (∀ d1 d2 c1 c2 : Nat, d1 < 65536 → d2 < 65536 → c1 < 256 → c2 < 256 →
      check_crc8 (d1 ^^^ d2) (c1 ^^^ c2) = check_crc8 d1 c1 ^^^ check_crc8 d2 c2) ∧
    (∀ i, i < 16 → check_crc8 (2 ^ i) 0 ≠ 0) ∧
    (∀ j, j < 8 → check_crc8 0 (2 ^ j) ≠ 0) ∧
    (∀ d c : Nat, d < 65536 → c < 256 → check_crc8 d c = 0 →
      (∀ i, i < 16 → check_crc8 (d ^^^ 2 ^ i) c ≠ 0) ∧
      (∀ j, j < 8 → check_crc8 d (c ^^^ 2 ^ j) ≠ 0)) := by
  refine ⟨fun d1 d2 c1 c2 h1 h2 h3 h4 => check_crc8_xor d1 d2 c1 c2 h1 h2 h3 h4,
    check_crc8_data_bit, check_crc8_check_bit, ?_⟩
  intro d c hd hc h0
  constructor
  · intro i hi
    have hlt : 2 ^ i < 65536 := Nat.pow_lt_pow_right (by decide) hi
    have h := check_crc8_xor d (2 ^ i) c 0 hd hlt hc (by decide)
    rw [Nat.xor_zero] at h
    rw [h, h0, Nat.zero_xor]
    exact check_crc8_data_bit i hi
  · intro j hj
    have hlt : 2 ^ j < 256 := Nat.pow_lt_pow_right (by decide) hj
    have h := check_crc8_xor d 0 c (2 ^ j) hd (by decide) hc hlt
    rw [Nat.xor_zero] at h
    rw [h, h0, Nat.zero_xor]
    exact check_crc8_check_bit j hj

/-- Witness for C27: flipping bit 5 of the data word of the valid frame
(0x683A, 0x7C) is detected. -/
theorem check_crc8_detects_single_bit_flips_witness :
    ((0x683A : Nat) < 65536 ∧ (0x7C : Nat) < 256 ∧ check_crc8 0x683A 0x7C = 0 ∧ 5 < 16) ∧
    check_crc8 (0x683A ^^^ 2 ^ 5) 0x7C ≠ 0 := by
  have h0 : check_crc8 0x683A 0x7C = 0 := by
    rw [check_crc8_eq _ _ (by decide) (by decide)]
    decide
  exact ⟨⟨by decide, by decide, h0, by decide⟩,
    (check_crc8_detects_single_bit_flips.2.2.2 0x683A 0x7C (by decide) (by decide) h0).1 5
      (by decide)⟩

end DRV_HTU21D

/-! ## The sentinels of the HTU21D readers (`getTemp_C`, `getHumidity`) -/

namespace DRV_HTU21D

/-- The converted temperature is above every sentinel. -/
theorem temp_conversion_gt (r : Nat) :
    (-100 : ℚ) < ((17572 / 100) * (r : ℚ)) / 65536 - 4685 / 100 := by
  have h : (0 : ℚ) ≤ ((17572 / 100) * (r : ℚ)) / 65536 := by positivity
  linarith

/-- The converted humidity is above every sentinel. -/
theorem hum_conversion_gt (r : Nat) : (-100 : ℚ) < (125 * (r : ℚ)) / 65536 - 6 := by
  have h : (0 : ℚ) ≤ (125 * (r : ℚ)) / 65536 := by positivity
  linarith

/-- The four outcomes of `getTemp_C`. -/
theorem getTemp_C_cases (n b0 b1 crc : Nat) :
    getTemp_C n b0 b1 crc =
      if 2 < n then
        if check_crc8 (rawWord b0 b1) (u8 crc) = 0 then
          if rawWord b0 b1 &&& 0x02 ≠ 0 then -990
          else ((17572 / 100) * ((rawWord b0 b1 &&& 0xFFFC : Nat) : ℚ)) / 65536 - 4685 / 100
        else -998
      else -999 := by
  unfold getTemp_C rawWord
  by_cases h : 2 < n
  · by_cases hc : check_crc8 (u16 (u16 (u16 b0 <<< 8) ||| b1)) (u8 crc) = 0
    · simp only [h, if_true, hc]
    · have hc' : ¬ (0 = check_crc8 (u16 (u16 (u16 b0 <<< 8) ||| b1)) (u8 crc)) := fun e => hc e.symm
      simp only [h, if_true, hc, hc', if_false]
  · simp only [h, if_false]

/-- The four outcomes of `getHumidity`. -/
theorem getHumidity_cases (n b0 b1 crc : Nat) :
    getHumidity n b0 b1 crc =
      if 2 < n then
        if check_crc8 (rawWord b0 b1) (u8 crc) = 0 then
          if rawWord b0 b1 &&& 0x02 ≠ 0 then
            (125 * ((rawWord b0 b1 &&& 0xFFFC : Nat) : ℚ)) / 65536 - 6
          else -990
        else -998
      else -999 := by
  unfold getHumidity rawWord
  by_cases h : 2 < n
  · by_cases hc : check_crc8 (u16 (u16 (u16 b0 <<< 8) ||| b1)) (u8 crc) = 0
    · simp only [h, if_true, hc]
    · have hc' : ¬ (0 = check_crc8 (u16 (u16 (u16 b0 <<< 8) ||| b1)) (u8 crc)) := fun e => hc e.symm
      simp only [h, if_true, hc, hc', if_false]
  · simp only [h, if_false]

/-- C23: with the I2C read given as the number of bytes received, the two
data bytes and the check byte, `getTemp_C` and `getHumidity` return -999
exactly when fewer than 3 bytes were received, -998 exactly when 3 bytes were
received and `check_crc8` is non-zero, -990 exactly when the check passes and
bit 1 of the word does not match the reader (set for `getTemp_C`, clear for
`getHumidity`), and otherwise the converted measurement; so a frame that
passes the check is converted by exactly one of the two readers. -/
theorem htu21d_sentinels (n b0 b1 crc : Nat) :
    (getTemp_C n b0 b1 crc = -999 ↔ ¬ 2 < n) ∧
    (getTemp_C n b0 b1 crc = -998 ↔ 2 < n ∧ check_crc8 (rawWord b0 b1) (u8 crc) ≠ 0) ∧
    (getTemp_C n b0 b1 crc = -990 ↔
      2 < n ∧ check_crc8 (rawWord b0 b1) (u8 crc) = 0 ∧ rawWord b0 b1 &&& 0x02 ≠ 0) ∧
    (getTemp_C n b0 b1 crc =
        ((17572 / 100) * ((rawWord b0 b1 &&& 0xFFFC : Nat) : ℚ)) / 65536 - 4685 / 100 ↔
      2 < n ∧ check_crc8 (rawWord b0 b1) (u8 crc) = 0 ∧ rawWord b0 b1 &&& 0x02 = 0) ∧
    (getHumidity n b0 b1 crc = -999 ↔ ¬ 2 < n) ∧
    (getHumidity n b0 b1 crc = -998 ↔ 2 < n ∧ check_crc8 (rawWord b0 b1) (u8 crc) ≠ 0) ∧
    (getHumidity n b0 b1 crc = -990 ↔
      2 < n ∧ check_crc8 (rawWord b0 b1) (u8 crc) = 0 ∧ rawWord b0 b1 &&& 0x02 = 0) ∧
    (getHumidity n b0 b1 crc =
        (125 * ((rawWord b0 b1 &&& 0xFFFC : Nat) : ℚ)) / 65536 - 6 ↔
      2 < n ∧ check_crc8 (rawWord b0 b1) (u8 crc) = 0 ∧ rawWord b0 b1 &&& 0x02 ≠ 0) ∧
    ((2 < n ∧ check_crc8 (rawWord b0 b1) (u8 crc) = 0) ↔
      (getTemp_C n b0 b1 crc = -990 ∧ -100 < getHumidity n b0 b1 crc) ∨
      (getHumidity n b0 b1 crc = -990 ∧ -100 < getTemp_C n b0 b1 crc)) := by
  have ht := temp_conversion_gt (rawWord b0 b1 &&& 0xFFFC)
  have hh := hum_conversion_gt (rawWord b0 b1 &&& 0xFFFC)
  rw [getTemp_C_cases, getHumidity_cases]
  generalize ((17572 / 100) * ((rawWord b0 b1 &&& 0xFFFC : Nat) : ℚ)) / 65536 - 4685 / 100 = cT
    at ht ⊢
  generalize (125 * ((rawWord b0 b1 &&& 0xFFFC : Nat) : ℚ)) / 65536 - 6 = cH at hh ⊢
  have t1 : cT ≠ -999 := by intro e; rw [e] at ht; norm_num at ht
  have t2 : cT ≠ -998 := by intro e; rw [e] at ht; norm_num at ht
  have t3 : cT ≠ -990 := by intro e; rw [e] at ht; norm_num at ht
  have t4 : (-990 : ℚ) ≠ cT := fun e => t3 e.symm
  have t5 : (-998 : ℚ) ≠ cT := fun e => t2 e.symm
  have t6 : (-999 : ℚ) ≠ cT := fun e => t1 e.symm
  have u1 : cH ≠ -999 := by intro e; rw [e] at hh; norm_num at hh
  have u2 : cH ≠ -998 := by intro e; rw [e] at hh; norm_num at hh
  have u3 : cH ≠ -990 := by intro e; rw [e] at hh; norm_num at hh
  have u4 : (-990 : ℚ) ≠ cH := fun e => u3 e.symm
  have u5 : (-998 : ℚ) ≠ cH := fun e => u2 e.symm
  have u6 : (-999 : ℚ) ≠ cH := fun e => u1 e.symm
  by_cases h : 2 < n <;> by_cases hc : check_crc8 (rawWord b0 b1) (u8 crc) = 0 <;>
    by_cases hb : rawWord b0 b1 &&& 0x02 = 0 <;>
    norm_num [h, hc, hb, ht, hh, t1, t2, t3, t4, t5, t6, u1, u2, u3, u4, u5, u6]

end DRV_HTU21D

/-! ## The resolution bits of the HTU21D user register (`setResolution`) -/

namespace DRV_HTU21D

set_option maxRecDepth 100000 in
/-- The register arithmetic of `setResolution`, for every 8-bit register. -/
theorem resolution_bits : ∀ r, r < 256 →
    ((r &&& 126) &&& 126 = r &&& 126 ∧ (r &&& 126).testBit 7 = false ∧
      (r &&& 126).testBit 0 = false ∧ (r &&& 126) &&& 126 = r &&& 126) ∧
    (((r &&& 126) ||| 1) &&& 126 = r &&& 126 ∧ ((r &&& 126) ||| 1).testBit 7 = false ∧
      ((r &&& 126) ||| 1).testBit 0 = true ∧
      (((r &&& 126) ||| 1) &&& 126) ||| 1 = (r &&& 126) ||| 1) ∧
    (((r &&& 126) ||| 128) &&& 126 = r &&& 126 ∧ ((r &&& 126) ||| 128).testBit 7 = true ∧
      ((r &&& 126) ||| 128).testBit 0 = false ∧
      (((r &&& 126) ||| 128) &&& 126) ||| 128 = (r &&& 126) ||| 128) ∧
    (((r &&& 126) ||| 129) &&& 126 = r &&& 126 ∧ ((r &&& 126) ||| 129).testBit 7 = true ∧
      ((r &&& 126) ||| 129).testBit 0 = true ∧
      (((r &&& 126) ||| 129) &&& 126) ||| 129 = (r &&& 126) ||| 129) := by
  decide

/-- The register after `setResolution`, option by option. -/
theorem setResolution_register (opt : Nat) (s : DRV_HTU21D) :
    (setResolution opt s).user_register =
      if opt = 1 then (s.user_register &&& 126) ||| 1
      else if opt = 2 then (s.user_register &&& 126) ||| 128
      else if opt = 3 then (s.user_register &&& 126) ||| 129
      else s.user_register &&& 126 := by
  unfold setResolution DRV_HTU21D_LORES DRV_HTU21D_MIDRES DRV_HTU21D_HIRES
  by_cases h1 : opt = 1
  · subst h1; rfl
  · by_cases h2 : opt = 2
    · subst h2; rfl
    · by_cases h3 : opt = 3
      · subst h3; rfl
      · have e1 : ¬ (1 = opt) := fun e => h1 e.symm
        have e2 : ¬ (2 = opt) := fun e => h2 e.symm
        have e3 : ¬ (3 = opt) := fun e => h3 e.symm
        simp only [e1, e2, e3, h1, h2, h3, if_false]

/-- C26: for every 8-bit `user_register`, `setResolution` leaves bits 1..6
unchanged, sets bits (7, 0) to (0, 0) for `MAXRES`, (0, 1) for `LORES`,
(1, 0) for `MIDRES` and (1, 1) for `HIRES`, sets `config_changed`, and a
second call with the same option changes nothing. -/
theorem setResolution_bits (opt : Nat) (s : DRV_HTU21D) (hr : s.user_register < 256) :
    (setResolution opt s).user_register &&& 0b01111110 = s.user_register &&& 0b01111110 ∧
    (opt = DRV_HTU21D_MAXRES → (setResolution opt s).user_register.testBit 7 = false ∧
      (setResolution opt s).user_register.testBit 0 = false) ∧
    (opt = DRV_HTU21D_LORES → (setResolution opt s).user_register.testBit 7 = false ∧
      (setResolution opt s).user_register.testBit 0 = true) ∧
    (opt = DRV_HTU21D_MIDRES → (setResolution opt s).user_register.testBit 7 = true ∧
      (setResolution opt s).user_register.testBit 0 = false) ∧
    (opt = DRV_HTU21D_HIRES → (setResolution opt s).user_register.testBit 7 = true ∧
      (setResolution opt s).user_register.testBit 0 = true) ∧
    (setResolution opt s).config_changed = true ∧
    setResolution opt (setResolution opt s) = setResolution opt s := by
  have hb := resolution_bits s.user_register hr
  have hidem : (setResolution opt (setResolution opt s)).user_register =
      (setResolution opt s).user_register := by
    rw [setResolution_register opt (setResolution opt s), setResolution_register opt s]
    by_cases h1 : opt = 1
    · simp only [h1, if_true]; exact hb.2.1.2.2.2
    · by_cases h2 : opt = 2
      · simp only [h2, if_true]
        rw [if_neg (by decide)]
        exact hb.2.2.1.2.2.2
      · by_cases h3 : opt = 3
        · simp only [h3, if_true]
          rw [if_neg (by decide), if_neg (by decide)]
          exact hb.2.2.2.2.2.2
        · simp only [h1, h2, h3, if_false]
          exact hb.1.2.2.2
  refine ⟨?_, ?_, ?_, ?_, ?_, rfl, ?_⟩
  · rw [setResolution_register]
    by_cases h1 : opt = 1
    · simp only [h1, if_true]; exact hb.2.1.1
    · by_cases h2 : opt = 2
      · simp only [h2, if_true]
        rw [if_neg (by decide)]
        exact hb.2.2.1.1
      · by_cases h3 : opt = 3
        · simp only [h3, if_true]
          rw [if_neg (by decide), if_neg (by decide)]
          exact hb.2.2.2.1
        · simp only [h1, h2, h3, if_false]
          exact hb.1.1
  · intro h
    rw [setResolution_register, h]
    exact ⟨hb.1.2.1, hb.1.2.2.1⟩
  · intro h
    rw [setResolution_register, h]
    exact ⟨hb.2.1.2.1, hb.2.1.2.2.1⟩
  · intro h
    rw [setResolution_register, h]
    exact ⟨hb.2.2.1.2.1, hb.2.2.1.2.2.1⟩
  · intro h
    rw [setResolution_register, h]
    exact ⟨hb.2.2.2.2.1, hb.2.2.2.2.2.1⟩
  · have hcc : (setResolution opt (setResolution opt s)).config_changed =
        (setResolution opt s).config_changed := rfl
    cases hs1 : setResolution opt (setResolution opt s) with
    | mk r1 c1 =>
      cases hs2 : setResolution opt s with
      | mk r2 c2 =>
        rw [hs1, hs2] at hidem hcc
        simp only at hidem hcc
        rw [hidem, hcc]

/-- Witness for C26: the register 0x7F set to medium resolution becomes 0xFE. -/
theorem setResolution_bits_witness :
    (({ user_register := 0x7F, config_changed := false } : DRV_HTU21D).user_register < 256) ∧
    (setResolution DRV_HTU21D_MIDRES { user_register := 0x7F, config_changed := false }).user_register
      = 0xFE ∧
    (setResolution DRV_HTU21D_MIDRES
      { user_register := 0x7F, config_changed := false }).config_changed = true := by
  have h := setResolution_bits DRV_HTU21D_MIDRES { user_register := 0x7F, config_changed := false }
    (by decide)
  exact ⟨by decide, by decide, h.2.2.2.2.2.1⟩

end DRV_HTU21D

/-! ## Independence of the wind and rain subsystems -/

namespace WSA80422

/-- A wind tick whose 5-second index is outside its ring, or which completes
a window with the 2-minute index outside its ring, does not return. -/
theorem wind_tick_none (adc : Nat) (jx jy : Int) (js : Nat) (s : WSA80422)
    (h : ¬ s.idx5s < 4) (h2 : ¬ (s.idx5s = 4 ∧ s.idx2m < 24)) :
    wind_calcs_per_second adc jx jy js s = none := by
  by_cases h5 : s.idx5s < 5
  · have h4 : s.idx5s = 4 := by omega
    have hm : ¬ s.idx2m < 24 := fun hm => h2 ⟨h4, hm⟩
    have hu : u8 (4 + 1) = 5 := by decide
    simp only [wind_calcs_per_second, table_x_lookup, table_y_lookup, resetWindAcc, h4, hu, hm,
      if_true, if_false, (by decide : (4 : Nat) < 5)]
  · simp only [wind_calcs_per_second, table_x_lookup, table_y_lookup, resetWindAcc, h5, if_false]

/-- A rain tick whose 1-minute index is outside its ring does not return. -/
theorem rain_tick_none (s : WSA80422) (h : ¬ s.rf_idx1m < 60) :
    rain_calcs_per_minute s = none := by
  simp only [rain_calcs_per_minute, h, if_false]

/-- A wind tick that returns leaves the rain fields as they were. -/
theorem wind_tick_rain_frame (adc : Nat) (jx jy : Int) (js : Nat) (s s' : WSA80422)
    (h : wind_calcs_per_second adc jx jy js s = some s') : same_rain_fields s s' := by
  by_cases h4 : s.idx5s < 4
  · rw [wind_tick_lt4 adc jx jy js s h4] at h
    cases h
    exact ⟨rfl, rfl, rfl, rfl, rfl, rfl, rfl⟩
  · by_cases h2 : s.idx5s = 4 ∧ s.idx2m < 24
    · rw [wind_tick_eq4 adc jx jy js s h2.1 h2.2] at h
      cases h
      exact ⟨rfl, rfl, rfl, rfl, rfl, rfl, rfl⟩
    · rw [wind_tick_none adc jx jy js s h4 h2] at h
      cases h

/-- A rain tick that returns leaves the wind fields as they were. -/
theorem rain_tick_wind_frame (s s' : WSA80422) (h : rain_calcs_per_minute s = some s') :
    same_wind_fields s s' := by
  by_cases h59 : s.rf_idx1m < 59
  · rw [rain_tick_lt59 s h59] at h
    cases h
    exact ⟨rfl, rfl, rfl, rfl, rfl, rfl, rfl, rfl, rfl, rfl, rfl, rfl⟩
  · by_cases he : s.rf_idx1m = 59
    · rw [rain_tick_eq59 s he] at h
      cases h
      exact ⟨rfl, rfl, rfl, rfl, rfl, rfl, rfl, rfl, rfl, rfl, rfl, rfl⟩
    · rw [rain_tick_none s (by omega)] at h
      cases h

/-- A wind tick and a rain tick commute, also when one of them does not
return. -/
theorem ticks_commute (adc : Nat) (jx jy : Int) (js : Nat) (s : WSA80422) :
    (rain_calcs_per_minute s).bind (wind_calcs_per_second adc jx jy js) =
      (wind_calcs_per_second adc jx jy js s).bind rain_calcs_per_minute := by
  by_cases h4 : s.idx5s < 4
  · rw [wind_tick_lt4 adc jx jy js s h4]
    by_cases h59 : s.rf_idx1m < 59
    · rw [rain_tick_lt59 s h59]
      simp only [Option.some_bind]
      rw [wind_tick_lt4 adc jx jy js _ (by exact h4), rain_tick_lt59 _ (by exact h59)]
      rfl
    · by_cases he : s.rf_idx1m = 59
      · rw [rain_tick_eq59 s he]
        simp only [Option.some_bind]
        rw [wind_tick_lt4 adc jx jy js _ (by exact h4), rain_tick_eq59 _ (by exact he)]
        rfl
      · rw [rain_tick_none s (by omega)]
        simp only [Option.some_bind, Option.none_bind]
        rw [rain_tick_none _ (by show ¬ s.rf_idx1m < 60; omega)]
  · by_cases h2 : s.idx5s = 4 ∧ s.idx2m < 24
    · rw [wind_tick_eq4 adc jx jy js s h2.1 h2.2]
      by_cases h59 : s.rf_idx1m < 59
      · rw [rain_tick_lt59 s h59]
        simp only [Option.some_bind]
        rw [wind_tick_eq4 adc jx jy js _ (by exact h2.1) (by exact h2.2), rain_tick_lt59 _ (by exact h59)]
        rfl
      · by_cases he : s.rf_idx1m = 59
        · rw [rain_tick_eq59 s he]
          simp only [Option.some_bind]
          rw [wind_tick_eq4 adc jx jy js _ (by exact h2.1) (by exact h2.2), rain_tick_eq59 _ (by exact he)]
          rfl
        · rw [rain_tick_none s (by omega)]
          simp only [Option.some_bind, Option.none_bind]
          rw [rain_tick_none _ (by show ¬ s.rf_idx1m < 60; omega)]
    · rw [wind_tick_none adc jx jy js s h4 h2]
      simp only [Option.none_bind]
      by_cases h59 : s.rf_idx1m < 59
      · rw [rain_tick_lt59 s h59]
        simp only [Option.some_bind]
        exact wind_tick_none adc jx jy js _ (by exact h4) (by exact h2)
      · by_cases he : s.rf_idx1m = 59
        · rw [rain_tick_eq59 s he]
          simp only [Option.some_bind]
          exact wind_tick_none adc jx jy js _ (by exact h4) (by exact h2)
        · rw [rain_tick_none s (by omega)]
          rfl

/-- The two interrupt handlers commute. -/
theorem handlers_commute (t u : Nat) (s : WSA80422) :
    windIRQ_CB t (rainIRQ_CB u s) = rainIRQ_CB u (windIRQ_CB t s) := by
  unfold windIRQ_CB rainIRQ_CB windIRQ_accepts rainIRQ_accepts
  by_cases a : sub32 t s.time_of_last_wind_read > s.wind_input_debounce_period <;>
    by_cases b : sub32 u s.time_of_last_rain_read > s.rain_input_debounce_period <;>
    simp [a, b]

/-- An accepted wind closure. -/
theorem windIRQ_CB_of_accepts (t : Nat) (s : WSA80422) (h : windIRQ_accepts t s = true) :
    windIRQ_CB t s = { s with time_of_last_wind_read := t
                              wind_count := u16 (s.wind_count + 1) } := by
  simp only [windIRQ_CB, h, if_true]

/-- An accepted rain closure. -/
theorem rainIRQ_CB_of_accepts (t : Nat) (s : WSA80422) (h : rainIRQ_accepts t s = true) :
    rainIRQ_CB t s = { s with time_of_last_rain_read := t
                              rain_fall_acc := u16 (s.rain_fall_acc + 11) } := by
  simp only [rainIRQ_CB, h, if_true]

/-- A handler of one subsystem commutes with the tick of the other. -/
theorem handler_tick_commute (t : Nat) (adc : Nat) (jx jy : Int) (js : Nat) (s : WSA80422) :
    rain_calcs_per_minute (windIRQ_CB t s) = (rain_calcs_per_minute s).map (windIRQ_CB t) ∧
    wind_calcs_per_second adc jx jy js (rainIRQ_CB t s) =
      (wind_calcs_per_second adc jx jy js s).map (rainIRQ_CB t) := by
  constructor
  · by_cases a : windIRQ_accepts t s = true
    · have e : windIRQ_CB t s = { s with time_of_last_wind_read := t
                                         wind_count := u16 (s.wind_count + 1) } := by
        simp only [windIRQ_CB, a, if_true]
      rw [e]
      by_cases h59 : s.rf_idx1m < 59
      · rw [rain_tick_lt59 s h59, rain_tick_lt59 _ (by exact h59)]
        rw [Option.map_some', windIRQ_CB_of_accepts t _ (by exact a)]
        rfl
      · by_cases he : s.rf_idx1m = 59
        · rw [rain_tick_eq59 s he, rain_tick_eq59 _ (by exact he)]
          rw [Option.map_some', windIRQ_CB_of_accepts t _ (by exact a)]
          rfl
        · rw [rain_tick_none s (by omega), rain_tick_none _ (by show ¬ s.rf_idx1m < 60; omega)]
          rfl
    · have e : windIRQ_CB t s = s := by simp only [windIRQ_CB, a]; rfl
      have e2 : ∀ r : WSA80422, rain_calcs_per_minute s = some r → windIRQ_CB t r = r := by
        intro r hr
        have hf := rain_tick_wind_frame s r hr
        have hacc : windIRQ_accepts t r = windIRQ_accepts t s := by
          unfold windIRQ_accepts
          rw [hf.2.1, hf.2.2.2.1]
        simp only [windIRQ_CB, hacc, a]
        rfl
      rw [e]
      cases hr : rain_calcs_per_minute s with
      | none => rfl
      | some r => rw [Option.map_some', e2 r hr]
  · by_cases b : rainIRQ_accepts t s = true
    · have e : rainIRQ_CB t s = { s with time_of_last_rain_read := t
                                         rain_fall_acc := u16 (s.rain_fall_acc + 11) } := by
        simp only [rainIRQ_CB, b, if_true]
      rw [e]
      by_cases h4 : s.idx5s < 4
      · rw [wind_tick_lt4 adc jx jy js s h4, wind_tick_lt4 adc jx jy js _ (by exact h4)]
        rw [Option.map_some', rainIRQ_CB_of_accepts t _ (by exact b)]
        rfl
      · by_cases h2 : s.idx5s = 4 ∧ s.idx2m < 24
        · rw [wind_tick_eq4 adc jx jy js s h2.1 h2.2,
            wind_tick_eq4 adc jx jy js _ (by exact h2.1) (by exact h2.2)]
          rw [Option.map_some', rainIRQ_CB_of_accepts t _ (by exact b)]
          rfl
        · rw [wind_tick_none adc jx jy js s h4 h2,
            wind_tick_none adc jx jy js _ (by exact h4) (by exact h2)]
          rfl
    · have e : rainIRQ_CB t s = s := by simp only [rainIRQ_CB, b]; rfl
      have e2 : ∀ r : WSA80422, wind_calcs_per_second adc jx jy js s = some r →
          rainIRQ_CB t r = r := by
        intro r hr
        have hf := wind_tick_rain_frame adc jx jy js s r hr
        have hacc : rainIRQ_accepts t r = rainIRQ_accepts t s := by
          unfold rainIRQ_accepts
          rw [hf.2.1, hf.2.2.2.2.2.2]
        simp only [rainIRQ_CB, hacc, b]
        rfl
      rw [e]
      cases hr : wind_calcs_per_second adc jx jy js s with
      | none => rfl
      | some r => rw [Option.map_some', e2 r hr]

/-- While the ring indices are inside their rings the two subsystems are
independent: `windIRQ_CB` and a `wind_calcs_per_second` that returns leave
every rain field (`rain_fall_acc`, `time_of_last_rain_read`, `acc_rain_1m`,
`acc_rain_1hr`, `rf_idx1m`, `rf_idx1hr`, and the rain debounce period)
unchanged; `rainIRQ_CB` and a `rain_calcs_per_minute` that returns leave every
wind field unchanged; a wind tick and a rain tick applied in either order give
the same result (the same final state, or an access outside a ring in both
orders), and so do the two handlers, and a handler of one subsystem and the
tick of the other. -/
theorem wind_and_rain_independent_in_rings :
    (∀ (t : Nat) (s : WSA80422), same_rain_fields s (windIRQ_CB t s)) ∧
    (∀ (adc : Nat) (jx jy : Int) (js : Nat) (s s' : WSA80422),
      wind_calcs_per_second adc jx jy js s = some s' → same_rain_fields s s') ∧
    (∀ (t : Nat) (s : WSA80422), same_wind_fields s (rainIRQ_CB t s)) ∧
    (∀ s s' : WSA80422, rain_calcs_per_minute s = some s' → same_wind_fields s s') ∧
    (∀ (adc : Nat) (jx jy : Int) (js : Nat) (s : WSA80422),
      (rain_calcs_per_minute s).bind (wind_calcs_per_second adc jx jy js) =
        (wind_calcs_per_second adc jx jy js s).bind rain_calcs_per_minute) ∧
    (∀ (t u : Nat) (s : WSA80422), windIRQ_CB t (rainIRQ_CB u s) = rainIRQ_CB u (windIRQ_CB t s)) ∧
    (∀ (t adc : Nat) (jx jy : Int) (js : Nat) (s : WSA80422),
      rain_calcs_per_minute (windIRQ_CB t s) = (rain_calcs_per_minute s).map (windIRQ_CB t) ∧
      wind_calcs_per_second adc jx jy js (rainIRQ_CB t s) =
        (wind_calcs_per_second adc jx jy js s).map (rainIRQ_CB t)) := by
  refine ⟨?_, wind_tick_rain_frame, ?_, rain_tick_wind_frame, ticks_commute, handlers_commute,
    handler_tick_commute⟩
  · intro t s
    unfold windIRQ_CB
    split <;> exact ⟨rfl, rfl, rfl, rfl, rfl, rfl, rfl⟩
  · intro t s
    unfold rainIRQ_CB
    split <;> exact ⟨rfl, rfl, rfl, rfl, rfl, rfl, rfl, rfl, rfl, rfl, rfl, rfl⟩

/-- An instance: from the all-zero state, a wind tick reading north
returns and leaves the rain fields as they were, and the two orders of a wind
tick and a rain tick agree on a state that both ticks accept. -/
theorem wind_and_rain_independent_in_rings_example :
    (∃ s', wind_calcs_per_second 900 0 0 0 (zeroState 10 10) = some s' ∧
      same_rain_fields (zeroState 10 10) s') ∧
    (∃ s', rain_calcs_per_minute (zeroState 10 10) = some s' ∧
      same_wind_fields (zeroState 10 10) s') ∧
    (rain_calcs_per_minute (zeroState 10 10)).bind (wind_calcs_per_second 900 0 0 0) =
      (wind_calcs_per_second 900 0 0 0 (zeroState 10 10)).bind rain_calcs_per_minute :=
  ⟨⟨_, wind_tick_lt4 900 0 0 0 (zeroState 10 10) (by decide),
      wind_and_rain_independent_in_rings.2.1 900 0 0 0 (zeroState 10 10) _
        (wind_tick_lt4 900 0 0 0 (zeroState 10 10) (by decide))⟩,
   ⟨_, rain_tick_lt59 (zeroState 10 10) (by decide),
      wind_and_rain_independent_in_rings.2.2.2.1 (zeroState 10 10) _
        (rain_tick_lt59 (zeroState 10 10) (by decide))⟩,
   wind_and_rain_independent_in_rings.2.2.2.2.1 900 0 0 0 (zeroState 10 10)⟩

/-- Inside the 1-minute ring the two embeddings of the rain tick agree. -/
theorem rain_calcs_per_minute_layout_eq (s : WSA80422) (h : s.rf_idx1m < 60) :
    rain_calcs_per_minute_layout s = rain_calcs_per_minute s := by
  simp only [rain_calcs_per_minute_layout, rain_calcs_per_minute, store_acc_rain_1m, h, if_true,
    Option.some_bind]

set_option maxRecDepth 1000000 in
/-- C21 (code at the failing input): `rf_idx1m` is never reset, so from the
zero state it is 60 after 60 calls of `rain_calcs_per_minute` and the 61st
call stores outside `acc_rain_1m`. With the store placed by the member
declarations, `rf_idx1m` is 84 after 84 calls and the 85th call, made with
`rain_fall_acc = 110`, writes 110 to `wind_count`, a wind field. A wind tick
and that rain tick then do not commute: rain tick first, the wind tick stores
the speed 110 * 1492 and leaves `wind_count = 0`; wind tick first, it stores
speed 0 and the rain tick leaves `wind_count = 110`. -/
theorem rain_tick_overwrites_wind_count :
    (rain_ticks (List.replicate 60 110) (zeroState 10 10)).map (fun s => s.rf_idx1m) = some 60 ∧
    (rain_ticks (List.replicate 61 110) (zeroState 10 10)).isSome = false ∧
    (rain_ticks_layout (List.replicate 84 110) (zeroState 10 10)).map
        (fun s => (s.rf_idx1m, s.wind_count)) = some (84, 0) ∧
    (rain_ticks_layout (List.replicate 85 110) (zeroState 10 10)).map
        (fun s => (s.rf_idx1m, s.wind_count)) = some (85, 110) ∧
    ((rain_ticks_layout (List.replicate 85 110) (zeroState 10 10)).bind
        (wind_calcs_per_second 900 0 0 0)).map (fun s => (s.wind_count, s.w_spd_5s 0)) =
      some (0, 164120) ∧
    (((rain_ticks_layout (List.replicate 84 110) (zeroState 10 10)).bind
        (wind_calcs_per_second 900 0 0 0)).bind
        (fun s => rain_calcs_per_minute_layout { s with rain_fall_acc := 110 })).map
        (fun s => (s.wind_count, s.w_spd_5s 0)) =
      some (110, 0) := by
  decide

end WSA80422

/-! ## The words assembled by the MPL3115A2 driver (`getPressure`, `getAltitude`) -/

namespace MPL3115A2

/-- The three bytes assembled by the shifts and ORs of `getPressure` and
`getAltitude`. -/
theorem assemble_bytes (b0 b1 b2 : Nat) (h0 : b0 < 256) (h1 : b1 < 256) (h2 : b2 < 256) :
    (u32 ((u32 (u32 b0 <<< 8) ||| b1) <<< 8) ||| b2) >>> 4 =
      (b0 * 65536 + b1 * 256 + b2) / 16 := by
  have e0 : u32 b0 = b0 := by unfold u32; omega
  have e1 : u32 (b0 <<< 8) = 2 ^ 8 * b0 := by
    rw [Nat.shiftLeft_eq]
    unfold u32
    omega
  have e2 : 2 ^ 8 * b0 ||| b1 = 2 ^ 8 * b0 + b1 := (Nat.mul_add_lt_is_or (by omega) b0).symm
  have e3 : u32 ((2 ^ 8 * b0 + b1) <<< 8) = 2 ^ 8 * (2 ^ 8 * b0 + b1) := by
    rw [Nat.shiftLeft_eq]
    unfold u32
    omega
  have e4 : 2 ^ 8 * (2 ^ 8 * b0 + b1) ||| b2 = 2 ^ 8 * (2 ^ 8 * b0 + b1) + b2 :=
    (Nat.mul_add_lt_is_or (by omega) _).symm
  rw [e0, e1, e2, e3, e4, Nat.shiftRight_eq_div_pow]
  omega

/-- The sign extension of `getAltitude` on a 20-bit value. -/
theorem sign_extend_20 (v : Nat) (hv : v < 1048576) :
    (if v &&& 0x80000 ≠ 0 then v ||| 0xFFF00000 else v) =
      if v.testBit 19 then v + 4293918720 else v := by
  have hb : v &&& 0x80000 ≠ 0 ↔ v.testBit 19 = true := by
    rw [Nat.and_comm]
    exact DRV_HTU21D.two_pow_and_ne_zero 19 v
  have ho : v ||| 0xFFF00000 = v + 4293918720 := by
    rw [Nat.lor_comm]
    have h := (Nat.mul_add_lt_is_or (show v < 2 ^ 20 by omega) 4095).symm
    have e : 2 ^ 20 * 4095 = 0xFFF00000 := by decide
    rw [e] at h
    rw [h]
    omega
  by_cases h : v.testBit 19 = true
  · rw [if_pos (hb.mpr h), if_pos h, ho]
  · rw [if_neg (fun hh => h (hb.mp hh)), if_neg h]

/-- Bit 19 of a 20-bit value is set exactly from `2^19` on. -/
theorem testBit_19 (v : Nat) (hv : v < 1048576) : v.testBit 19 = decide (524288 ≤ v) := by
  rw [Nat.testBit_to_div_mod]
  have e : (2 : Nat) ^ 19 = 524288 := by decide
  rw [e]
  by_cases h : 524288 ≤ v
  · have h1 : v / 524288 % 2 = 1 := by omega
    simp [h, h1]
  · have h1 : ¬ (v / 524288 % 2 = 1) := by omega
    simp [h, h1]

/-- C24: when the data-ready flag is eventually seen and the three bytes read
are `b0`, `b1`, `b2`, `getPressure` returns true with the 20-bit value
`v = (b0 * 65536 + b1 * 256 + b2) >> 4`, `v < 2^20`; `getAltitude` with three
bytes received returns true with a 32-bit word that, read as a two's-complement
integer, is `v` when bit 19 of `v` is clear and `v - 2^20` when it is set, a
value in `[-2^19, 2^19)`; with fewer than three bytes received `getAltitude`
returns false and leaves `*altitude` as it was. -/
theorem mpl3115a2_words (statuses : List Nat) (n b0 b1 b2 old : Nat)
    (h0 : b0 < 256) (h1 : b1 < 256) (h2 : b2 < 256)
    (hp : poll_status MPL3115A2_REGISTER_STATUS_PDR statuses = true) :
    getPressure statuses b0 b1 b2 = some (true, (b0 * 65536 + b1 * 256 + b2) >>> 4) ∧
    (b0 * 65536 + b1 * 256 + b2) >>> 4 < 2 ^ 20 ∧
    (2 < n → ∃ w, getAltitude statuses n b0 b1 b2 old = some (true, w) ∧ w < 2 ^ 32 ∧
      toInt32 w = (if ((b0 * 65536 + b1 * 256 + b2) >>> 4).testBit 19
        then (((b0 * 65536 + b1 * 256 + b2) >>> 4 : Nat) : Int) - 2 ^ 20
        else (((b0 * 65536 + b1 * 256 + b2) >>> 4 : Nat) : Int)) ∧
      -(2 ^ 19) ≤ toInt32 w ∧ toInt32 w < 2 ^ 19) ∧
    (¬ 2 < n → getAltitude statuses n b0 b1 b2 old = some (false, old)) := by
  have hv : (b0 * 65536 + b1 * 256 + b2) / 16 < 1048576 := by omega
  have hs : (b0 * 65536 + b1 * 256 + b2) >>> 4 = (b0 * 65536 + b1 * 256 + b2) / 16 := by
    rw [Nat.shiftRight_eq_div_pow]
  rw [hs]
  generalize hvv : (b0 * 65536 + b1 * 256 + b2) / 16 = v at hv
  refine ⟨?_, by omega, ?_, ?_⟩
  · simp only [getPressure, hp, if_true]
    rw [assemble_bytes b0 b1 b2 h0 h1 h2, hvv]
  · intro hn
    have e : getAltitude statuses n b0 b1 b2 old =
        some (true, if v.testBit 19 then v + 4293918720 else v) := by
      simp only [getAltitude, hp, hn, if_true]
      rw [assemble_bytes b0 b1 b2 h0 h1 h2, hvv, sign_extend_20 v hv]
    rw [testBit_19 v hv] at e ⊢
    by_cases hb : 524288 ≤ v
    · simp only [hb, decide_True, if_true] at e ⊢
      refine ⟨_, e, by omega, ?_⟩
      have hw : ¬ (v + 4293918720 < 2147483648) := by omega
      simp only [toInt32, hw, if_false]
      push_cast
      omega
    · simp only [hb, decide_False, Bool.false_eq_true, if_false] at e ⊢
      refine ⟨_, e, by omega, ?_⟩
      have hw : v < 2147483648 := by omega
      simp only [toInt32, hw, if_true]
      refine ⟨trivial, ?_, ?_⟩
      · omega
      · omega
  · intro hn
    simp only [getAltitude, hp, hn, if_true, if_false]

/-- Witness for C24: the bytes 0xF8 0x00 0x10 after one busy status read give
pressure word 0xF8001 and altitude word 0xFFFF8001, which is -32767. -/
theorem mpl3115a2_words_witness :
    ((0xF8 : Nat) < 256 ∧ (0x00 : Nat) < 256 ∧ (0x10 : Nat) < 256 ∧
      poll_status MPL3115A2_REGISTER_STATUS_PDR [0, 4] = true) ∧
    getPressure [0, 4] 0xF8 0x00 0x10 = some (true, 0xF8001) ∧
    getAltitude [0, 4] 3 0xF8 0x00 0x10 7 = some (true, 0xFFFF8001) ∧
    toInt32 0xFFFF8001 = -32767 ∧
    getAltitude [0, 4] 2 0xF8 0x00 0x10 7 = some (false, 7) :=
  ⟨⟨by decide, by decide, by decide, by decide⟩,
   (mpl3115a2_words [0, 4] 3 0xF8 0x00 0x10 7 (by decide) (by decide) (by decide)
      (by decide)).1.trans (by decide),
   by decide, by decide,
   (mpl3115a2_words [0, 4] 2 0xF8 0x00 0x10 7 (by decide) (by decide) (by decide)
      (by decide)).2.2.2 (by decide)⟩

end MPL3115A2

/-! ## The documented rainfall records in 16 bits -/

namespace WSA80422

set_option maxRecDepth 100000 in
/-- C25 (code at the failing input): 1500 and 12000 fit in a `uint16_t`, 71900
does not (it is stored as 6364); on an hourly ring whose slots hold five times
12000 and once 11900, true sum 71900, `get_last_a1hr_24hr_rain` returns
`rain_day = 6364`. -/
theorem day_record_does_not_fit_uint16 :
    u16 1500 = 1500 ∧ u16 12000 = 12000 ∧ u16 71900 = 6364 ∧
    ((List.range 24).map recordDayRing.acc_rain_1hr).sum = 71900 ∧
    get_last_a1hr_24hr_rain recordDayRing = some (11900, 6364) := by
  decide

end WSA80422

/-! ## The rain accumulator between two drains -/

namespace WSA80422

/-- An accepted rain closure keeps the debounce period, and a rejected one
keeps the whole state. -/
theorem rainIRQ_CB_fields (t : Nat) (s : WSA80422) :
    (rainIRQ_CB t s).rain_input_debounce_period = s.rain_input_debounce_period ∧
    (rainIRQ_accepts t s = true → (rainIRQ_CB t s).time_of_last_rain_read = t) ∧
    (rainIRQ_accepts t s = false → rainIRQ_CB t s = s) := by
  by_cases h : rainIRQ_accepts t s = true
  · have e : rainIRQ_CB t s = { s with time_of_last_rain_read := t
                                       rain_fall_acc := u16 (s.rain_fall_acc + 11) } := by
      simp only [rainIRQ_CB, h, if_true]
    rw [e]
    exact ⟨rfl, fun _ => rfl, fun hh => by rw [h] at hh; cases hh⟩
  · have e : rainIRQ_CB t s = s := by simp [rainIRQ_CB, h]
    rw [e]
    exact ⟨rfl, fun hh => absurd hh h, fun _ => rfl⟩

/-- After a closure at `a`, accepted closures are at least 11 ms apart, so
non-decreasing timestamps in `[a, hi]` hold at most `(hi - a) / 11` accepted
closures. -/
theorem rain_accepted_after (ts : List Nat) (hi : Nat) :
    ∀ (s : WSA80422), s.rain_input_debounce_period = 10 →
      s.time_of_last_rain_read ≤ hi → hi < 4294967296 →
      (∀ t ∈ ts, s.time_of_last_rain_read ≤ t ∧ t ≤ hi) → ts.Pairwise (fun a b => a ≤ b) →
      s.time_of_last_rain_read + 11 * rain_accepted ts s ≤ hi := by
  induction ts with
  | nil =>
    intro s _ ha _ _ _
    simp only [rain_accepted]
    omega
  | cons t ts ih =>
    intro s hp ha hhi hall hsort
    have ht := hall t (List.mem_cons_self t ts)
    have hrest : ∀ u ∈ ts, t ≤ u ∧ u ≤ hi := fun u hu =>
      ⟨(List.pairwise_cons.mp hsort).1 u hu, (hall u (List.mem_cons_of_mem t hu)).2⟩
    have hsort2 := (List.pairwise_cons.mp hsort).2
    have hf := rainIRQ_CB_fields t s
    simp only [rain_accepted]
    by_cases hacc : rainIRQ_accepts t s = true
    · have hd : 10 < t - s.time_of_last_rain_read := by
        have h := hacc
        unfold rainIRQ_accepts at h
        rw [sub32_eq t _ (by omega) (by omega), if_pos ht.1, hp] at h
        exact of_decide_eq_true h
      have hlast := hf.2.1 hacc
      have h := ih (rainIRQ_CB t s) (by rw [hf.1, hp]) (by rw [hlast]; exact ht.2) hhi
        (by rw [hlast]; exact hrest) hsort2
      rw [hlast] at h
      simp only [hacc, if_true]
      omega
    · have hfalse : rainIRQ_accepts t s = false := by simpa using hacc
      rw [hf.2.2 hfalse]
      have h := ih s hp ha hhi
        (fun u hu => ⟨le_trans ht.1 (hrest u hu).1, (hrest u hu).2⟩) hsort2
      simp only [hfalse, Bool.false_eq_true, if_false]
      omega

/-- Whatever the time of the last accepted closure, non-decreasing timestamps
in `[lo, hi]` hold at most `1 + (hi - lo) / 11` accepted closures. -/
theorem rain_accepted_window (ts : List Nat) (lo hi : Nat) :
    ∀ (s : WSA80422), s.rain_input_debounce_period = 10 → hi < 4294967296 →
      (∀ t ∈ ts, lo ≤ t ∧ t ≤ hi) → ts.Pairwise (fun a b => a ≤ b) →
      lo + 11 * rain_accepted ts s ≤ hi + 11 ∨ rain_accepted ts s = 0 := by
  induction ts with
  | nil =>
    intro s _ _ _ _
    exact Or.inr rfl
  | cons t ts ih =>
    intro s hp hhi hall hsort
    have ht := hall t (List.mem_cons_self t ts)
    have hrest : ∀ u ∈ ts, t ≤ u ∧ u ≤ hi := fun u hu =>
      ⟨(List.pairwise_cons.mp hsort).1 u hu, (hall u (List.mem_cons_of_mem t hu)).2⟩
    have hsort2 := (List.pairwise_cons.mp hsort).2
    have hf := rainIRQ_CB_fields t s
    simp only [rain_accepted]
    by_cases hacc : rainIRQ_accepts t s = true
    · have hlast := hf.2.1 hacc
      have h := rain_accepted_after ts hi (rainIRQ_CB t s) (by rw [hf.1, hp])
        (by rw [hlast]; exact ht.2) hhi (by rw [hlast]; exact hrest) hsort2
      rw [hlast] at h
      simp only [hacc, if_true]
      left
      omega
    · have hfalse : rainIRQ_accepts t s = false := by simpa using hacc
      rw [hf.2.2 hfalse]
      have h := ih s hp hhi (fun u hu => hall u (List.mem_cons_of_mem t hu)) hsort2
      simp only [hfalse, Bool.false_eq_true, if_false]
      omega

/-- C28: with debounce period 10 ms and `rain_fall_acc = 0`, for every
sequence of closures with non-decreasing 32-bit timestamps of which any two
are at most 60000 ms apart, `rain_fall_acc` after the sequence is 11 times the
number of accepted closures, as a natural number: at most 5455 closures are
accepted and the total stays below 65536. -/
theorem rain_acc_cannot_wrap_in_a_minute (ts : List Nat) (s : WSA80422)
    (hp : s.rain_input_debounce_period = 10) (h0 : s.rain_fall_acc = 0)
    (hsort : ts.Pairwise (fun a b => a ≤ b))
    (hspan : ∀ t ∈ ts, ∀ u ∈ ts, u ≤ t + 60000) (hlt : ∀ t ∈ ts, t < 4294967296) :
    (rain_closures ts s).rain_fall_acc = 11 * rain_accepted ts s ∧
    rain_accepted ts s ≤ 5455 ∧ 11 * rain_accepted ts s < 65536 := by
  have hcount : rain_accepted ts s ≤ 5455 := by
    cases ts with
    | nil => simp only [rain_accepted]; omega
    | cons t0 rest =>
      have hmem0 : t0 ∈ t0 :: rest := List.mem_cons_self t0 rest
      by_cases hbig : t0 + 60000 < 4294967296
      · have h := rain_accepted_window (t0 :: rest) t0 (t0 + 60000) s hp hbig
          (fun u hu => by
            refine ⟨?_, hspan t0 hmem0 u hu⟩
            rcases List.mem_cons.mp hu with e | e
            · omega
            · exact (List.pairwise_cons.mp hsort).1 u e) hsort
        omega
      · have h := rain_accepted_window (t0 :: rest) t0 4294967295 s hp (by omega)
          (fun u hu => by
            refine ⟨?_, by have := hlt u hu; omega⟩
            rcases List.mem_cons.mp hu with e | e
            · omega
            · exact (List.pairwise_cons.mp hsort).1 u e) hsort
        omega
  have hacc := rain_closures_acc ts s (by omega)
  rw [h0] at hacc
  refine ⟨?_, hcount, by omega⟩
  rw [hacc]
  omega

/-- Witness for C28: four closures from the all-zero state, of which the
second comes 5 ms after the first and is rejected. -/
theorem rain_acc_cannot_wrap_in_a_minute_witness :
    ((zeroState 10 10).rain_input_debounce_period = 10 ∧ (zeroState 10 10).rain_fall_acc = 0 ∧
      [100, 105, 120, 60100].Pairwise (fun a b => a ≤ b) ∧
      (∀ t ∈ [100, 105, 120, 60100], ∀ u ∈ [100, 105, 120, 60100], u ≤ t + 60000) ∧
      (∀ t ∈ [100, 105, 120, 60100], t < 4294967296)) ∧
    rain_accepted [100, 105, 120, 60100] (zeroState 10 10) = 3 ∧
    (rain_closures [100, 105, 120, 60100] (zeroState 10 10)).rain_fall_acc = 33 :=
  ⟨⟨rfl, rfl, by decide, by decide, by decide⟩, by decide,
   (rain_acc_cannot_wrap_in_a_minute [100, 105, 120, 60100] (zeroState 10 10) rfl rfl
      (by decide) (by decide) (by decide)).1.trans (by decide)⟩

end WSA80422

/-! ## The fixed-width sums of the wind tick -/

namespace WSA80422

/-- A 16-bit pulse count times 1492 fits in 32 bits. -/
theorem speed_fits (c : Nat) (h : c < 65536) : u32 (c * 1492) = c * 1492 := by
  unfold u32
  omega

/-- The sum of five speeds of 16-bit pulse counts, accumulated in 32 bits from
0, is exact. -/
theorem five_speeds_fit (c1 c2 c3 c4 c5 : Nat) (h1 : c1 < 65536) (h2 : c2 < 65536)
    (h3 : c3 < 65536) (h4 : c4 < 65536) (h5 : c5 < 65536) :
    u32 (u32 (u32 (u32 (u32 (0 + u32 (c1 * 1492)) + u32 (c2 * 1492)) + u32 (c3 * 1492)) +
      u32 (c4 * 1492)) + u32 (c5 * 1492)) =
      c1 * 1492 + c2 * 1492 + c3 * 1492 + c4 * 1492 + c5 * 1492 := by
  unfold u32
  omega

/-- The sum of five table components, accumulated in 16 bits from 0, is exact
and lies in [-5000, 5000]. -/
theorem five_components_fit (a b c d e : Int)
    (ha : -1000 ≤ a ∧ a ≤ 1000) (hb : -1000 ≤ b ∧ b ≤ 1000) (hc : -1000 ≤ c ∧ c ≤ 1000)
    (hd : -1000 ≤ d ∧ d ≤ 1000) (he : -1000 ≤ e ∧ e ≤ 1000) :
    i16 (i16 (i16 (i16 (i16 (0 + a) + b) + c) + d) + e) = a + b + c + d + e ∧
    -5000 ≤ a + b + c + d + e ∧ a + b + c + d + e ≤ 5000 := by
  unfold i16
  omega

set_option maxRecDepth 100000 in
/-- C29 (code at the failing input): from the zero state, two closures and
five wind ticks reading north (samples (0, 1000), speeds 2984, 0, 0, 0, 0);
when the locals `avg_y` and `avg_spd` hold 30000 and 4294967000 on entry to
the summing loop, both sums wrap (to -30536 and 2688) and the 2-minute slot
receives (0, -6107, 537), not the exact truncated means (0, 1000, 596), which
is what is written when the locals hold 0. -/
theorem wind_sums_wrap_from_uninitialised :
    wind_avg_loop (fun _ => 0) (fun _ => 1000) (arrSet (fun _ => 0) 0 2984) 0 30000 4294967000 =
      (0, -30536, 2688) ∧
    (wind_run (northWindow 0 30000 4294967000) (zeroState 10 10)).map
        (fun s => (s.w_dir_2m_x 0, s.w_dir_2m_y 0, s.w_spd_2m 0)) =
      some (0, -6107, 537) ∧
    (wind_run (northWindow 0 0 0) (zeroState 10 10)).map
        (fun s => (s.w_dir_2m_x 0, s.w_dir_2m_y 0, s.w_spd_2m 0)) =
      some (0, 1000, 596) := by
  decide

end WSA80422

/-! ## The symmetry of the direction vector table -/

namespace WSA80422

set_option maxRecDepth 100000 in
/-- C30 (code at the failing input): the row of `WDIR_SSW` holds (382, -924)
where the quarter turn of the row of `WDIR_WNW`, (924, 383), is (383, -924);
the quarter-turn relation between rows `d` and `(d + 4) mod 16` fails exactly
at d = 3 and d = 7, and rows `d` and `(d + 8) mod 16` are not negated exactly
at d = 7 and d = 15. A window of two `WDIR_SSW`, two `WDIR_NNE` and one error
reading still stores (0, 0), the sum -2 being truncated by the division. -/
theorem ssw_row_breaks_the_symmetry :
    table_vec 3 = (924, 383) ∧ table_vec 7 = (382, -924) ∧
    quarter_turn (table_vec 3) = (383, -924) ∧
    table_vec 11 = (-924, -383) ∧ quarter_turn (table_vec 7) = (-924, -382) ∧
    table_vec 15 = (-383, 924) ∧
    (List.range 16).filter
      (fun d => decide (table_vec ((d + 4) % 16) ≠ quarter_turn (table_vec d))) = [3, 7] ∧
    (List.range 16).filter
      (fun d => decide (table_vec ((d + 8) % 16) ≠ (-(table_vec d).1, -(table_vec d).2))) =
        [7, 15] ∧
    (wind_run (windowTicks [520, 650, 520, 650, 1000] 0 0 0) (zeroState 10 10)).map
        (fun s => (s.w_dir_2m_x 0, s.w_dir_2m_y 0)) = some (0, 0) := by
  decide

end WSA80422
